import Mathlib

/-! BoardEase: the payment-confirmation reconciliation sequence.

Shallow embedding of `handlePaymentSuccess` from
`src/components/PaymentSuccessPage.jsx`.

The relational store is remote. Every `await supabase...` call of the source
is one remote call: it is answered from the current `Store`, unless the
environment `Env` makes that call fail, in which case the store is left
untouched and the call returns an error object. Clock readings, the random
suffix, the locale formatter and the key issued for an inserted tenant row are
supplied by the environment as well.
-/

namespace BoardEase

/-- Row keys and user ids. They are issued by the store or the identity
provider and are never falsy in the sense of the source language. -/
abbrev Id := Nat

/-- Error object of the store client (`bookingError`, `paymentError`, ...). -/
structure PgError where
  code : String
  message : String
deriving DecidableEq, Repr

/-- Row of table `rooms`. -/
structure Room where
  id : Id
  room_number : String
  price_monthly : Nat
  status : String
  updated_at : Option String := none
deriving DecidableEq, Repr

/-- Row of table `booking_requests`. -/
structure BookingRequest where
  id : Id
  room_id : Id
  requestor : Id
  status : String
  message : Option String := none
  decided_by : Option Id := none
  decided_at : Option String := none
  updated_at : Option String := none
deriving DecidableEq, Repr

/-- Row of table `tenants`. -/
structure Tenant where
  id : Id
  profile_id : Id
  room_id : Id
  status : String
  move_in_date : Option String := none
  tenant_name : Option String := none
  rent_start : Option String := none
  rent_due : Option String := none
deriving DecidableEq, Repr

/-- Row of table `payments`, with the columns written by `paymentData`
(source lines 113-126). -/
structure Payment where
  tenant_id : Id
  room_id : Id
  recorded_by : Id
  payment_date : String
  amount : Nat
  payment_status : String
  reference_no : String
  stripe_payment_intent_id : Option String
  payment_method : String
  currency : String
  paid_at : String
  notes : String
deriving DecidableEq, Repr

/-- The `gateway_response` object of a transaction row (source lines 151-155). -/
structure GatewayResponse where
  payment_intent : String
  processed_at : String
  booking_id : Id
deriving DecidableEq, Repr

/-- Row of table `payment_transactions` (source lines 142-156). -/
structure PaymentTransaction where
  booking_id : Id
  transaction_id : String
  payment_method : String
  amount : Nat
  currency : String
  status : String
  stripe_payment_intent_id : String
  stripe_charge_id : String
  gateway_response : GatewayResponse
deriving DecidableEq, Repr

/-- Row of table `notifications` (source lines 205-211). -/
structure Notification where
  user_id : Id
  from_user : String
  message : String
  type : String
  is_read : Bool
deriving DecidableEq, Repr

/-- The remote relational store: one list of rows per table. -/
structure Store where
  booking_requests : List BookingRequest
  rooms : List Room
  tenants : List Tenant
  payments : List Payment
  payment_transactions : List PaymentTransaction
  notifications : List Notification
deriving DecidableEq, Repr

/-- A booking row with its room embedded: the result shape of
the select with embedded `rooms(*)` (source line 44). The embedded room is null when no
room row has the referenced key. -/
structure BookingData where
  row : BookingRequest
  rooms : Option Room
deriving DecidableEq, Repr

/-- The query parameters read at source lines 31-32. -/
structure SearchParams where
  payment_intent : Option String
  redirect_status : Option String
deriving DecidableEq, Repr

/-- Component state (`useState` at source lines 15-18). -/
structure UiState where
  loading : Bool
  booking : Option BookingData
  room : Option Room
  error : Option String
deriving DecidableEq, Repr

/-- Everything the sequence obtains from outside the store contents: clock
readings (one per call site), the random suffix, the locale formatter, the key
the store issues for a new tenant row, and, for each remote call, the error it
fails with (`none` when the store answers the call). -/
structure Env where
  moveInDate : String
  paymentDate : String
  refNow : Nat
  paidAt : String
  txnNow : Nat
  randomSuffix : String
  processedAt : String
  bookingUpdatedAt : String
  roomUpdatedAt : String
  toLocaleString : Nat → String
  typeErrorMessage : String
  newTenantId : Id
  bookingFetchError : Option PgError
  paymentLookupError : Option PgError
  tenantLookupError : Option PgError
  tenantInsertError : Option PgError
  paymentInsertError : Option PgError
  transactionInsertError : Option PgError
  bookingUpdateError : Option PgError
  roomUpdateError : Option PgError
  notificationInsertError : Option PgError

/-- One remote call issued by the sequence, in the order of the source. -/
inductive RemoteCall where
  | selectBooking (id user : Id)
  | selectPayment (intent : Option String)
  | selectTenant (user room : Id)
  | insertTenant (row : Tenant)
  | insertPayment (row : Payment)
  | insertTransaction (row : PaymentTransaction)
  | updateBooking (id : Id)
  | updateRoom (id : Id)
  | insertNotification (row : Notification)
deriving DecidableEq, Repr

/-- Result pair `{ data, error }` of a store client call. -/
structure Response (α : Type) where
  data : Option α
  error : Option PgError

/-- The error the client reports when the row count does not fit. -/
def pgrst116 : PgError :=
  { code := "PGRST116", message := "JSON object requested, multiple (or no) rows returned" }

/-- Client modifier `.single()`: exactly one row, otherwise an error. -/
def single {α : Type} (fail : Option PgError) (rows : List α) : Response α :=
  match fail with
  | some e => { data := none, error := some e }
  | none =>
    match rows with
    | [r] => { data := some r, error := none }
    | _ => { data := none, error := some pgrst116 }

/-- Client modifier `.maybeSingle()`: no row gives null data without error,
one row gives that row, several rows give an error. -/
def maybeSingle {α : Type} (fail : Option PgError) (rows : List α) : Response α :=
  match fail with
  | some e => { data := none, error := some e }
  | none =>
    match rows with
    | [] => { data := none, error := none }
    | [r] => { data := some r, error := none }
    | _ => { data := none, error := some pgrst116 }

/-- Truthiness of a nullable string of the source language: the text when
the value is a non-empty string, nothing for null and for the empty string. -/
def truthy (v : Option String) : Option String :=
  match v with
  | some t => if t != "" then some t else none
  | none => none

/-- The text an equality filter compares a column with: a null argument is
sent as the literal text `null`. A null column equals no filter text. -/
def eqFilterText (v : Option String) : String :=
  match v with
  | some t => t
  | none => "null"

/-- Source lines 42-47: the booking with the given key owned by the caller,
its room embedded. -/
def fetchBooking (env : Env) (s : Store) (id user : Id) : Response BookingData :=
  single env.bookingFetchError
    ((s.booking_requests.filter (fun b => b.id == id && b.requestor == user)).map
      (fun b => { row := b, rooms := s.rooms.find? (fun r => r.id == b.room_id) }))

/-- Source lines 66-70: lookup of a payment by processor intent id. -/
def lookupPayment (env : Env) (s : Store) (intent : Option String) : Response Payment :=
  maybeSingle env.paymentLookupError
    (s.payments.filter (fun p => p.stripe_payment_intent_id == some (eqFilterText intent)))

/-- Source lines 80-85: lookup of a tenant by profile and room. -/
def lookupTenant (env : Env) (s : Store) (user room : Id) : Response Tenant :=
  maybeSingle env.tenantLookupError
    (s.tenants.filter (fun t => t.profile_id == user && t.room_id == room))

/-- Source lines 93-98: the tenant row to create. -/
def newTenantRow (env : Env) (user room : Id) : Tenant :=
  { id := env.newTenantId, profile_id := user, room_id := room,
    move_in_date := some env.moveInDate, status := "Active" }

/-- Source lines 113-126: the payment row to insert. -/
def paymentData (env : Env) (tenantId user : Id) (b : BookingRequest) (room : Room)
    (paymentIntent : Option String) : Payment :=
  { tenant_id := tenantId
    room_id := b.room_id
    recorded_by := user
    payment_date := env.paymentDate
    amount := room.price_monthly
    payment_status := "Paid"
    reference_no :=
      match truthy paymentIntent with
      | some t => t
      | none => "ref_" ++ toString env.refNow
    stripe_payment_intent_id := paymentIntent
    payment_method := "stripe"
    currency := "PHP"
    paid_at := env.paidAt
    notes := "Stripe Payment for Room " ++ room.room_number ++ " - Booking Request #"
      ++ toString b.id }

/-- Source lines 142-156: the transaction audit row. -/
def transactionData (env : Env) (b : BookingRequest) (room : Room) (intent : String) :
    PaymentTransaction :=
  { booking_id := b.id
    transaction_id := "txn_" ++ toString env.txnNow ++ "_" ++ env.randomSuffix
    payment_method := "stripe"
    amount := room.price_monthly
    currency := "PHP"
    status := "succeeded"
    stripe_payment_intent_id := intent
    stripe_charge_id := intent
    gateway_response :=
      { payment_intent := intent, processed_at := env.processedAt, booking_id := b.id } }

/-- Source lines 205-211: the confirmation notification. -/
def notificationRow (env : Env) (user : Id) (room : Room) : Notification :=
  { user_id := user
    from_user := "System"
    message := "Your payment for Room " ++ room.room_number
      ++ " has been confirmed. Amount: ₱" ++ env.toLocaleString room.price_monthly
      ++ ". Your booking is now approved!"
    type := "payment"
    is_read := false }

/-- Source lines 171-177: the update of `booking_requests` filtered by `id`. -/
def setBookingApproved (env : Env) (s : Store) (id : Id) : Store :=
  { s with booking_requests := s.booking_requests.map (fun b =>
      if b.id == id then
        { b with status := "Approved", updated_at := some env.bookingUpdatedAt }
      else b) }

/-- Source lines 187-193: the update of `rooms` filtered by `room_id`. -/
def setRoomOccupied (env : Env) (s : Store) (roomId : Id) : Store :=
  { s with rooms := s.rooms.map (fun r =>
      if r.id == roomId then
        { r with status := "Occupied", updated_at := some env.roomUpdatedAt }
      else r) }

/-- The store, the component state and the remote calls issued so far. -/
structure World where
  store : Store
  ui : UiState
  calls : List RemoteCall
deriving DecidableEq, Repr

/-- How the `try` block ends: by running to its end or a `return`, or by a
thrown error carrying a message. -/
inductive Flow where
  | done (w : World)
  | thrown (message : String) (w : World)
deriving DecidableEq, Repr

/-- Appends a remote call to the trace. -/
def World.call (w : World) (c : RemoteCall) : World :=
  { w with calls := w.calls ++ [c] }

/-- Source lines 139-220: the steps that follow the recorded payment. Each
remote call is issued, its error (if any) is only logged, and the next step
runs; the block ends with `setLoading(false)`. -/
def bestEffortSteps (env : Env) (w : World) (id user : Id) (b : BookingRequest)
    (room : Room) (paymentIntent : Option String) : World :=
  -- lines 140-167: transaction record, only for a truthy intent id
  let w1 : World :=
    match truthy paymentIntent with
    | some intent =>
      let row := transactionData env b room intent
      let wc := w.call (RemoteCall.insertTransaction row)
      match env.transactionInsertError with
      | some _ => wc
      | none =>
        { wc with store :=
            { wc.store with
              payment_transactions := wc.store.payment_transactions ++ [row] } }
    | none => w
  -- lines 169-183: booking status
  let w2c := w1.call (RemoteCall.updateBooking id)
  let w2 : World :=
    match env.bookingUpdateError with
    | some _ => w2c
    | none => { w2c with store := setBookingApproved env w2c.store id }
  -- lines 185-199: room status
  let w3c := w2.call (RemoteCall.updateRoom b.room_id)
  let w3 : World :=
    match env.roomUpdateError with
    | some _ => w3c
    | none => { w3c with store := setRoomOccupied env w3c.store b.room_id }
  -- lines 201-217: notification
  let note := notificationRow env user room
  let w4c := w3.call (RemoteCall.insertNotification note)
  let w4 : World :=
    match env.notificationInsertError with
    | some _ => w4c
    | none =>
      { w4c with store :=
          { w4c.store with notifications := w4c.store.notifications ++ [note] } }
  -- line 220
  { w4 with ui := { w4.ui with loading := false } }

/-- Source lines 111-220: build and insert the payment row for the resolved
tenant, then run the remaining steps. Reading the price of a null embedded
room throws; a failed insertion throws. -/
def recordPayment (env : Env) (w : World) (tenantId id user : Id) (bd : BookingData)
    (paymentIntent : Option String) : Flow :=
  match bd.rooms with
  | none => Flow.thrown env.typeErrorMessage w
  | some room =>
    let row := paymentData env tenantId user bd.row room paymentIntent
    let wc := w.call (RemoteCall.insertPayment row)
    match env.paymentInsertError with
    | some e => Flow.thrown ("Failed to save payment: " ++ e.message) wc
    | none =>
      let wp : World :=
        { wc with store := { wc.store with payments := wc.store.payments ++ [row] } }
      Flow.done (bestEffortSteps env wp id user bd.row room paymentIntent)

/-- Source lines 87-89: the value `existingTenant?.id` as it passes the test
`!tenantId`. It is the key of the found row when that key is truthy; a null
lookup result and a key that is the number zero both lead to the creation of
a tenant. -/
def existingTenantId (existingTenant : Response Tenant) : Option Id :=
  match existingTenant.data with
  | some t => if t.id != 0 then some t.id else none
  | none => none

/-- Source lines 78-109 followed by the rest of the block: reuse the tenant
found for the caller and the room when its key is truthy, or create one; a
failed creation throws. -/
def resolveTenant (env : Env) (w : World) (id user : Id) (bd : BookingData)
    (paymentIntent : Option String) : Flow :=
  let existingTenant := lookupTenant env w.store user bd.row.room_id
  let wl := w.call (RemoteCall.selectTenant user bd.row.room_id)
  -- lines 87-89: the key of the found row, tested for truthiness
  match existingTenantId existingTenant with
  | some tenantId => recordPayment env wl tenantId id user bd paymentIntent
  | none =>
    let row := newTenantRow env user bd.row.room_id
    let wc := wl.call (RemoteCall.insertTenant row)
    match env.tenantInsertError with
    | some _ => Flow.thrown "Failed to create tenant record" wc
    | none =>
      let wt : World :=
        { wc with store := { wc.store with tenants := wc.store.tenants ++ [row] } }
      recordPayment env wt row.id id user bd paymentIntent

/-- Source lines 27-220: the body of the `try` block. -/
def tryBlock (env : Env) (ui : UiState) (s : Store) (id user : Id) (q : SearchParams) :
    Flow :=
  -- lines 28-32
  let w0 : World :=
    { store := s, ui := { ui with loading := true, error := none }, calls := [] }
  let paymentIntent := q.payment_intent
  -- lines 40-59: booking with room details
  let fetched := fetchBooking env w0.store id user
  let w1 := w0.call (RemoteCall.selectBooking id user)
  match fetched.error with
  | some e =>
    Flow.thrown
      (if e.code == "PGRST116" then "Booking not found."
       else "Failed to verify booking: " ++ e.message) w1
  | none =>
    match fetched.data with
    | none => Flow.thrown "Booking does not exist." w1
    | some bd =>
      -- lines 62-63
      let w2 : World := { w1 with ui := { w1.ui with booking := some bd, room := bd.rooms } }
      -- lines 65-76: already processed?
      let existingPayment := lookupPayment env w2.store paymentIntent
      let w3 := w2.call (RemoteCall.selectPayment paymentIntent)
      match existingPayment.data with
      | some _ => Flow.done { w3 with ui := { w3.ui with loading := false } }
      | none => resolveTenant env w3 id user bd paymentIntent

/-- Source lines 222-227: the `catch` clause stores the message of the thrown
error, or the generic one when that message is empty, and clears the loading
flag. A block that was not interrupted leaves the state as it is. -/
def catchClause (f : Flow) : World :=
  match f with
  | Flow.done w => w
  | Flow.thrown message w =>
    { w with ui :=
        { w.ui with
          error := some (if message != "" then message else "Failed to confirm payment")
          loading := false } }

/-- Source lines 26-228: `handlePaymentSuccess`. -/
def handlePaymentSuccess (env : Env) (ui : UiState) (s : Store) (id user : Id)
    (q : SearchParams) : World :=
  catchClause (tryBlock env ui s id user q)

/-- Component state before the effect runs (source lines 15-18). -/
def initialUi : UiState :=
  { loading := true, booking := none, room := none, error := none }

/-! ## Observations on a finished run -/

/-- Whether a remote call is the insertion of a payment row. -/
def RemoteCall.isPaymentInsert (c : RemoteCall) : Bool :=
  match c with
  | RemoteCall.insertPayment _ => true
  | _ => false

/-- Whether a remote call is the insertion of a transaction audit row. -/
def RemoteCall.isTransactionInsert (c : RemoteCall) : Bool :=
  match c with
  | RemoteCall.insertTransaction _ => true
  | _ => false

/-- The run issued the payment insertion (step 4 was reached). -/
def issuedPaymentInsert (w : World) : Bool :=
  w.calls.any RemoteCall.isPaymentInsert

/-- The run issued the transaction audit insertion (step 5 was attempted). -/
def issuedTransactionInsert (w : World) : Bool :=
  w.calls.any RemoteCall.isTransactionInsert

/-- Steps 1 to 4 succeeded in a finished run: the payment insertion was
issued and the run ended without an error message. -/
def fatalStepsSucceeded (w : World) : Prop :=
  issuedPaymentInsert w = true ∧ w.ui.error = none

instance (w : World) : Decidable (fatalStepsSucceeded w) := by
  unfold fatalStepsSucceeded; infer_instance

/-- The audit call of lines 140-167: issued for a truthy intent id only. -/
def auditCalls (env : Env) (b : BookingRequest) (room : Room)
    (paymentIntent : Option String) : List RemoteCall :=
  match truthy paymentIntent with
  | some intent => [RemoteCall.insertTransaction (transactionData env b room intent)]
  | none => []

/-- Component state after the booking is loaded (lines 28-29 and 62-63). -/
def loadedUi (bd : BookingData) : UiState :=
  { loading := true, booking := some bd, room := bd.rooms, error := none }

/-- How step 3 resolved the tenant: the key `tid` used for the payment row,
the store `sT` after the step and the remote calls `pre` issued so far. Either
the lookup returned a row with a truthy key, which is reused, or it gave no
such key and the insertion of a new row was accepted. -/
def TenantResolution (env : Env) (s : Store) (id user : Id) (paymentIntent : Option String)
    (room : Id) (tid : Id) (sT : Store) (pre : List RemoteCall) : Prop :=
  (∃ t, (lookupTenant env s user room).data = some t ∧ t.id ≠ 0 ∧ tid = t.id ∧ sT = s ∧
      pre = [RemoteCall.selectBooking id user, RemoteCall.selectPayment paymentIntent,
        RemoteCall.selectTenant user room]) ∨
  (existingTenantId (lookupTenant env s user room) = none ∧
      env.tenantInsertError = none ∧ tid = env.newTenantId ∧
      sT = { s with tenants := s.tenants ++ [newTenantRow env user room] } ∧
      pre = [RemoteCall.selectBooking id user, RemoteCall.selectPayment paymentIntent,
        RemoteCall.selectTenant user room,
        RemoteCall.insertTenant (newTenantRow env user room)])

/-! ## The scenario of the specification: booking B1, room price 5000, intent pi_123 -/

/-- An environment in which the store answers every remote call. -/
def envOk : Env :=
  { moveInDate := "2025-01-15"
    paymentDate := "2025-01-15"
    refNow := 1736899200000
    paidAt := "2025-01-15T00:00:00.000Z"
    txnNow := 1736899200001
    randomSuffix := "k3j9x0q2a"
    processedAt := "2025-01-15T00:00:00.001Z"
    bookingUpdatedAt := "2025-01-15T00:00:00.002Z"
    roomUpdatedAt := "2025-01-15T00:00:00.003Z"
    toLocaleString := fun n => toString n
    typeErrorMessage := "Cannot read properties of null"
    newTenantId := 21
    bookingFetchError := none
    paymentLookupError := none
    tenantLookupError := none
    tenantInsertError := none
    paymentInsertError := none
    transactionInsertError := none
    bookingUpdateError := none
    roomUpdateError := none
    notificationInsertError := none }

/-- A transport failure of a remote call. -/
def lostConnection : PgError :=
  { code := "08006", message := "connection lost" }

/-- Booking B1 (key 1) of user 7 for room 10, priced 5000 a month, pending;
no tenant, no payment. -/
def storeB1 : Store :=
  { booking_requests := [{ id := 1, room_id := 10, requestor := 7, status := "Pending" }]
    rooms := [{ id := 10, room_number := "101", price_monthly := 5000, status := "Available" }]
    tenants := []
    payments := []
    payment_transactions := []
    notifications := [] }

/-- The same store with tenant T9 (key 9) already present for user 7 and room 10. -/
def storeT9 : Store :=
  { storeB1 with
    tenants := [{ id := 9, profile_id := 7, room_id := 10, status := "Active" }] }

/-- The store of booking B1 with a single tenant row for user 7 and room 10
whose key is the number zero. -/
def storeT0 : Store :=
  { storeB1 with
    tenants := [{ id := 0, profile_id := 7, room_id := 10, status := "Active" }] }

/-- The return address `?payment_intent=pi_123&redirect_status=succeeded`. -/
def queryPi123 : SearchParams :=
  { payment_intent := some "pi_123", redirect_status := some "succeeded" }

/-- A return address without a payment intent. -/
def queryNoIntent : SearchParams :=
  { payment_intent := none, redirect_status := none }

/-- A payment row carrying the intent id `pi_123`, as an earlier run or a manual
entry may have left it. -/
def paidPi123 : Payment :=
  { tenant_id := 9
    room_id := 10
    recorded_by := 7
    payment_date := "2025-01-14"
    amount := 5000
    payment_status := "Paid"
    reference_no := "pi_123"
    stripe_payment_intent_id := some "pi_123"
    payment_method := "stripe"
    currency := "PHP"
    paid_at := "2025-01-14T00:00:00.000Z"
    notes := "Stripe Payment for Room 101 - Booking Request #1" }

/-- Store of booking B1 whose ledger already holds two rows for `pi_123`. -/
def storeTwoPayments : Store :=
  { storeB1 with payments := [paidPi123, paidPi123] }

/-- Store of booking B1 with two tenant rows (keys 9 and 8) for user 7 and room 10. -/
def storeTwoTenants : Store :=
  { storeB1 with
    tenants := [{ id := 9, profile_id := 7, room_id := 10, status := "Active" },
                { id := 8, profile_id := 7, room_id := 10, status := "Inactive" }] }

/-- Every remote call of a run is answered by the store. -/
def Env.allSucceed (env : Env) : Prop :=
  env.bookingFetchError = none ∧ env.paymentLookupError = none ∧
  env.tenantLookupError = none ∧ env.tenantInsertError = none ∧
  env.paymentInsertError = none ∧ env.transactionInsertError = none ∧
  env.bookingUpdateError = none ∧ env.roomUpdateError = none ∧
  env.notificationInsertError = none

instance (env : Env) : Decidable env.allSucceed := by
  unfold Env.allSucceed; infer_instance

/-! ## Admin decision, tenant removal and user cancellation

`handleApproveBooking` and `handleRemoveTenant` of
`src/components/admin/tenants.jsx`, `handleCancelBooking` of
`src/components/profile.jsx`. -/

/-- An entry of the pending-request list of the admin page (admin/tenants.jsx
lines 41-66): a booking row joined with its room number and the name of the
requesting profile. -/
structure RequestView where
  id : Id
  room_id : Id
  requestor : Id
  full_name : Option String
  room_number : Option String
deriving DecidableEq, Repr

/-- The fields of the decision form read at admin/tenants.jsx lines 151-155;
a field that is not in the form reads as null. -/
structure DecisionForm where
  approval : Option String
  message : Option String
  checkIn : Option String
  checkOut : Option String
deriving DecidableEq, Repr

/-- What an operation of the admin page or the profile page obtains from
outside the store contents: the answer to the confirmation dialog, the clock
reading, the key issued for a new tenant row, and for each remote write the
error it fails with (`none` when the store applies it). -/
structure OpEnv where
  confirmed : Bool
  decidedAt : String
  newTenantId : Id
  tenantInsertError : Option PgError
  tenantUpdateError : Option PgError
  roomUpdateError : Option PgError
  notificationInsertError : Option PgError
  bookingUpdateError : Option PgError
deriving DecidableEq, Repr

/-- One remote call or list refresh issued by these operations. -/
inductive OpCall where
  | insertTenant (row : Tenant)
  | updateTenant (id : Id) (status : String)
  | updateRoom (id : Id) (status : String)
  | insertNotification (row : Notification)
  | updateBooking (id : Id) (status : String)
  | selectBookingRoom (id : Id)
  | refresh (list : String)
deriving DecidableEq, Repr

/-- The store, the page state touched by the operations, the alerts shown
and the calls issued. -/
structure OpWorld where
  store : Store
  loading : Bool
  showBooking : Bool
  selectedRequest : Option RequestView
  alerts : List String
  calls : List OpCall
deriving DecidableEq, Repr

/-- How a `try` block of these operations ends. -/
inductive OpFlow where
  | done (w : OpWorld)
  | thrown (e : PgError) (w : OpWorld)
deriving DecidableEq, Repr

/-- Appends a call to the trace. -/
def OpWorld.call (w : OpWorld) (c : OpCall) : OpWorld :=
  { w with calls := w.calls ++ [c] }

/-- A nullable text inside a template literal. -/
def templateText (v : Option String) (whenNullish : String) : String :=
  match v with
  | some t => t
  | none => whenNullish

/-- The update `{ status }` of `rooms` filtered by key (admin/tenants.jsx lines
174-177 and 240-243). -/
def setRoomStatus (s : Store) (roomId : Id) (status : String) : Store :=
  { s with rooms := s.rooms.map (fun r =>
      if r.id == roomId then { r with status := status } else r) }

/-- The update `{ status }` of `tenants` filtered by key (admin/tenants.jsx lines
233-236). -/
def setTenantStatus (s : Store) (tenantId : Id) (status : String) : Store :=
  { s with tenants := s.tenants.map (fun t =>
      if t.id == tenantId then { t with status := status } else t) }

/-- The column `decided_by` after the update of admin/tenants.jsx line 207,
`decided_by: user?.id`: with a signed-in user the column takes the key of the
user; without one the value is undefined, the property is dropped from the
request, and the column keeps its value. -/
def decidedBy (decider : Option Id) (b : BookingRequest) : Option Id :=
  match decider with
  | some d => some d
  | none => b.decided_by

/-- The update of `booking_requests` filtered by key at admin/tenants.jsx lines
202-210: status, decision message, decider and decision time. -/
def setBookingDecision (s : Store) (id : Id) (status : String) (message : Option String)
    (decider : Option Id) (decidedAt : String) : Store :=
  { s with booking_requests := s.booking_requests.map (fun b =>
      if b.id == id then
        { b with status := status, message := message, decided_by := decidedBy decider b,
                 decided_at := some decidedAt }
      else b) }

/-- The update of `booking_requests` filtered by key at profile.jsx lines
236-242: status `Cancelled` and the decision time. -/
def setBookingCancelled (s : Store) (id : Id) (decidedAt : String) : Store :=
  { s with booking_requests := s.booking_requests.map (fun b =>
      if b.id == id then { b with status := "Cancelled", decided_at := some decidedAt }
      else b) }

/-- The tenant row of admin/tenants.jsx lines 163-170. -/
def approvedTenantRow (env : OpEnv) (r : RequestView) (form : DecisionForm) : Tenant :=
  { id := env.newTenantId
    room_id := r.room_id
    profile_id := r.requestor
    tenant_name := some (match truthy r.full_name with
      | some n => n
      | none => "Unknown")
    rent_start := form.checkIn
    rent_due := form.checkOut
    status := "Active" }

/-- The notification of admin/tenants.jsx lines 183-189 (approval) and 193-199
(decline). -/
def decisionNotification (r : RequestView) (form : DecisionForm) (approved : Bool) :
    Notification :=
  { user_id := r.requestor
    from_user := "Landlord"
    message := "Your booking for Room " ++ templateText r.room_number "undefined"
      ++ (if approved then " has been approved! " else " has been declined. ")
      ++ templateText form.message "null"
    type := "booking"
    is_read := false }

/-- An awaited notification insertion whose result is not inspected. -/
def insertNotificationQuietly (env : OpEnv) (w : OpWorld) (note : Notification) : OpWorld :=
  let wc := w.call (OpCall.insertNotification note)
  match env.notificationInsertError with
  | some _ => wc
  | none =>
    { wc with store := { wc.store with notifications := wc.store.notifications ++ [note] } }

/-- The `try` block of `handleApproveBooking` (admin/tenants.jsx lines 157-219)
for a selected request. -/
def approveTryBlock (env : OpEnv) (w0 : OpWorld) (r : RequestView) (form : DecisionForm)
    (adminId : Option Id) : OpFlow :=
  let w1 : OpWorld := { w0 with loading := true }
  let approved : Bool := form.approval == some "Approve"
  -- lines 160-199
  let branch : OpFlow :=
    if approved then
      let row := approvedTenantRow env r form
      let wt := w1.call (OpCall.insertTenant row)
      match env.tenantInsertError with
      | some e => OpFlow.thrown e wt
      | none =>
        let wt2 : OpWorld :=
          { wt with store := { wt.store with tenants := wt.store.tenants ++ [row] } }
        let wr := wt2.call (OpCall.updateRoom r.room_id "Occupied")
        match env.roomUpdateError with
        | some e => OpFlow.thrown e wr
        | none =>
          let wr2 : OpWorld :=
            { wr with store := setRoomStatus wr.store r.room_id "Occupied" }
          OpFlow.done (insertNotificationQuietly env wr2 (decisionNotification r form true))
    else
      OpFlow.done (insertNotificationQuietly env w1 (decisionNotification r form false))
  match branch with
  | OpFlow.thrown e w => OpFlow.thrown e w
  | OpFlow.done w2 =>
    -- lines 202-212
    let status := if approved then "Approved" else "Declined"
    let wb := w2.call (OpCall.updateBooking r.id status)
    match env.bookingUpdateError with
    | some e => OpFlow.thrown e wb
    | none =>
      let wb2 : OpWorld :=
        { wb with store :=
            setBookingDecision wb.store r.id status form.message adminId env.decidedAt }
      -- lines 214-218
      OpFlow.done
        { wb2 with
          alerts := wb2.alerts ++
            ["Booking " ++ (if approved then "approved" else "declined") ++ " successfully!"]
          showBooking := false
          selectedRequest := none
          calls := wb2.calls ++ [OpCall.refresh "tenants", OpCall.refresh "booking_requests"] }

/-- The `catch` and `finally` clauses shared by the admin operations: the
error is shown in an alert and the loading flag is cleared. -/
def opCatchFinally (heading : String) (f : OpFlow) : OpWorld :=
  match f with
  | OpFlow.done w => { w with loading := false }
  | OpFlow.thrown e w =>
    { w with alerts := w.alerts ++ [heading ++ e.message], loading := false }

/-- Admin/tenants.jsx lines 147-225: `handleApproveBooking`. Without a selected
request the handler returns at once. -/
def handleApproveBooking (env : OpEnv) (w : OpWorld) (form : DecisionForm)
    (adminId : Option Id) : OpWorld :=
  match w.selectedRequest with
  | none => w
  | some r =>
    opCatchFinally "Error processing booking: " (approveTryBlock env w r form adminId)

/-- The notification of admin/tenants.jsx lines 247-253. -/
def removalNotification (profileId : Id) : Notification :=
  { user_id := profileId
    from_user := "Landlord"
    message := "Your tenancy has been terminated. Please contact the landlord for more details."
    type := "maintenance"
    is_read := false }

/-- The `try` block of `handleRemoveTenant` (admin/tenants.jsx lines 230-257). -/
def removeTryBlock (env : OpEnv) (w0 : OpWorld) (tenantId roomId profileId : Id) : OpFlow :=
  let w1 : OpWorld := { w0 with loading := true }
  let wt := w1.call (OpCall.updateTenant tenantId "Inactive")
  match env.tenantUpdateError with
  | some e => OpFlow.thrown e wt
  | none =>
    let wt2 : OpWorld := { wt with store := setTenantStatus wt.store tenantId "Inactive" }
    let wr := wt2.call (OpCall.updateRoom roomId "Available")
    match env.roomUpdateError with
    | some e => OpFlow.thrown e wr
    | none =>
      let wr2 : OpWorld := { wr with store := setRoomStatus wr.store roomId "Available" }
      let wn := insertNotificationQuietly env wr2 (removalNotification profileId)
      OpFlow.done
        { wn with
          alerts := wn.alerts ++ ["Tenant removed successfully!"]
          calls := wn.calls ++ [OpCall.refresh "tenants"] }

/-- Admin/tenants.jsx lines 227-265: `handleRemoveTenant`. A declined
confirmation dialog ends the handler at once. -/
def handleRemoveTenant (env : OpEnv) (w : OpWorld) (tenantId roomId profileId : Id) :
    OpWorld :=
  if env.confirmed then
    opCatchFinally "Error removing tenant: " (removeTryBlock env w tenantId roomId profileId)
  else w

/-- Profile.jsx lines 224-256: `handleCancelBooking`. The booking is read first
(the result is not used), then its status is set to `Cancelled`; an error of
the update is shown in an alert. The handler has no `finally` clause and does
not touch the loading flag. -/
def handleCancelBooking (env : OpEnv) (w : OpWorld) (bookingId : Id) : OpWorld :=
  if env.confirmed then
    let w1 := w.call (OpCall.selectBookingRoom bookingId)
    let w2 := w1.call (OpCall.updateBooking bookingId "Cancelled")
    match env.bookingUpdateError with
    | some e =>
      { w2 with alerts := w2.alerts ++ ["Error cancelling booking: " ++ e.message] }
    | none =>
      { w2 with
        store := setBookingCancelled w2.store bookingId env.decidedAt
        alerts := w2.alerts ++ ["Booking cancelled successfully!"]
        calls := w2.calls ++ [OpCall.refresh "bookings"] }
  else w

/-- The admin or profile page over a store, before an operation runs. -/
def pageOver (s : Store) (selected : Option RequestView) : OpWorld :=
  { store := s, loading := false, showBooking := true, selectedRequest := selected,
    alerts := [], calls := [] }

/-- An environment in which the dialog is confirmed and every write is applied. -/
def opOk : OpEnv :=
  { confirmed := true
    decidedAt := "2025-01-14T09:00:00.000Z"
    newTenantId := 31
    tenantInsertError := none
    tenantUpdateError := none
    roomUpdateError := none
    notificationInsertError := none
    bookingUpdateError := none }

/-- The same environment in which the store issues the key zero for the new
tenant row. -/
def opKeyZero : OpEnv :=
  { opOk with newTenantId := 0 }

/-- Every write of an operation is applied by the store. -/
def OpEnv.allSucceed (env : OpEnv) : Prop :=
  env.tenantInsertError = none ∧ env.tenantUpdateError = none ∧
  env.roomUpdateError = none ∧ env.notificationInsertError = none ∧
  env.bookingUpdateError = none

instance (env : OpEnv) : Decidable env.allSucceed := by
  unfold OpEnv.allSucceed; infer_instance

/-- The pending request of booking B1 as the admin page lists it. -/
def requestB1 : RequestView :=
  { id := 1, room_id := 10, requestor := 7, full_name := some "Ana Cruz",
    room_number := some "101" }

/-- A decision form approving with check-in and check-out dates. -/
def approveForm : DecisionForm :=
  { approval := some "Approve"
    message := some "Please pay after booking confirmation."
    checkIn := some "2025-02-01"
    checkOut := some "2025-07-31" }

/-- A decision form with the other option of the approval field. -/
def declineForm : DecisionForm :=
  { approval := some "Decline"
    message := some "The room is no longer offered."
    checkIn := some "2025-02-01"
    checkOut := some "2025-07-31" }

/-- The status changes between two versions of the booking table, row by row:
the pairs (old status, new status) of the rows whose status differs. -/
def statusChanges (before after : List BookingRequest) : List (String × String) :=
  ((before.zip after).filter (fun p => p.1.status != p.2.status)).map
    (fun p => (p.1.status, p.2.status))

/-- The transitions of the state machine of the specification. -/
def allowedTransition (change : String × String) : Bool :=
  change == ("Pending", "Approved") || change == ("Pending", "Declined") ||
  change == ("Pending", "Cancelled") || change == ("Approved", "Cancelled")

/-- Store of booking B1 after the user cancelled it. -/
def storeCancelledB1 : Store :=
  { storeB1 with
    booking_requests := [{ id := 1, room_id := 10, requestor := 7, status := "Cancelled",
                           decided_at := some "2025-01-13T08:00:00.000Z" }] }


/-- Store of booking B1 after the admin declined it. -/
def storeDeclinedB1 : Store :=
  { storeB1 with
    booking_requests := [{ id := 1, room_id := 10, requestor := 7, status := "Declined",
                           decided_by := some 2,
                           decided_at := some "2025-01-13T08:00:00.000Z" }] }


/-- The consistent end state of the two approval paths: exactly one tenant row
for the requestor and the room, with status `Active`; exactly one payment row
carrying the intent id, referring to that tenant; every booking row with the
key of the booking `Approved`, the booking of the requestor among them; every
room row with the key of the room `Occupied`, and there is one. -/
def ConvergedState (s : Store) (bookingId requestor roomId : Id) (intent : String) : Prop :=
  (∃ t p,
    s.tenants.filter (fun x => x.profile_id == requestor && x.room_id == roomId) = [t] ∧
    t.status = "Active" ∧
    s.payments.filter (fun x => x.stripe_payment_intent_id == some intent) = [p] ∧
    p.tenant_id = t.id) ∧
  (∀ x ∈ s.booking_requests, x.id = bookingId → x.status = "Approved") ∧
  (∃ x ∈ s.booking_requests, x.id = bookingId ∧ x.requestor = requestor) ∧
  (∀ r ∈ s.rooms, r.id = roomId → r.status = "Occupied") ∧
  (∃ r ∈ s.rooms, r.id = roomId)


/-! ## Payment intent issuance

The request handler of `api/create-payment-intent.js`. The amount of the
request body is a JSON number, hence a binary64 floating-point number of the
source language: the product `amount * 100` is rounded to the nearest
binary64 number (ties to the even significand) before `Math.round` is
applied. -/

/-- A finite binary64 number, standing for (-1)^neg * m * 2^e. Every finite
binary64 number has such a form with m below 2^53 and e from -1074 to 971. -/
structure Double where
  neg : Bool
  m : Nat
  e : Int
deriving DecidableEq, Repr

/-- The form is one of a binary64 number. -/
def Double.wellFormed (d : Double) : Prop :=
  d.m < 2 ^ 53 ∧ -1074 ≤ d.e ∧ d.e ≤ 971

instance (d : Double) : Decidable d.wellFormed := by
  unfold Double.wellFormed; infer_instance

/-- The rational number a finite binary64 number stands for. -/
def Double.toRat (d : Double) : ℚ :=
  (if d.neg then -1 else 1) * (d.m : ℚ) * (2 : ℚ) ^ d.e

/-- A number of the source language as the handler meets it: finite, or an
infinity (a JSON literal beyond the range, or a product that overflows). -/
inductive JsNumber where
  | finite (d : Double)
  | infinite (neg : Bool)
deriving DecidableEq, Repr

/-- The value of `req.body.amount`: absent, null or a number. -/
inductive JsAmount where
  | undefined
  | null
  | number (x : JsNumber)
deriving DecidableEq, Repr

/-- The value of `req.body.bookingId`: absent, a number or a text. -/
inductive JsKey where
  | undefined
  | number (n : Nat)
  | text (s : String)
deriving DecidableEq, Repr

/-- The number of low bits by which a significand exceeds 53 bits: the number
of halvings that bring it below 2^53. The first argument bounds the number of
halvings and is taken as the significand itself. -/
def excessBits (bound n : Nat) : Nat :=
  match bound with
  | 0 => 0
  | bound + 1 => if n < 2 ^ 53 then 0 else excessBits bound (n / 2) + 1

/-- Rounding of an integer significand to 53 bits, ties to the even
significand: the rounded significand and the number of low bits dropped. -/
def roundToSignificand (n : Nat) : Nat × Nat :=
  let sh := excessBits n n
  if sh = 0 then (n, 0)
  else
    let q := n / 2 ^ sh
    let r := n % 2 ^ sh
    let half := 2 ^ (sh - 1)
    if half < r ∨ (r = half ∧ q % 2 = 1) then (q + 1, sh) else (q, sh)

/-- The binary64 number nearest to (-1)^neg * n * 2^e, for a significand n
of any size: an infinity when the rounded magnitude reaches 2^1024. -/
def Double.round (neg : Bool) (n : Nat) (e : Int) : JsNumber :=
  let qs := roundToSignificand n
  let e2 := e + (qs.2 : Int)
  if 0 ≤ e2 ∧ 2 ^ 1024 ≤ qs.1 * 2 ^ e2.toNat then JsNumber.infinite neg
  else if qs.1 = 2 ^ 53 then JsNumber.finite { neg := neg, m := 2 ^ 52, e := e2 + 1 }
  else JsNumber.finite { neg := neg, m := qs.1, e := e2 }

/-- The product `amount * 100` (source line 35): the exact product 100 * m * 2^e
rounded to binary64. -/
def mulHundred (x : JsNumber) : JsNumber :=
  match x with
  | JsNumber.infinite neg => JsNumber.infinite neg
  | JsNumber.finite d => Double.round d.neg (100 * d.m) d.e

/-- The function `Math.round`: the integer nearest to the argument, the one
closer to positive infinity when two integers are equally near. -/
def mathRound (x : JsNumber) : JsNumber :=
  match x with
  | JsNumber.infinite neg => JsNumber.infinite neg
  | JsNumber.finite d =>
    if 0 ≤ d.e then JsNumber.finite d
    else
      let k := 2 ^ (-d.e).toNat
      let q := d.m / k
      let r := d.m % k
      if d.neg then
        JsNumber.finite { neg := true, m := if k < 2 * r then q + 1 else q, e := 0 }
      else
        JsNumber.finite { neg := false, m := if k ≤ 2 * r then q + 1 else q, e := 0 }

/-- The test `!amount || amount <= 0` of source line 28. -/
def amountRejected (a : JsAmount) : Bool :=
  match a with
  | JsAmount.undefined => true
  | JsAmount.null => true
  | JsAmount.number (JsNumber.infinite neg) => neg
  | JsAmount.number (JsNumber.finite d) => d.m == 0 || d.neg

/-- The number an amount multiplies as; null and an absent value do not reach
the product. -/
def JsAmount.toNumber (a : JsAmount) : JsNumber :=
  match a with
  | JsAmount.number x => x
  | _ => JsNumber.finite { neg := false, m := 0, e := 0 }

/-- The expression `bookingId || 'N/A'` of source line 44. -/
def JsKey.orNA (k : JsKey) : JsKey :=
  match k with
  | JsKey.undefined => JsKey.text "N/A"
  | JsKey.number n => if n = 0 then JsKey.text "N/A" else JsKey.number n
  | JsKey.text s => if s = "" then JsKey.text "N/A" else JsKey.text s

/-- The parsed body of a request, `req.body`: absent (undefined or null, as
for a request sent without a body), in which case destructuring it raises a
TypeError whose message the engine words; or a value with its properties
`amount` and `bookingId`. -/
inductive IntentBody where
  | absent (typeErrorMessage : String)
  | fields (amount : JsAmount) (bookingId : JsKey)
deriving DecidableEq, Repr

/-- The request as the handler reads it: the verb and the parsed body. -/
structure IntentRequest where
  method : String
  body : IntentBody
deriving DecidableEq, Repr

/-- The property `amount` of the body; an absent body carries none. -/
def IntentRequest.amount (req : IntentRequest) : JsAmount :=
  match req.body with
  | IntentBody.fields amount _ => amount
  | IntentBody.absent _ => JsAmount.undefined

/-- The property `bookingId` of the body; an absent body carries none. -/
def IntentRequest.bookingId (req : IntentRequest) : JsKey :=
  match req.body with
  | IntentBody.fields _ bookingId => bookingId
  | IntentBody.absent _ => JsKey.undefined

/-- The argument of `stripe.paymentIntents.create` (source lines 37-46). -/
structure IntentParams where
  amount : JsNumber
  currency : String
  automaticPaymentMethods : Bool
  metadataBookingId : JsKey
deriving DecidableEq, Repr

/-- The answer of the processor to a creation call: the created intent, or a
thrown error with its message, which may be absent. -/
inductive ProcessorAnswer where
  | created (id : String) (client_secret : String)
  | failed (message : Option String)
deriving DecidableEq, Repr

/-- The body of the response. -/
inductive ResponseBody where
  | empty
  | error (error : String)
  | intent (clientSecret : String) (paymentIntentId : String)
deriving DecidableEq, Repr

/-- What the handler did: the headers set, the status and body sent, and the
creation calls made to the processor. -/
structure HandlerResult where
  headers : List (String × String)
  status : Nat
  body : ResponseBody
  createCalls : List IntentParams
deriving DecidableEq, Repr

/-- The headers of source lines 6-12. -/
def corsHeaders : List (String × String) :=
  [("Access-Control-Allow-Credentials", "true"),
   ("Access-Control-Allow-Origin", "*"),
   ("Access-Control-Allow-Methods", "GET,OPTIONS,PATCH,DELETE,POST,PUT"),
   ("Access-Control-Allow-Headers",
    "X-CSRF-Token, X-Requested-With, Accept, Accept-Version, Content-Length, Content-MD5, Content-Type, Date, X-Api-Version")]

/-- The handler exported by `api/create-payment-intent.js` (source lines 4-61).
The processor is the function answering a creation call. -/
def createPaymentIntent (processor : IntentParams → ProcessorAnswer) (req : IntentRequest) :
    HandlerResult :=
  -- lines 14-17
  if req.method == "OPTIONS" then
    { headers := corsHeaders, status := 200, body := ResponseBody.empty, createCalls := [] }
  -- lines 19-21
  else if req.method != "POST" then
    { headers := corsHeaders, status := 405, body := ResponseBody.error "Method not allowed",
      createCalls := [] }
  else
    -- line 27: the body is destructured inside the `try` block
    match req.body with
    | IntentBody.absent typeErrorMessage =>
      -- lines 55-60: the TypeError is caught
      { headers := corsHeaders, status := 500
        body := ResponseBody.error
          (match truthy (some typeErrorMessage) with
           | some m => m
           | none => "Payment intent creation failed")
        createCalls := [] }
    | IntentBody.fields amount bookingId =>
      -- lines 28-30
      if amountRejected amount then
        { headers := corsHeaders, status := 400, body := ResponseBody.error "Invalid amount",
          createCalls := [] }
      else
        -- lines 35-46
        let amountInCents := mathRound (mulHundred amount.toNumber)
        let params : IntentParams :=
          { amount := amountInCents
            currency := "php"
            automaticPaymentMethods := true
            metadataBookingId := bookingId.orNA }
        match processor params with
        -- lines 50-53
        | ProcessorAnswer.created id secret =>
          { headers := corsHeaders, status := 200, body := ResponseBody.intent secret id,
            createCalls := [params] }
        -- lines 55-60
        | ProcessorAnswer.failed message =>
          { headers := corsHeaders, status := 500
            body := ResponseBody.error
              (match truthy message with
               | some m => m
               | none => "Payment intent creation failed")
            createCalls := [params] }

/-- The amount 1500.5 = 3001 * 2^-1. -/
def amount1500_5 : Double := { neg := false, m := 3001, e := -1 }

/-- The binary64 number nearest to 0.015: 1080863910568919 * 2^-56, a little
below 0.015. -/
def amount0_015 : Double := { neg := false, m := 1080863910568919, e := -56 }

/-- The binary64 number nearest to 1.005: 1131529406376837 * 2^-50, a little
below 1.005. -/
def amount1_005 : Double := { neg := false, m := 1131529406376837, e := -50 }

/-- The amount -5. -/
def amountMinus5 : Double := { neg := true, m := 5, e := 0 }

/-- A processor that accepts every creation call. -/
def acceptingProcessor (_ : IntentParams) : ProcessorAnswer :=
  ProcessorAnswer.created "pi_123" "pi_123_secret_abc"

/-- A processor that rejects every creation call without a message. -/
def silentProcessor (_ : IntentParams) : ProcessorAnswer :=
  ProcessorAnswer.failed none

/-- A POST request for an amount and booking 1. -/
def postAmount (a : JsAmount) : IntentRequest :=
  { method := "POST", body := IntentBody.fields a (JsKey.number 1) }

/-- A POST request sent without a body; the text is the message of the
TypeError raised by the destructuring of source line 27. -/
def postWithoutBody : IntentRequest :=
  { method := "POST"
    body := IntentBody.absent
      "Cannot destructure property amount of req.body as it is undefined." }


/-- The creation parameters the handler builds for a request (source lines
35-46). -/
def intentParamsOf (req : IntentRequest) : IntentParams :=
  { amount := mathRound (mulHundred req.amount.toNumber)
    currency := "php"
    automaticPaymentMethods := true
    metadataBookingId := req.bookingId.orNA }


/-! ## Form validation

The function `getValidationErrors` of `src/utils/validation.js`. -/

/-- A field of the form data: absent, null or a text. -/
inductive JsField where
  | undefined
  | null
  | text (s : String)
deriving DecidableEq, Repr

/-- The form data read by the validation: the login form holds `login` and
`password`, the signup form `email`, `password` and `confirmPassword`. -/
structure FormData where
  email : JsField := JsField.undefined
  login : JsField := JsField.undefined
  password : JsField := JsField.undefined
  confirmPassword : JsField := JsField.undefined
deriving DecidableEq, Repr

/-- The `errors` object: one optional message per key. -/
structure ValidationErrors where
  email : Option String := none
  login : Option String := none
  password : Option String := none
  confirmPassword : Option String := none
deriving DecidableEq, Repr

/-- Truthiness of a field: a non-empty text. -/
def JsField.isTruthy (v : JsField) : Bool :=
  match v with
  | JsField.text s => s != ""
  | _ => false

/-- The operator `??`: the right operand when the left one is absent or null. -/
def JsField.orNullish (a b : JsField) : JsField :=
  match a with
  | JsField.undefined => b
  | JsField.null => b
  | JsField.text s => JsField.text s

/-- The class `\s` of the regular expression engine. -/
def isRegexSpace (c : Char) : Bool :=
  let n := c.toNat
  (9 ≤ n && n ≤ 13) || n == 32 || n == 160 || n == 5760 || (8192 ≤ n && n ≤ 8202) ||
  n == 8232 || n == 8233 || n == 8239 || n == 8287 || n == 12288 || n == 65279

/-- The negated class of the pattern: neither whitespace nor the at sign. -/
def isAddressChar (c : Char) : Bool :=
  !isRegexSpace c && c != '@'

/-- The part of the pattern after the at sign, up to the end of the text: address
characters only, with a dot that is neither the first nor the last. -/
def matchDomain (cs : List Char) : Bool :=
  cs.all isAddressChar && ((cs.drop 1).dropLast).contains '.'

/-- The test of the pattern of source line 6 on a text: one or more address
characters, an at sign, then a domain part. -/
def emailRegexTest (s : String) : Bool :=
  let cs := s.toList
  let localPart := cs.takeWhile isAddressChar
  !localPart.isEmpty &&
    match cs.dropWhile isAddressChar with
    | '@' :: domain => matchDomain domain
    | _ => false

/-- The property `length` of a text: its number of UTF-16 code units. -/
def utf16Length (s : String) : Nat :=
  s.toList.foldl (fun n c => n + (if c.toNat < 65536 then 1 else 2)) 0

/-- The condition `!identifier || !emailRegex.test(identifier)` of source
line 8. -/
def identifierInvalid (identifier : JsField) : Bool :=
  match identifier with
  | JsField.text s => s == "" || !emailRegexTest s
  | _ => true

/-- Source lines 1-28: `getValidationErrors`. -/
def getValidationErrors (formData : FormData) (isSignup : Bool) : ValidationErrors :=
  let errors : ValidationErrors := {}
  -- lines 5-14
  let identifier := formData.email.orNullish formData.login
  let errors1 : ValidationErrors :=
    if identifierInvalid identifier then
      if formData.email.isTruthy then
        { errors with email := some "Please enter a valid email address." }
      else if formData.login.isTruthy then
        { errors with login := some "Please enter a valid email address." }
      else errors
    else errors
  -- lines 17-25
  if isSignup then
    let errors2 : ValidationErrors :=
      if !formData.password.isTruthy ||
          (match formData.password with
           | JsField.text s => decide (utf16Length s < 8)
           | _ => false) then
        { errors1 with password := some "Password must be at least 8 characters." }
      else errors1
    if formData.password != formData.confirmPassword then
      { errors2 with confirmPassword := some "Passwords do not match." }
    else errors2
  else errors1

/-- The login form submitted with both fields left empty. -/
def emptyLoginForm : FormData :=
  { login := JsField.text "", password := JsField.text "" }

/-- The signup form submitted with the email left empty. -/
def emptyEmailSignupForm : FormData :=
  { email := JsField.text "", password := JsField.text "longenough1",
    confirmPassword := JsField.text "longenough1" }


/-- Store of booking B1 in which the only tenant row for user 7 and room 10
has status `Inactive` and the key zero. -/
def storeInactiveT0 : Store :=
  { storeB1 with
    tenants := [{ id := 0, profile_id := 7, room_id := 10, status := "Inactive" }] }

/-- Store of booking B1 in which the only tenant row for user 7 and room 10
(key 9) has status `Inactive`, as a removal by the admin leaves it. -/
def storeInactiveT9 : Store :=
  { storeB1 with
    tenants := [{ id := 9, profile_id := 7, room_id := 10, status := "Inactive" }] }


/-- The store with the ledger rows carrying the given intent id removed: the
store as it would be had no payment been recorded for that intent. -/
def withoutIntent (s : Store) (intent : Option String) : Store :=
  { s with
    payments := s.payments.filter
      (fun p => p.stripe_payment_intent_id != some (eqFilterText intent)) }

/-- The environment in which the payment lookup is answered by the store,
every other call behaving as in `env`. -/
def answeredPaymentLookup (env : Env) : Env :=
  { env with paymentLookupError := none }

/-- Two finished runs agree except for the ledgers they started from: the
same component state, the same remote calls in the same order, the same rows
in every other table, and the same rows appended to the respective ledgers. -/
def AgreeUpToLedger (w w1 : World) (ledger ledger1 : List Payment) : Prop :=
  w1.ui = w.ui ∧ w1.calls = w.calls ∧
  w1.store.booking_requests = w.store.booking_requests ∧
  w1.store.rooms = w.store.rooms ∧
  w1.store.tenants = w.store.tenants ∧
  w1.store.payment_transactions = w.store.payment_transactions ∧
  w1.store.notifications = w.store.notifications ∧
  ∃ d, w.store.payments = ledger ++ d ∧ w1.store.payments = ledger1 ++ d

/-- Store of booking B1 whose ledger holds the row for `pi_123` and tenant T9. -/
def storePaidT9 : Store :=
  { storeT9 with payments := [paidPi123] }


/-! ## Route protection

`ProtectedRoute` of `src/App.jsx`. -/

/-- The authentication state read through `useAuth` (contexts/authcontext.jsx
lines 15-18): the signed-in user or null, the role text and the flag set once
the session check has completed. -/
structure AuthState where
  user : Option Id
  userRole : String
  authChecked : Bool
deriving DecidableEq, Repr

/-- What a route wrapper renders: the loading screen, a redirect, or the
wrapped children. -/
inductive Rendered where
  | loadingScreen
  | navigate (path : String)
  | children
deriving DecidableEq, Repr

/-- App.jsx lines 49-65: `ProtectedRoute`. The property `requireAdmin` is
false unless the route passes it; only the route `/admin/*` passes true
(lines 165-173). -/
def ProtectedRoute (auth : AuthState) (requireAdmin : Bool) : Rendered :=
  if !auth.authChecked then Rendered.loadingScreen
  else if auth.user.isNone then Rendered.navigate "/login"
  else if requireAdmin && auth.userRole != "admin" then Rendered.navigate "/home"
  else Rendered.children

/-! ## The payment tab of the profile page

`getPaidBookingIds` and the entry `Payment` of `bookingData` in
`src/components/profile.jsx`. -/

/-- The room columns embedded in a booking of the user (profile.jsx line 82). -/
structure RoomSummary where
  room_number : String
  price_monthly : Nat
deriving DecidableEq, Repr

/-- A booking of the user as the page holds it: the row with its room
embedded, null when the room row is missing (profile.jsx lines 80-87). -/
structure UserBooking where
  row : BookingRequest
  rooms : Option RoomSummary
deriving DecidableEq, Repr

/-- An entry of the tab `Payment` (profile.jsx lines 263-268); the price is
absent when the embedded room is null. -/
structure PaymentTabItem where
  id : Id
  name : String
  status : String
  price : Option Nat
deriving DecidableEq, Repr

/-- Profile.jsx lines 212-220: `getPaidBookingIds`. Each payment with status
`Paid` is mapped to the key of the first booking in the list that has the room
of the payment and status `Approved`; payments without such a booking, and
keys that are falsy (the number zero), are dropped by `filter(Boolean)`. -/
def getPaidBookingIds (bookings : List UserBooking) (payments : List Payment) : List Id :=
  (((payments.filter (fun p => p.payment_status == "Paid")).map (fun p =>
      (bookings.find? (fun b => b.row.room_id == p.room_id && b.row.status == "Approved")).map
        (fun b => b.row.id))).filterMap (fun x => x)).filter (fun i => i != 0)

/-- The entry of the tab built from a booking (profile.jsx lines 263-268). -/
def paymentTabItem (b : UserBooking) : PaymentTabItem :=
  { id := b.row.id
    name := "Room " ++ (match b.rooms with
      | some r => r.room_number
      | none => "undefined")
    status := "AWAITING PAYMENT"
    price := b.rooms.map (fun r => r.price_monthly) }

/-- Profile.jsx lines 261-268: the entry `Payment` of `bookingData`, the
bookings with status `Approved` whose key is not among the paid keys. -/
def bookingData_Payment (bookings : List UserBooking) (payments : List Payment) :
    List PaymentTabItem :=
  let paidBookingIds := getPaidBookingIds bookings payments
  (bookings.filter (fun b =>
    b.row.status == "Approved" && !paidBookingIds.contains b.row.id)).map paymentTabItem

/-- The bookings the tab is meant to list, in the words of the specification:
the bookings with status `Approved` whose room has no payment with status
`Paid` among the payments of the user. -/
def approvedUnpaid (bookings : List UserBooking) (payments : List Payment) :
    List UserBooking :=
  bookings.filter (fun b =>
    b.row.status == "Approved" &&
      !payments.any (fun p => p.payment_status == "Paid" && p.room_id == b.row.room_id))

/-- A payment of user 7 for room 10 with status `Paid`. -/
def paidRoom10 : Payment := paidPi123

/-- Two approved bookings of user 7 for the same room 10 (keys 1 and 2). -/
def twoApprovedSameRoom : List UserBooking :=
  [{ row := { id := 1, room_id := 10, requestor := 7, status := "Approved" },
     rooms := some { room_number := "101", price_monthly := 5000 } },
   { row := { id := 2, room_id := 10, requestor := 7, status := "Approved" },
     rooms := some { room_number := "101", price_monthly := 5000 } }]

/-- Bookings of user 7: approved for room 10 (key 1), approved for room 11
(key 3), pending for room 12 (key 4). -/
def bookingsOfUser7 : List UserBooking :=
  [{ row := { id := 1, room_id := 10, requestor := 7, status := "Approved" },
     rooms := some { room_number := "101", price_monthly := 5000 } },
   { row := { id := 3, room_id := 11, requestor := 7, status := "Approved" },
     rooms := some { room_number := "102", price_monthly := 6000 } },
   { row := { id := 4, room_id := 12, requestor := 7, status := "Pending" },
     rooms := some { room_number := "103", price_monthly := 7000 } }]

/-! ## The filters of the room selection page

`applyFilters` and the capacity dropdown of
`src/components/roomSelection.jsx`. -/

/-- A room as the selection page holds it (roomSelection.jsx lines 29-37); the
columns read by the filters may be null. -/
structure RoomListing where
  id : Id
  rental_term : Option String
  capacity : Option String
  price_monthly : Nat
deriving DecidableEq, Repr

/-- The result of reading a property of the object `capacityMap`: absent, one
of its own texts, or a member inherited from the prototype of objects (a
function or an object, which is truthy and equal to no text). -/
inductive MapLookup where
  | undefined
  | text (s : String)
  | inherited
deriving DecidableEq, Repr

/-- The property names every object inherits. -/
def objectPrototypeKeys : List String :=
  ["constructor", "hasOwnProperty", "isPrototypeOf", "propertyIsEnumerable",
   "toLocaleString", "toString", "valueOf", "__proto__", "__defineGetter__",
   "__defineSetter__", "__lookupGetter__", "__lookupSetter__"]

/-- RoomSelection.jsx lines 61-67: the object `capacityMap` read at a key. -/
def capacityMap (key : String) : MapLookup :=
  if key == "One Person" then MapLookup.text "Single"
  else if key == "Two People" then MapLookup.text "Double"
  else if key == "Three People" then MapLookup.text "Family"
  else if key == "Four+ People" then MapLookup.text "Family"
  else if objectPrototypeKeys.contains key then MapLookup.inherited
  else MapLookup.undefined

/-- The method `replace` with a one-character pattern and an empty
replacement: the first occurrence is removed. -/
def removeFirst (c : Char) : List Char → List Char
  | [] => []
  | x :: xs => if x == c then xs else x :: removeFirst c xs

/-- The method `split` with a one-character separator. -/
def splitOnChar (sep : Char) : List Char → List (List Char)
  | [] => [[]]
  | c :: cs =>
    match splitOnChar sep cs with
    | [] => [[c]]
    | part :: parts => if c == sep then [] :: part :: parts else (c :: part) :: parts

/-- The comparison `price >= min`: false when the bound is not a number. -/
def priceAtLeast (price : Nat) (bound : Option Int) : Bool :=
  match bound with
  | some n => decide (n ≤ (price : Int))
  | none => false

/-- The comparison `price <= max`: false when the bound is not a number. -/
def priceAtMost (price : Nat) (bound : Option Int) : Bool :=
  match bound with
  | some n => decide ((price : Int) ≤ n)
  | none => false

/-- The state `applyFilters` sets (roomSelection.jsx lines 87-88). -/
structure SelectionState where
  filteredRooms : List RoomListing
  currentPage : Nat
deriving DecidableEq, Repr

/-- RoomSelection.jsx lines 51-89: `applyFilters` on the room list and the
three filter values of the page state, the empty text standing for no
selection. The global function `parseInt` is a parameter; it answers `none`
for a text that is not a number. -/
def applyFilters (parseInt : String → Option Int) (rooms : List RoomListing)
    (rentalTerm totalPax rentalRate : String) : SelectionState :=
  let filtered0 := rooms
  -- lines 54-57
  let filtered1 :=
    if rentalTerm != "" then filtered0.filter (fun room => room.rental_term == some rentalTerm)
    else filtered0
  -- lines 59-71
  let filtered2 :=
    if totalPax != "" then
      match capacityMap totalPax with
      | MapLookup.undefined => filtered1
      | MapLookup.text capacity =>
        if capacity != "" then filtered1.filter (fun room => room.capacity == some capacity)
        else filtered1
      | MapLookup.inherited => filtered1.filter (fun _ => false)
    else filtered1
  -- lines 73-85
  let filtered3 :=
    if rentalRate != "" then
      let bounds := (splitOnChar '-' rentalRate.toList).map
        (fun v => parseInt (String.mk (removeFirst '+' v)))
      let min := (bounds.get? 0).bind (fun x => x)
      let max := (bounds.get? 1).bind (fun x => x)
      filtered2.filter (fun room =>
        let price := room.price_monthly
        if rentalRate.toList.contains '+' then priceAtLeast price min
        else priceAtLeast price min && priceAtMost price max)
    else filtered2
  { filteredRooms := filtered3, currentPage := 1 }

/-- An option of a dropdown: the value it sets and the label it shows. -/
structure SelectOption where
  value : String
  label : String
deriving DecidableEq, Repr

/-- RoomSelection.jsx lines 246-250: the options of the capacity dropdown. -/
def capacityOptions : List SelectOption :=
  [{ value := "", label := "All Capacities" },
   { value := "Single Person", label := "One Person" },
   { value := "Two People", label := "Two People" },
   { value := "Three People", label := "Three People" },
   { value := "Four+ People", label := "Four+ People" }]

/-- The value `totalPax` takes when the option with the given label is chosen
(the change handler of the dropdown stores the value of the option). -/
def chooseCapacity (label : String) : Option String :=
  (capacityOptions.find? (fun o => o.label == label)).map (fun o => o.value)

/-- Three available rooms: a single, a double and a family room. -/
def roomsOnOffer : List RoomListing :=
  [{ id := 10, rental_term := some "One Month", capacity := some "Single",
     price_monthly := 5000 },
   { id := 11, rental_term := some "One Month", capacity := some "Double",
     price_monthly := 8000 },
   { id := 12, rental_term := some "One Year", capacity := some "Family",
     price_monthly := 12000 }]

/-! ## The recent activity of the admin dashboard

`fetchRecentActivity` and `getTimeAgo` of
`src/components/admin/dashboard.jsx`. -/

/-- The embedded `rooms(room_number)` of a payment row. -/
structure RoomRef where
  room_number : Option String
deriving DecidableEq, Repr

/-- The embedded `tenants(tenant_name)` of a payment row. -/
structure TenantRef where
  tenant_name : Option String
deriving DecidableEq, Repr

/-- A row of the recent-payments result (dashboard.jsx lines 107-112); the
creation time is the instant `new Date(created_at)` denotes, in milliseconds. -/
structure RecentPayment where
  id : Id
  created_at : Int
  rooms : Option RoomRef
  tenants : Option TenantRef
deriving DecidableEq, Repr

/-- A row of the recent-tenants result (dashboard.jsx lines 126-130). -/
structure RecentTenant where
  id : Id
  created_at : Int
  tenant_name : Option String
deriving DecidableEq, Repr

/-- An entry of the activity list (dashboard.jsx lines 116-121). -/
structure Activity where
  id : String
  title : String
  time : String
  type : String
deriving DecidableEq, Repr

/-- Dashboard.jsx lines 153-165: `getTimeAgo`, for the clock reading `now` and
the instant of the timestamp, both in milliseconds. -/
def getTimeAgo (now timestamp : Int) : String :=
  let diffMs := now - timestamp
  let diffMins := Int.fdiv diffMs 60000
  let diffHours := Int.fdiv diffMs 3600000
  let diffDays := Int.fdiv diffMs 86400000
  if diffMins < 1 then "Just now"
  else if diffMins < 60 then
    toString diffMins.toNat ++ " min" ++ (if diffMins > 1 then "s" else "") ++ " ago"
  else if diffHours < 24 then
    toString diffHours.toNat ++ " hour" ++ (if diffHours > 1 then "s" else "") ++ " ago"
  else toString diffDays.toNat ++ " day" ++ (if diffDays > 1 then "s" else "") ++ " ago"

/-- The method `localeCompare` on the texts `getTimeAgo` produces (digits,
spaces and letters), where the collation order is the order of the code
points, character by character. -/
def localeCompare : List Char → List Char → Ordering
  | [], [] => Ordering.eq
  | [], _ :: _ => Ordering.lt
  | _ :: _, [] => Ordering.gt
  | a :: as, b :: bs =>
    if a.toNat < b.toNat then Ordering.lt
    else if b.toNat < a.toNat then Ordering.gt
    else localeCompare as bs

/-- Inserts an entry into a sorted list, after the entries that do not compare
greater. -/
def insertByTime (a : Activity) : List Activity → List Activity
  | [] => [a]
  | b :: l =>
    if localeCompare b.time.toList a.time.toList == Ordering.gt then a :: b :: l
    else b :: insertByTime a l

/-- The method `sort` with the comparison of dashboard.jsx line 145: the
stable sort by `a.time.localeCompare(b.time)`, entries that compare equal
keeping their order. -/
def sortByTimeText (l : List Activity) : List Activity :=
  l.foldl (fun acc a => insertByTime a acc) []

/-- The entries pushed for the recent payments (dashboard.jsx lines 114-123);
the call number `k` of `getTimeAgo` reads the clock at `clock k`. -/
def paymentActivities (clock : Nat → Int) (k : Nat) : List RecentPayment → List Activity
  | [] => []
  | payment :: rest =>
    { id := "payment-" ++ toString payment.id
      title :=
        (match truthy (payment.tenants.bind (fun t => t.tenant_name)) with
         | some name => name
         | none => "Someone") ++ " paid for Room " ++
        (match payment.rooms with
         | none => "undefined"
         | some r =>
           match r.room_number with
           | none => "null"
           | some n => n)
      time := getTimeAgo (clock k) payment.created_at
      type := "payment" } :: paymentActivities clock (k + 1) rest

/-- The entries pushed for the recent tenants (dashboard.jsx lines 132-141). -/
def tenantActivities (clock : Nat → Int) (k : Nat) : List RecentTenant → List Activity
  | [] => []
  | tenant :: rest =>
    { id := "tenant-" ++ toString tenant.id
      title := "New tenant registered - " ++
        (match tenant.tenant_name with
         | some name => name
         | none => "null")
      time := getTimeAgo (clock k) tenant.created_at
      type := "tenant" } :: tenantActivities clock (k + 1) rest

/-- Dashboard.jsx lines 102-151: `fetchRecentActivity`, from the data of the
two queries (null when a query failed) to the list handed to
`setRecentActivity`. -/
def fetchRecentActivity (clock : Nat → Int) (recentPayments : Option (List RecentPayment))
    (recentTenants : Option (List RecentTenant)) : List Activity :=
  let activities1 :=
    match recentPayments with
    | some ps => paymentActivities clock 0 ps
    | none => []
  let activities2 :=
    match recentTenants with
    | some ts => activities1 ++ tenantActivities clock activities1.length ts
    | none => activities1
  (sortByTimeText activities2).take 4

/-- The clock of the dashboard scenario: every reading is the same instant. -/
def noon : Nat → Int := fun _ => 1736942400000

/-- A payment recorded five minutes before the clock reading. -/
def paymentFiveMinutesAgo : RecentPayment :=
  { id := 1, created_at := 1736942400000 - 300000,
    rooms := some { room_number := some "101" },
    tenants := some { tenant_name := some "Ana" } }

/-- A tenant registered two hours before the clock reading. -/
def tenantTwoHoursAgo : RecentTenant :=
  { id := 9, created_at := 1736942400000 - 7200000, tenant_name := some "Ben" }

/-- A payment recorded ten minutes before the clock reading. -/
def paymentTenMinutesAgo : RecentPayment :=
  { id := 2, created_at := 1736942400000 - 600000,
    rooms := some { room_number := some "102" },
    tenants := none }

/-- A payment recorded two minutes before the clock reading. -/
def paymentTwoMinutesAgo : RecentPayment :=
  { id := 3, created_at := 1736942400000 - 120000,
    rooms := some { room_number := some "103" },
    tenants := some { tenant_name := some "Cara" } }


/-! ## Lemmas on the best-effort steps (source lines 139-220) -/

section BestEffort

variable (env : Env) (w : World) (id user : Id) (b : BookingRequest) (room : Room)
  (paymentIntent : Option String)

theorem bestEffortSteps_ui :
    (bestEffortSteps env w id user b room paymentIntent).ui =
      { w.ui with loading := false } := by
  unfold bestEffortSteps World.call
  cases truthy paymentIntent <;> cases env.transactionInsertError <;>
    cases env.bookingUpdateError <;> cases env.roomUpdateError <;>
    cases env.notificationInsertError <;> rfl

theorem bestEffortSteps_calls :
    (bestEffortSteps env w id user b room paymentIntent).calls =
      w.calls ++ auditCalls env b room paymentIntent ++
        [RemoteCall.updateBooking id, RemoteCall.updateRoom b.room_id,
          RemoteCall.insertNotification (notificationRow env user room)] := by
  unfold bestEffortSteps World.call auditCalls
  cases truthy paymentIntent <;> cases env.transactionInsertError <;>
    cases env.bookingUpdateError <;> cases env.roomUpdateError <;>
    cases env.notificationInsertError <;> simp

theorem bestEffortSteps_tenants :
    (bestEffortSteps env w id user b room paymentIntent).store.tenants = w.store.tenants := by
  unfold bestEffortSteps World.call setBookingApproved setRoomOccupied
  cases truthy paymentIntent <;> cases env.transactionInsertError <;>
    cases env.bookingUpdateError <;> cases env.roomUpdateError <;>
    cases env.notificationInsertError <;> rfl

theorem bestEffortSteps_payments :
    (bestEffortSteps env w id user b room paymentIntent).store.payments =
      w.store.payments := by
  unfold bestEffortSteps World.call setBookingApproved setRoomOccupied
  cases truthy paymentIntent <;> cases env.transactionInsertError <;>
    cases env.bookingUpdateError <;> cases env.roomUpdateError <;>
    cases env.notificationInsertError <;> rfl

theorem bestEffortSteps_bookings :
    (bestEffortSteps env w id user b room paymentIntent).store.booking_requests =
      match env.bookingUpdateError with
      | some _ => w.store.booking_requests
      | none => (setBookingApproved env w.store id).booking_requests := by
  unfold bestEffortSteps World.call setBookingApproved setRoomOccupied
  cases truthy paymentIntent <;> cases env.transactionInsertError <;>
    cases env.bookingUpdateError <;> cases env.roomUpdateError <;>
    cases env.notificationInsertError <;> rfl

theorem bestEffortSteps_rooms :
    (bestEffortSteps env w id user b room paymentIntent).store.rooms =
      match env.roomUpdateError with
      | some _ => w.store.rooms
      | none => (setRoomOccupied env w.store b.room_id).rooms := by
  unfold bestEffortSteps World.call setBookingApproved setRoomOccupied
  cases truthy paymentIntent <;> cases env.transactionInsertError <;>
    cases env.bookingUpdateError <;> cases env.roomUpdateError <;>
    cases env.notificationInsertError <;> rfl

theorem bestEffortSteps_notifications :
    (bestEffortSteps env w id user b room paymentIntent).store.notifications =
      match env.notificationInsertError with
      | some _ => w.store.notifications
      | none => w.store.notifications ++ [notificationRow env user room] := by
  unfold bestEffortSteps World.call setBookingApproved setRoomOccupied
  cases truthy paymentIntent <;> cases env.transactionInsertError <;>
    cases env.bookingUpdateError <;> cases env.roomUpdateError <;>
    cases env.notificationInsertError <;> rfl

theorem bestEffortSteps_transactions :
    (bestEffortSteps env w id user b room paymentIntent).store.payment_transactions =
      match truthy paymentIntent, env.transactionInsertError with
      | some intent, none =>
        w.store.payment_transactions ++ [transactionData env b room intent]
      | _, _ => w.store.payment_transactions := by
  unfold bestEffortSteps World.call setBookingApproved setRoomOccupied
  cases truthy paymentIntent <;> cases env.transactionInsertError <;>
    cases env.bookingUpdateError <;> cases env.roomUpdateError <;>
    cases env.notificationInsertError <;> rfl

end BestEffort

/-! ## Lemmas on the client modifiers and the lookups -/

theorem single_data_some {α : Type} {fail : Option PgError} {rows : List α} {r : α}
    (h : (single fail rows).data = some r) :
    fail = none ∧ rows = [r] ∧ (single fail rows).error = none := by
  unfold single at *
  cases fail with
  | some e => simp at h
  | none =>
    match rows, h with
    | [], h => simp at h
    | [x], h => simp at h; simp [h]
    | _ :: _ :: _, h => simp at h

theorem maybeSingle_data_some {α : Type} {fail : Option PgError} {rows : List α} {r : α}
    (h : (maybeSingle fail rows).data = some r) : fail = none ∧ rows = [r] := by
  unfold maybeSingle at *
  cases fail with
  | some e => simp at h
  | none =>
    match rows, h with
    | [], h => simp at h
    | [x], h => simp at h; simp [h]
    | _ :: _ :: _, h => simp at h

theorem maybeSingle_singleton {α : Type} (r : α) :
    (maybeSingle none [r]).data = some r := rfl

theorem maybeSingle_nil {α : Type} (fail : Option PgError) :
    (maybeSingle fail ([] : List α)).data = none := by
  unfold maybeSingle; cases fail <;> rfl

theorem single_singleton {α : Type} (r : α) :
    single none [r] = { data := some r, error := none } := rfl

/-! ## Case analysis of a run -/

theorem existingTenantId_eq_some {r : Response Tenant} {i : Id} :
    existingTenantId r = some i ↔ ∃ t, r.data = some t ∧ t.id ≠ 0 ∧ i = t.id := by
  unfold existingTenantId
  cases hd : r.data with
  | none => simp
  | some t =>
    by_cases h0 : t.id = 0
    · simp [h0]
    · simp only [bne_iff_ne, ne_eq, h0, not_false_eq_true, if_true, Option.some.injEq]
      constructor
      · intro h
        exact ⟨t, rfl, h0, h.symm⟩
      · rintro ⟨t2, ht2, _, hi⟩
        cases ht2
        exact hi.symm

theorem existingTenantId_of_data_none {r : Response Tenant} (h : r.data = none) :
    existingTenantId r = none := by
  unfold existingTenantId
  rw [h]

theorem existingTenantId_of_data_some {r : Response Tenant} {t : Tenant}
    (h : r.data = some t) (h0 : t.id ≠ 0) : existingTenantId r = some t.id := by
  unfold existingTenantId
  rw [h]
  simp [h0]

theorem existingTenantId_eq_none {r : Response Tenant} :
    existingTenantId r = none ↔ r.data = none ∨ ∃ t, r.data = some t ∧ t.id = 0 := by
  unfold existingTenantId
  cases hd : r.data with
  | none => simp
  | some t =>
    by_cases h0 : t.id = 0
    · simp [h0]
    · simp [h0]

theorem issuedPaymentInsert_inv {env : Env} {ui : UiState} {s : Store} {id user : Id}
    {q : SearchParams}
    (h : issuedPaymentInsert (handlePaymentSuccess env ui s id user q) = true) :
    ∃ bd room tid sT pre,
      (fetchBooking env s id user).data = some bd ∧ bd.rooms = some room ∧
      (lookupPayment env s q.payment_intent).data = none ∧
      TenantResolution env s id user q.payment_intent bd.row.room_id tid sT pre ∧
      handlePaymentSuccess env ui s id user q =
        catchClause (recordPayment env { store := sT, ui := loadedUi bd, calls := pre }
          tid id user bd q.payment_intent) := by
  unfold handlePaymentSuccess tryBlock at h
  simp only [World.call] at h
  cases hfe : (fetchBooking env s id user).error with
  | some e =>
    simp [hfe, catchClause, issuedPaymentInsert, RemoteCall.isPaymentInsert] at h
  | none =>
    cases hfd : (fetchBooking env s id user).data with
    | none =>
      simp [hfe, hfd, catchClause, issuedPaymentInsert, RemoteCall.isPaymentInsert] at h
    | some bd =>
      cases hpd : (lookupPayment env s q.payment_intent).data with
      | some p =>
        simp [hfe, hfd, hpd, catchClause, issuedPaymentInsert,
          RemoteCall.isPaymentInsert] at h
      | none =>
        simp only [hfe, hfd, hpd] at h
        unfold resolveTenant at h
        simp only [World.call] at h
        cases hroom : bd.rooms with
        | none =>
          exfalso
          revert h
          cases hid : existingTenantId (lookupTenant env s user bd.row.room_id) <;>
            cases hti : env.tenantInsertError <;>
            simp [hid, hti, recordPayment, hroom, catchClause, issuedPaymentInsert,
              RemoteCall.isPaymentInsert]
        | some room =>
          cases hid : existingTenantId (lookupTenant env s user bd.row.room_id) with
          | some i =>
            obtain ⟨t, htd, h0, rfl⟩ := existingTenantId_eq_some.mp hid
            refine ⟨bd, room, t.id, s, _, rfl, hroom, rfl,
              Or.inl ⟨t, htd, h0, rfl, rfl, rfl⟩, ?_⟩
            simp [handlePaymentSuccess, tryBlock, resolveTenant, World.call, hfe, hfd, hpd,
              hid, loadedUi]
          | none =>
            cases hti : env.tenantInsertError with
            | some e =>
              simp [hid, hti, catchClause, issuedPaymentInsert,
                RemoteCall.isPaymentInsert] at h
            | none =>
              refine ⟨bd, room, env.newTenantId, _, _, rfl, hroom, rfl,
                Or.inr ⟨hid, hti, rfl, rfl, rfl⟩, ?_⟩
              simp [handlePaymentSuccess, tryBlock, resolveTenant, World.call, hfe, hfd,
                hpd, hid, hti, loadedUi, newTenantRow]

theorem save_payment_message_ne (m : String) : "Failed to save payment: " ++ m ≠ "" := by
  intro hEq
  have hl := congrArg String.length hEq
  rw [String.length_append] at hl
  have h24 : "Failed to save payment: ".length = 24 := by decide
  rw [h24] at hl
  have h0 : "".length = 0 := rfl
  omega

theorem TenantResolution_frame {env : Env} {s : Store} {id user : Id}
    {paymentIntent : Option String} {room tid : Id} {sT : Store} {pre : List RemoteCall}
    (h : TenantResolution env s id user paymentIntent room tid sT pre) :
    sT.booking_requests = s.booking_requests ∧ sT.rooms = s.rooms ∧
    sT.payments = s.payments ∧ sT.payment_transactions = s.payment_transactions ∧
    sT.notifications = s.notifications ∧
    (∃ t ∈ sT.tenants, t.id = tid ∧ t.profile_id = user ∧ t.room_id = room) ∧
    pre.any RemoteCall.isPaymentInsert = false ∧
    pre.any RemoteCall.isTransactionInsert = false := by
  rcases h with ⟨t, ht, _, rfl, rfl, rfl⟩ | ⟨_, _, rfl, rfl, rfl⟩
  · refine ⟨rfl, rfl, rfl, rfl, rfl, ⟨t, ?_, rfl, ?_⟩, by simp [RemoteCall.isPaymentInsert],
      by simp [RemoteCall.isTransactionInsert]⟩
    · have hrows := (maybeSingle_data_some ht).2
      have hmem : t ∈ sT.tenants.filter
          (fun t => t.profile_id == user && t.room_id == room) := by
        rw [hrows]; simp
      exact (List.mem_filter.mp hmem).1
    · have hrows := (maybeSingle_data_some ht).2
      have hmem : t ∈ sT.tenants.filter
          (fun t => t.profile_id == user && t.room_id == room) := by
        rw [hrows]; simp
      simpa using (List.mem_filter.mp hmem).2
  · refine ⟨rfl, rfl, rfl, rfl, rfl, ⟨newTenantRow env user room, by simp, rfl, rfl, rfl⟩,
      by simp [RemoteCall.isPaymentInsert], by simp [RemoteCall.isTransactionInsert]⟩

theorem run_payment_rejected {env : Env} {ui : UiState} {s : Store} {id user : Id}
    {q : SearchParams} {e : PgError}
    (h : issuedPaymentInsert (handlePaymentSuccess env ui s id user q) = true)
    (he : env.paymentInsertError = some e) :
    ∃ bd room tid sT pre,
      (fetchBooking env s id user).data = some bd ∧ bd.rooms = some room ∧
      (lookupPayment env s q.payment_intent).data = none ∧
      TenantResolution env s id user q.payment_intent bd.row.room_id tid sT pre ∧
      handlePaymentSuccess env ui s id user q =
        { store := sT
          ui := { loading := false, booking := some bd, room := bd.rooms,
                  error := some ("Failed to save payment: " ++ e.message) }
          calls := pre ++ [RemoteCall.insertPayment
            (paymentData env tid user bd.row room q.payment_intent)] } := by
  obtain ⟨bd, room, tid, sT, pre, hf, hr, hp, ht, hrun⟩ := issuedPaymentInsert_inv h
  refine ⟨bd, room, tid, sT, pre, hf, hr, hp, ht, ?_⟩
  rw [hrun]
  simp [recordPayment, hr, he, catchClause, World.call, loadedUi,
    save_payment_message_ne]

theorem run_payment_accepted {env : Env} {ui : UiState} {s : Store} {id user : Id}
    {q : SearchParams}
    (h : issuedPaymentInsert (handlePaymentSuccess env ui s id user q) = true)
    (he : env.paymentInsertError = none) :
    ∃ bd room tid sT pre,
      (fetchBooking env s id user).data = some bd ∧ bd.rooms = some room ∧
      (lookupPayment env s q.payment_intent).data = none ∧
      TenantResolution env s id user q.payment_intent bd.row.room_id tid sT pre ∧
      handlePaymentSuccess env ui s id user q =
        bestEffortSteps env
          { store := { sT with payments := sT.payments ++
              [paymentData env tid user bd.row room q.payment_intent] }
            ui := loadedUi bd
            calls := pre ++ [RemoteCall.insertPayment
              (paymentData env tid user bd.row room q.payment_intent)] }
          id user bd.row room q.payment_intent := by
  obtain ⟨bd, room, tid, sT, pre, hf, hr, hp, ht, hrun⟩ := issuedPaymentInsert_inv h
  refine ⟨bd, room, tid, sT, pre, hf, hr, hp, ht, ?_⟩
  rw [hrun]
  simp [recordPayment, hr, he, catchClause, World.call]

theorem fatalStepsSucceeded_iff {env : Env} {ui : UiState} {s : Store} {id user : Id}
    {q : SearchParams} :
    fatalStepsSucceeded (handlePaymentSuccess env ui s id user q) ↔
      issuedPaymentInsert (handlePaymentSuccess env ui s id user q) = true ∧
        env.paymentInsertError = none := by
  constructor
  · rintro ⟨hi, herr⟩
    refine ⟨hi, ?_⟩
    cases he : env.paymentInsertError with
    | none => rfl
    | some e =>
      obtain ⟨bd, room, tid, sT, pre, _, _, _, _, hrun⟩ := run_payment_rejected hi he
      rw [hrun] at herr
      simp at herr
  · rintro ⟨hi, he⟩
    refine ⟨hi, ?_⟩
    obtain ⟨bd, room, tid, sT, pre, _, _, _, _, hrun⟩ := run_payment_accepted hi he
    rw [hrun, bestEffortSteps_ui]
    rfl

theorem generic_message_ne (m : String) :
    (if (m != "") = true then m else "Failed to confirm payment") ≠ "" := by
  split
  · rename_i hm
    simpa using hm
  · decide

theorem fetchBooking_data_some {env : Env} {s : Store} {id user : Id} {bd : BookingData}
    (h : (fetchBooking env s id user).data = some bd) :
    env.bookingFetchError = none ∧ (fetchBooking env s id user).error = none ∧
    s.booking_requests.filter (fun b => b.id == id && b.requestor == user) = [bd.row] ∧
    bd.row ∈ s.booking_requests ∧ bd.row.id = id ∧ bd.row.requestor = user ∧
    bd.rooms = s.rooms.find? (fun r => r.id == bd.row.room_id) := by
  unfold fetchBooking at h ⊢
  obtain ⟨hfail, hrows, herr⟩ := single_data_some h
  refine ⟨hfail, herr, ?_⟩
  generalize hl : s.booking_requests.filter (fun b => b.id == id && b.requestor == user) = l
    at hrows
  match l, hrows with
  | [b], hrows =>
    simp only [List.map_cons, List.map_nil, List.cons.injEq, and_true] at hrows
    subst hrows
    have hmem : b ∈ s.booking_requests.filter (fun b => b.id == id && b.requestor == user) := by
      rw [hl]; simp
    have hb := List.mem_filter.mp hmem
    have hcond : b.id = id ∧ b.requestor = user := by simpa using hb.2
    exact ⟨rfl, hb.1, hcond.1, hcond.2, rfl⟩

theorem run_fetch_failed {env : Env} (ui : UiState) {s : Store} {id user : Id}
    (q : SearchParams) (h : (fetchBooking env s id user).data = none) :
    ∃ m, m ≠ "" ∧ handlePaymentSuccess env ui s id user q =
      { store := s
        ui := { ui with loading := false, error := some m }
        calls := [RemoteCall.selectBooking id user] } := by
  unfold handlePaymentSuccess tryBlock
  simp only [World.call, h]
  cases hfe : (fetchBooking env s id user).error with
  | some e =>
    refine ⟨if ((if e.code == "PGRST116" then "Booking not found."
        else "Failed to verify booking: " ++ e.message) != "") = true
      then (if e.code == "PGRST116" then "Booking not found."
        else "Failed to verify booking: " ++ e.message)
      else "Failed to confirm payment", generic_message_ne _, ?_⟩
    simp [catchClause]
  | none =>
    exact ⟨"Booking does not exist.", by decide, by simp [catchClause]⟩

theorem run_already_processed {env : Env} {ui : UiState} {s : Store} {id user : Id}
    {q : SearchParams} {bd : BookingData} {p : Payment}
    (hf : (fetchBooking env s id user).data = some bd)
    (hp : (lookupPayment env s q.payment_intent).data = some p) :
    handlePaymentSuccess env ui s id user q =
      { store := s
        ui := { loading := false, booking := some bd, room := bd.rooms, error := none }
        calls := [RemoteCall.selectBooking id user,
          RemoteCall.selectPayment q.payment_intent] } := by
  have hfe := (fetchBooking_data_some hf).2.1
  simp [handlePaymentSuccess, tryBlock, World.call, hf, hfe, hp, catchClause]

theorem run_tenant_rejected {env : Env} {ui : UiState} {s : Store} {id user : Id}
    {q : SearchParams} {bd : BookingData} {e : PgError}
    (hf : (fetchBooking env s id user).data = some bd)
    (hp : (lookupPayment env s q.payment_intent).data = none)
    (ht : existingTenantId (lookupTenant env s user bd.row.room_id) = none)
    (he : env.tenantInsertError = some e) :
    handlePaymentSuccess env ui s id user q =
      { store := s
        ui := { loading := false, booking := some bd, room := bd.rooms,
                error := some "Failed to create tenant record" }
        calls := [RemoteCall.selectBooking id user,
          RemoteCall.selectPayment q.payment_intent,
          RemoteCall.selectTenant user bd.row.room_id,
          RemoteCall.insertTenant (newTenantRow env user bd.row.room_id)] } := by
  have hfe := (fetchBooking_data_some hf).2.1
  simp [handlePaymentSuccess, tryBlock, resolveTenant, World.call, hf, hfe, hp, ht, he,
    catchClause]

theorem run_forward {env : Env} (ui : UiState) {s : Store} {id user : Id}
    {q : SearchParams} {bd : BookingData} {room : Room} {tid : Id} {sT : Store}
    {pre : List RemoteCall}
    (hf : (fetchBooking env s id user).data = some bd) (hr : bd.rooms = some room)
    (hp : (lookupPayment env s q.payment_intent).data = none)
    (ht : TenantResolution env s id user q.payment_intent bd.row.room_id tid sT pre)
    (he : env.paymentInsertError = none) :
    handlePaymentSuccess env ui s id user q =
      bestEffortSteps env
        { store := { sT with payments := sT.payments ++
            [paymentData env tid user bd.row room q.payment_intent] }
          ui := loadedUi bd
          calls := pre ++ [RemoteCall.insertPayment
            (paymentData env tid user bd.row room q.payment_intent)] }
        id user bd.row room q.payment_intent := by
  have hfe := (fetchBooking_data_some hf).2.1
  rcases ht with ⟨t, htd, h0, rfl, rfl, rfl⟩ | ⟨htd, hti, rfl, rfl, rfl⟩
  · have hid := existingTenantId_of_data_some htd h0
    simp [handlePaymentSuccess, tryBlock, resolveTenant, recordPayment, World.call, hf, hfe,
      hp, hid, hr, he, catchClause, loadedUi]
  · simp [handlePaymentSuccess, tryBlock, resolveTenant, recordPayment, World.call, hf, hfe,
      hp, htd, hti, hr, he, catchClause, loadedUi, newTenantRow]

theorem run_without_payment_insert {env : Env} {ui : UiState} {s : Store} {id user : Id}
    {q : SearchParams}
    (h : issuedPaymentInsert (handlePaymentSuccess env ui s id user q) = false) :
    issuedTransactionInsert (handlePaymentSuccess env ui s id user q) = false ∧
    (handlePaymentSuccess env ui s id user q).store.booking_requests = s.booking_requests ∧
    (handlePaymentSuccess env ui s id user q).store.rooms = s.rooms ∧
    (handlePaymentSuccess env ui s id user q).store.payments = s.payments ∧
    (handlePaymentSuccess env ui s id user q).store.payment_transactions =
      s.payment_transactions ∧
    (handlePaymentSuccess env ui s id user q).store.notifications = s.notifications := by
  cases hfd : (fetchBooking env s id user).data with
  | none =>
    obtain ⟨m, _, hrun⟩ := run_fetch_failed ui q hfd
    rw [hrun]
    simp [issuedTransactionInsert, RemoteCall.isTransactionInsert]
  | some bd =>
    cases hpd : (lookupPayment env s q.payment_intent).data with
    | some p =>
      rw [run_already_processed hfd hpd]
      simp [issuedTransactionInsert, RemoteCall.isTransactionInsert]
    | none =>
      have hfe := (fetchBooking_data_some hfd).2.1
      revert h
      cases htd : existingTenantId (lookupTenant env s user bd.row.room_id) <;>
        cases hti : env.tenantInsertError <;>
        cases hroom : bd.rooms <;>
        cases hpe : env.paymentInsertError <;>
        simp [handlePaymentSuccess, tryBlock, resolveTenant, recordPayment, World.call, hfd,
          hfe, hpd, htd, hti, hroom, hpe, catchClause, issuedPaymentInsert,
          issuedTransactionInsert, RemoteCall.isPaymentInsert,
          RemoteCall.isTransactionInsert, bestEffortSteps_calls]

/-! ## Claims on the reconciliation sequence -/

/-- C7. Booking load is fatal and constrained to the caller: when no booking
row has the given key together with the calling user as requestor, the run
ends with a non-empty error message (the text `Booking not found.` when the
store answered the query), the loading flag cleared, the store exactly as it
was, and the booking query as its only remote call. -/
theorem booking_load_fatal (env : Env) (ui : UiState) (s : Store) (id user : Id)
    (q : SearchParams)
    (h : ∀ b ∈ s.booking_requests, ¬ (b.id = id ∧ b.requestor = user)) :
    (∃ m, (handlePaymentSuccess env ui s id user q).ui.error = some m ∧ m ≠ "") ∧
    (env.bookingFetchError = none →
      (handlePaymentSuccess env ui s id user q).ui.error = some "Booking not found.") ∧
    (handlePaymentSuccess env ui s id user q).ui.loading = false ∧
    (handlePaymentSuccess env ui s id user q).store = s ∧
    (handlePaymentSuccess env ui s id user q).calls = [RemoteCall.selectBooking id user] := by
  have hnil : s.booking_requests.filter (fun b => b.id == id && b.requestor == user) = [] := by
    rw [List.filter_eq_nil_iff]
    intro b hb
    simpa using h b hb
  have hdata : (fetchBooking env s id user).data = none := by
    unfold fetchBooking single
    rw [hnil]
    cases env.bookingFetchError <;> rfl
  obtain ⟨m, hm, hrun⟩ := run_fetch_failed ui q hdata
  refine ⟨⟨m, by rw [hrun], hm⟩, ?_, by rw [hrun], by rw [hrun], by rw [hrun]⟩
  intro hok
  simp [handlePaymentSuccess, tryBlock, fetchBooking, single, hnil, hok, catchClause,
    pgrst116]

/-- Witness of C7: user 8 asks for booking 1, which belongs to user 7. -/
theorem booking_load_fatal_witness :
    (∀ b ∈ storeB1.booking_requests, ¬ (b.id = 1 ∧ b.requestor = 8)) ∧
    (handlePaymentSuccess envOk initialUi storeB1 1 8 queryPi123).ui.error =
      some "Booking not found." ∧
    (handlePaymentSuccess envOk initialUi storeB1 1 8 queryPi123).store = storeB1 :=
  ⟨by decide,
   (booking_load_fatal envOk initialUi storeB1 1 8 queryPi123 (by decide)).2.1 rfl,
   (booking_load_fatal envOk initialUi storeB1 1 8 queryPi123 (by decide)).2.2.2.1⟩

/-- C8. Tenant creation failure is fatal: when the sequence reaches step 3
(the booking is loaded and the idempotency lookup returned nothing), no tenant
row exists for the caller and the room of the booking, and the store rejects
the tenant insertion, the run reports `Failed to create tenant record`, never
issues the payment insertion, and leaves the whole store (payments, booking
and room statuses, notifications included) exactly as it was. -/
theorem tenant_creation_failure_fatal (env : Env) (ui : UiState) (s : Store)
    (id user : Id) (q : SearchParams) (bd : BookingData) (e : PgError)
    (hb : (fetchBooking env s id user).data = some bd)
    (hp : (lookupPayment env s q.payment_intent).data = none)
    (ht : ∀ t ∈ s.tenants, ¬ (t.profile_id = user ∧ t.room_id = bd.row.room_id))
    (he : env.tenantInsertError = some e) :
    (handlePaymentSuccess env ui s id user q).ui.error =
      some "Failed to create tenant record" ∧
    (handlePaymentSuccess env ui s id user q).ui.loading = false ∧
    issuedPaymentInsert (handlePaymentSuccess env ui s id user q) = false ∧
    (handlePaymentSuccess env ui s id user q).store = s := by
  have hnil : s.tenants.filter
      (fun t => t.profile_id == user && t.room_id == bd.row.room_id) = [] := by
    rw [List.filter_eq_nil_iff]
    intro t htm
    simpa using ht t htm
  have htd : (lookupTenant env s user bd.row.room_id).data = none := by
    unfold lookupTenant
    rw [hnil]
    exact maybeSingle_nil _
  rw [run_tenant_rejected hb hp (existingTenantId_of_data_none htd) he]
  simp [issuedPaymentInsert, RemoteCall.isPaymentInsert]

/-- Witness of C8: booking B1, no tenant, the tenant insertion is rejected. -/
theorem tenant_creation_failure_fatal_witness :
    (handlePaymentSuccess { envOk with tenantInsertError := some lostConnection } initialUi
        storeB1 1 7 queryPi123).ui.error = some "Failed to create tenant record" ∧
    (handlePaymentSuccess { envOk with tenantInsertError := some lostConnection } initialUi
        storeB1 1 7 queryPi123).store = storeB1 :=
  have h := tenant_creation_failure_fatal
    { envOk with tenantInsertError := some lostConnection } initialUi storeB1 1 7 queryPi123
    { row := { id := 1, room_id := 10, requestor := 7, status := "Pending" }
      rooms := some { id := 10, room_number := "101", price_monthly := 5000,
                      status := "Available" } }
    lostConnection (by decide) (by decide) (by decide) rfl
  ⟨h.1, h.2.2.2⟩

/-- C3. Fatal-path atomicity: when the payment insertion (step 4) is issued
and the store rejects it, the run reports the error `Failed to save payment`
followed by the message of the store, and the booking table, the room table,
the payment ledger, the transaction audit table and the notification table
are exactly as before the run; no audit insertion is issued. -/
theorem payment_insert_failure_atomic (env : Env) (ui : UiState) (s : Store)
    (id user : Id) (q : SearchParams) (e : PgError)
    (hi : issuedPaymentInsert (handlePaymentSuccess env ui s id user q) = true)
    (he : env.paymentInsertError = some e) :
    (handlePaymentSuccess env ui s id user q).ui.error =
      some ("Failed to save payment: " ++ e.message) ∧
    (handlePaymentSuccess env ui s id user q).ui.loading = false ∧
    (handlePaymentSuccess env ui s id user q).store.booking_requests = s.booking_requests ∧
    (handlePaymentSuccess env ui s id user q).store.rooms = s.rooms ∧
    (handlePaymentSuccess env ui s id user q).store.payments = s.payments ∧
    (handlePaymentSuccess env ui s id user q).store.payment_transactions =
      s.payment_transactions ∧
    (handlePaymentSuccess env ui s id user q).store.notifications = s.notifications ∧
    issuedTransactionInsert (handlePaymentSuccess env ui s id user q) = false := by
  obtain ⟨bd, room, tid, sT, pre, _, _, _, ht, hrun⟩ := run_payment_rejected hi he
  obtain ⟨hbk, hrm, hpay, htx, hnt, _, _, hpre⟩ := TenantResolution_frame ht
  rw [hrun]
  refine ⟨rfl, rfl, hbk, hrm, hpay, htx, hnt, ?_⟩
  simp [issuedTransactionInsert, List.any_append, RemoteCall.isTransactionInsert]
  simpa [List.any_eq_true] using hpre

/-- Witness of C3: booking B1, the payment insertion is rejected. -/
theorem payment_insert_failure_atomic_witness :
    issuedPaymentInsert (handlePaymentSuccess
      { envOk with paymentInsertError := some lostConnection } initialUi storeB1 1 7
      queryPi123) = true ∧
    (handlePaymentSuccess { envOk with paymentInsertError := some lostConnection } initialUi
      storeB1 1 7 queryPi123).ui.error = some "Failed to save payment: connection lost" ∧
    (handlePaymentSuccess { envOk with paymentInsertError := some lostConnection } initialUi
      storeB1 1 7 queryPi123).store.booking_requests = storeB1.booking_requests ∧
    (handlePaymentSuccess { envOk with paymentInsertError := some lostConnection } initialUi
      storeB1 1 7 queryPi123).store.rooms = storeB1.rooms :=
  have h := payment_insert_failure_atomic
    { envOk with paymentInsertError := some lostConnection } initialUi storeB1 1 7
    queryPi123 lostConnection (by decide) rfl
  ⟨by decide, h.1, h.2.2.1, h.2.2.2.1⟩

theorem setBookingApproved_status (env : Env) (s : Store) (id : Id) :
    ∀ b ∈ (setBookingApproved env s id).booking_requests, b.id = id → b.status = "Approved" := by
  intro b hb hid
  unfold setBookingApproved at hb
  simp only [List.mem_map] at hb
  obtain ⟨b0, _, hb0⟩ := hb
  by_cases hc : b0.id = id
  · simp [hc] at hb0
    rw [← hb0]
  · simp [hc] at hb0
    rw [← hb0] at hid
    exact absurd hid hc

theorem setBookingApproved_mem (env : Env) (s : Store) (id : Id) (b0 : BookingRequest)
    (hmem : b0 ∈ s.booking_requests) (hid : b0.id = id) :
    ∃ b ∈ (setBookingApproved env s id).booking_requests,
      b.id = id ∧ b.requestor = b0.requestor ∧ b.room_id = b0.room_id := by
  refine ⟨{ b0 with status := "Approved", updated_at := some env.bookingUpdatedAt }, ?_,
    hid, rfl, rfl⟩
  unfold setBookingApproved
  simp only [List.mem_map]
  exact ⟨b0, hmem, by simp [hid]⟩

/-- C4. Best-effort isolation: when steps 1 to 4 succeeded, the booking update
(step 6) was accepted and the room update (step 7) is rejected, then after the
run the ledger holds the new payment row, the tenant that row refers to exists
for the caller and the room, every booking row with the given key has status
`Approved` (and the booking of the caller is among them), the room table is
exactly as before the run, and no error is reported. This holds whether or not
the audit insertion of step 5 was accepted. -/
theorem room_update_failure_isolated (env : Env) (ui : UiState) (s : Store)
    (id user : Id) (q : SearchParams) (e : PgError)
    (hok : fatalStepsSucceeded (handlePaymentSuccess env ui s id user q))
    (hb : env.bookingUpdateError = none) (hr : env.roomUpdateError = some e) :
    ∃ bd room row,
      (fetchBooking env s id user).data = some bd ∧ bd.rooms = some room ∧
      (handlePaymentSuccess env ui s id user q).store.payments = s.payments ++ [row] ∧
      row.room_id = bd.row.room_id ∧ row.amount = room.price_monthly ∧
      row.payment_status = "Paid" ∧
      (∃ t ∈ (handlePaymentSuccess env ui s id user q).store.tenants,
        t.id = row.tenant_id ∧ t.profile_id = user ∧ t.room_id = bd.row.room_id) ∧
      (∀ b ∈ (handlePaymentSuccess env ui s id user q).store.booking_requests,
        b.id = id → b.status = "Approved") ∧
      (∃ b ∈ (handlePaymentSuccess env ui s id user q).store.booking_requests,
        b.id = id ∧ b.requestor = user) ∧
      (handlePaymentSuccess env ui s id user q).store.rooms = s.rooms ∧
      (handlePaymentSuccess env ui s id user q).ui.error = none := by
  obtain ⟨hi, he⟩ := fatalStepsSucceeded_iff.mp hok
  obtain ⟨bd, room, tid, sT, pre, hf, hroom, _, ht, hrun⟩ := run_payment_accepted hi he
  obtain ⟨hbk, hrm, hpay, _, _, htn, _, _⟩ := TenantResolution_frame ht
  obtain ⟨_, _, _, hmem, hid, hreq, _⟩ := fetchBooking_data_some hf
  refine ⟨bd, room, paymentData env tid user bd.row room q.payment_intent, hf, hroom, ?_,
    rfl, rfl, rfl, ?_, ?_, ?_, ?_, hok.2⟩
  · rw [hrun, bestEffortSteps_payments, hpay]
  · rw [hrun, bestEffortSteps_tenants]
    exact htn
  · rw [hrun, bestEffortSteps_bookings, hb]
    exact setBookingApproved_status env _ id
  · rw [hrun, bestEffortSteps_bookings, hb]
    have hmem2 : bd.row ∈ ({ sT with payments := sT.payments ++
        [paymentData env tid user bd.row room q.payment_intent] } : Store).booking_requests := by
      show bd.row ∈ sT.booking_requests
      rw [hbk]; exact hmem
    obtain ⟨b, hbm, hbid, hbreq, _⟩ := setBookingApproved_mem env _ id bd.row hmem2 hid
    exact ⟨b, hbm, hbid, by rw [hbreq, hreq]⟩
  · rw [hrun, bestEffortSteps_rooms, hr]
    exact hrm

/-- Witness of C4: booking B1 with the room update rejected. -/
theorem room_update_failure_isolated_witness :
    fatalStepsSucceeded (handlePaymentSuccess
      { envOk with roomUpdateError := some lostConnection } initialUi storeB1 1 7
      queryPi123) ∧
    ∃ bd room row,
      (fetchBooking { envOk with roomUpdateError := some lostConnection } storeB1 1 7).data =
        some bd ∧ bd.rooms = some room ∧
      (handlePaymentSuccess { envOk with roomUpdateError := some lostConnection } initialUi
        storeB1 1 7 queryPi123).store.payments = storeB1.payments ++ [row] ∧
      row.room_id = bd.row.room_id ∧ row.amount = room.price_monthly ∧
      row.payment_status = "Paid" ∧
      (∃ t ∈ (handlePaymentSuccess { envOk with roomUpdateError := some lostConnection }
          initialUi storeB1 1 7 queryPi123).store.tenants,
        t.id = row.tenant_id ∧ t.profile_id = 7 ∧ t.room_id = bd.row.room_id) ∧
      (∀ b ∈ (handlePaymentSuccess { envOk with roomUpdateError := some lostConnection }
          initialUi storeB1 1 7 queryPi123).store.booking_requests,
        b.id = 1 → b.status = "Approved") ∧
      (∃ b ∈ (handlePaymentSuccess { envOk with roomUpdateError := some lostConnection }
          initialUi storeB1 1 7 queryPi123).store.booking_requests,
        b.id = 1 ∧ b.requestor = 7) ∧
      (handlePaymentSuccess { envOk with roomUpdateError := some lostConnection } initialUi
        storeB1 1 7 queryPi123).store.rooms = storeB1.rooms ∧
      (handlePaymentSuccess { envOk with roomUpdateError := some lostConnection } initialUi
        storeB1 1 7 queryPi123).ui.error = none :=
  ⟨by decide,
   room_update_failure_isolated { envOk with roomUpdateError := some lostConnection }
     initialUi storeB1 1 7 queryPi123 lostConnection (by decide) rfl rfl⟩

/-- C5. Best-effort failures are never surfaced: when the payment insertion
was issued and accepted (steps 1 to 4 succeeded), then whatever the outcome of
the audit insertion, the booking update, the room update and the notification
insertion (the environment is arbitrary in these four), the run ends with no
error message and the loading flag cleared, and its remote calls end with the
audit insertion (when the intent id is truthy), the booking update, the room
update and the notification insertion, in this order: every later step is
issued after an earlier one failed. -/
theorem best_effort_failures_not_surfaced (env : Env) (ui : UiState) (s : Store)
    (id user : Id) (q : SearchParams)
    (hi : issuedPaymentInsert (handlePaymentSuccess env ui s id user q) = true)
    (he : env.paymentInsertError = none) :
    (handlePaymentSuccess env ui s id user q).ui.error = none ∧
    (handlePaymentSuccess env ui s id user q).ui.loading = false ∧
    ∃ bd room pre,
      (fetchBooking env s id user).data = some bd ∧ bd.rooms = some room ∧
      (handlePaymentSuccess env ui s id user q).calls =
        pre ++ auditCalls env bd.row room q.payment_intent ++
          [RemoteCall.updateBooking id, RemoteCall.updateRoom bd.row.room_id,
            RemoteCall.insertNotification (notificationRow env user room)] := by
  obtain ⟨bd, room, tid, sT, pre, hf, hroom, _, _, hrun⟩ := run_payment_accepted hi he
  refine ⟨?_, ?_, bd, room,
    pre ++ [RemoteCall.insertPayment (paymentData env tid user bd.row room q.payment_intent)],
    hf, hroom, ?_⟩
  · rw [hrun, bestEffortSteps_ui]; rfl
  · rw [hrun, bestEffortSteps_ui]
  · rw [hrun, bestEffortSteps_calls]

/-- Witness of C5: booking B1 with all four best-effort calls failing. -/
theorem best_effort_failures_not_surfaced_witness :
    issuedPaymentInsert (handlePaymentSuccess
      { envOk with
        transactionInsertError := some lostConnection
        bookingUpdateError := some lostConnection
        roomUpdateError := some lostConnection
        notificationInsertError := some lostConnection } initialUi storeB1 1 7
      queryPi123) = true ∧
    (handlePaymentSuccess
      { envOk with
        transactionInsertError := some lostConnection
        bookingUpdateError := some lostConnection
        roomUpdateError := some lostConnection
        notificationInsertError := some lostConnection } initialUi storeB1 1 7
      queryPi123).ui.error = none ∧
    (handlePaymentSuccess
      { envOk with
        transactionInsertError := some lostConnection
        bookingUpdateError := some lostConnection
        roomUpdateError := some lostConnection
        notificationInsertError := some lostConnection } initialUi storeB1 1 7
      queryPi123).ui.loading = false :=
  have h := best_effort_failures_not_surfaced
    { envOk with
      transactionInsertError := some lostConnection
      bookingUpdateError := some lostConnection
      roomUpdateError := some lostConnection
      notificationInsertError := some lostConnection } initialUi storeB1 1 7 queryPi123
    (by decide) rfl
  ⟨by decide, h.1, h.2.1⟩

theorem truthy_eq_some {v : Option String} {i : String} :
    truthy v = some i ↔ v = some i ∧ i ≠ "" := by
  unfold truthy
  cases v with
  | none => simp
  | some t =>
    by_cases ht : t = ""
    · subst ht
      simp
      intro h
      exact h.symm
    · simp [ht]
      intro h
      rw [← h]; exact ht

theorem truthy_eq_none {v : Option String} :
    truthy v = none ↔ v = none ∨ v = some "" := by
  unfold truthy
  cases v with
  | none => simp
  | some t =>
    by_cases ht : t = "" <;> simp [ht]

theorem fallback_reference_ne (n : Nat) : "ref_" ++ toString n ≠ "" := by
  intro hEq
  have hl := congrArg String.length hEq
  rw [String.length_append] at hl
  have h4 : "ref_".length = 4 := by decide
  rw [h4] at hl
  have h0 : "".length = 0 := rfl
  omega

/-- C9. Contents of the inserted payment row: when steps 1 to 4 succeeded the
ledger gained exactly one row; it refers to the tenant resolved in step 3 (the
row the tenant lookup returned when its key is truthy, else the newly created
one, which is the case when the lookup returned no data and when the found
key is zero; in every case a tenant row of the caller for the room of the
booking, present in the store), to the room of the
booking, its amount is the monthly price of the room, its status `Paid`, its
currency `PHP`; its reference is the intent id when one is supplied (a
non-empty text) and the locally generated, non-empty text `ref_` followed by
the clock reading when the intent id is absent (null or empty). -/
theorem payment_row_contents (env : Env) (ui : UiState) (s : Store) (id user : Id)
    (q : SearchParams)
    (hok : fatalStepsSucceeded (handlePaymentSuccess env ui s id user q)) :
    ∃ bd room row,
      (fetchBooking env s id user).data = some bd ∧ bd.rooms = some room ∧
      (handlePaymentSuccess env ui s id user q).store.payments = s.payments ++ [row] ∧
      (∃ t ∈ (handlePaymentSuccess env ui s id user q).store.tenants,
        t.id = row.tenant_id ∧ t.profile_id = user ∧ t.room_id = bd.row.room_id) ∧
      (∀ t, (lookupTenant env s user bd.row.room_id).data = some t → t.id ≠ 0 →
        row.tenant_id = t.id ∧
        (handlePaymentSuccess env ui s id user q).store.tenants = s.tenants) ∧
      ((lookupTenant env s user bd.row.room_id).data = none ∨
          (∃ t, (lookupTenant env s user bd.row.room_id).data = some t ∧ t.id = 0) →
        row.tenant_id = env.newTenantId ∧
        (handlePaymentSuccess env ui s id user q).store.tenants =
          s.tenants ++ [newTenantRow env user bd.row.room_id]) ∧
      row.room_id = bd.row.room_id ∧ row.amount = room.price_monthly ∧
      row.payment_status = "Paid" ∧ row.currency = "PHP" ∧
      (∀ i, q.payment_intent = some i → i ≠ "" → row.reference_no = i) ∧
      (q.payment_intent = none ∨ q.payment_intent = some "" →
        row.reference_no = "ref_" ++ toString env.refNow ∧ row.reference_no ≠ "") := by
  obtain ⟨hi, he⟩ := fatalStepsSucceeded_iff.mp hok
  obtain ⟨bd, room, tid, sT, pre, hf, hroom, _, ht, hrun⟩ := run_payment_accepted hi he
  obtain ⟨_, _, hpay, _, _, htn, _, _⟩ := TenantResolution_frame ht
  refine ⟨bd, room, paymentData env tid user bd.row room q.payment_intent, hf, hroom, ?_, ?_,
    ?_, ?_, rfl, rfl, rfl, rfl, ?_, ?_⟩
  · rw [hrun, bestEffortSteps_payments, hpay]
  · rw [hrun, bestEffortSteps_tenants]
    exact htn
  · intro t htd h0
    rcases ht with ⟨t2, ht2, _, rfl, rfl, _⟩ | ⟨hnone, _⟩
    · rw [htd] at ht2
      cases ht2
      refine ⟨rfl, ?_⟩
      rw [hrun, bestEffortSteps_tenants]
    · rw [existingTenantId_of_data_some htd h0] at hnone
      cases hnone
  · intro hnone
    have hid : existingTenantId (lookupTenant env s user bd.row.room_id) = none :=
      existingTenantId_eq_none.mpr hnone
    rcases ht with ⟨t2, ht2, h0, _⟩ | ⟨_, _, rfl, rfl, _⟩
    · rw [existingTenantId_of_data_some ht2 h0] at hid
      cases hid
    · refine ⟨rfl, ?_⟩
      rw [hrun, bestEffortSteps_tenants]
  · intro i hq hne
    have htr : truthy q.payment_intent = some i := truthy_eq_some.mpr ⟨hq, hne⟩
    simp [paymentData, htr]
  · intro habs
    have htr : truthy q.payment_intent = none := truthy_eq_none.mpr habs
    have href : (paymentData env tid user bd.row room q.payment_intent).reference_no =
        "ref_" ++ toString env.refNow := by
      simp [paymentData, htr]
    exact ⟨href, by rw [href]; exact fallback_reference_ne _⟩

/-- Witness of C9: booking B1 paid without an intent id in the return address. -/
theorem payment_row_contents_witness :
    fatalStepsSucceeded (handlePaymentSuccess envOk initialUi storeB1 1 7 queryNoIntent) ∧
    ∃ bd room row,
      (fetchBooking envOk storeB1 1 7).data = some bd ∧ bd.rooms = some room ∧
      (handlePaymentSuccess envOk initialUi storeB1 1 7 queryNoIntent).store.payments =
        storeB1.payments ++ [row] ∧
      (∃ t ∈ (handlePaymentSuccess envOk initialUi storeB1 1 7 queryNoIntent).store.tenants,
        t.id = row.tenant_id ∧ t.profile_id = 7 ∧ t.room_id = bd.row.room_id) ∧
      (∀ t, (lookupTenant envOk storeB1 7 bd.row.room_id).data = some t → t.id ≠ 0 →
        row.tenant_id = t.id ∧
        (handlePaymentSuccess envOk initialUi storeB1 1 7 queryNoIntent).store.tenants =
          storeB1.tenants) ∧
      ((lookupTenant envOk storeB1 7 bd.row.room_id).data = none ∨
          (∃ t, (lookupTenant envOk storeB1 7 bd.row.room_id).data = some t ∧ t.id = 0) →
        row.tenant_id = envOk.newTenantId ∧
        (handlePaymentSuccess envOk initialUi storeB1 1 7 queryNoIntent).store.tenants =
          storeB1.tenants ++ [newTenantRow envOk 7 bd.row.room_id]) ∧
      row.room_id = bd.row.room_id ∧ row.amount = room.price_monthly ∧
      row.payment_status = "Paid" ∧ row.currency = "PHP" ∧
      (∀ i, queryNoIntent.payment_intent = some i → i ≠ "" → row.reference_no = i) ∧
      (queryNoIntent.payment_intent = none ∨ queryNoIntent.payment_intent = some "" →
        row.reference_no = "ref_" ++ toString envOk.refNow ∧ row.reference_no ≠ "") :=
  ⟨by decide, payment_row_contents envOk initialUi storeB1 1 7 queryNoIntent (by decide)⟩

theorem transaction_call_inv {env : Env} {ui : UiState} {s : Store} {id user : Id}
    {q : SearchParams} {row : PaymentTransaction}
    (h : RemoteCall.insertTransaction row ∈ (handlePaymentSuccess env ui s id user q).calls) :
    issuedPaymentInsert (handlePaymentSuccess env ui s id user q) = true ∧
    env.paymentInsertError = none ∧
    ∃ bd room i, (fetchBooking env s id user).data = some bd ∧ bd.rooms = some room ∧
      q.payment_intent = some i ∧ i ≠ "" ∧ row = transactionData env bd.row room i := by
  cases hi : issuedPaymentInsert (handlePaymentSuccess env ui s id user q) with
  | false =>
    have hno := (run_without_payment_insert hi).1
    unfold issuedTransactionInsert at hno
    rw [List.any_eq_false] at hno
    exact absurd rfl (hno _ h)
  | true =>
    cases he : env.paymentInsertError with
    | some e =>
      obtain ⟨bd, room, tid, sT, pre, _, _, _, ht, hrun⟩ := run_payment_rejected hi he
      have hpre := (TenantResolution_frame ht).2.2.2.2.2.2.2
      rw [List.any_eq_false] at hpre
      rw [hrun] at h
      rw [List.mem_append] at h
      rcases h with h | h
      · exact absurd rfl (hpre _ h)
      · simp at h
    | none =>
      obtain ⟨bd, room, tid, sT, pre, hf, hroom, _, ht, hrun⟩ := run_payment_accepted hi he
      have hpre := (TenantResolution_frame ht).2.2.2.2.2.2.2
      rw [List.any_eq_false] at hpre
      rw [hrun, bestEffortSteps_calls] at h
      rw [List.mem_append, List.mem_append, List.mem_append] at h
      refine ⟨rfl, rfl, bd, room, ?_⟩
      rcases h with ((h | h) | h) | h
      · exact absurd rfl (hpre _ h)
      · simp at h
      · unfold auditCalls at h
        cases htr : truthy q.payment_intent with
        | none => rw [htr] at h; simp at h
        | some i =>
          rw [htr] at h
          simp only [List.mem_singleton] at h
          obtain ⟨hq, hne⟩ := truthy_eq_some.mp htr
          exact ⟨i, hf, hroom, hq, hne, by injection h⟩
      · simp at h

theorem issuedTransactionInsert_iff_mem {w : World} :
    issuedTransactionInsert w = true ↔ ∃ row, RemoteCall.insertTransaction row ∈ w.calls := by
  unfold issuedTransactionInsert
  rw [List.any_eq_true]
  constructor
  · rintro ⟨c, hc, hp⟩
    cases c <;> simp [RemoteCall.isTransactionInsert] at hp
    exact ⟨_, hc⟩
  · rintro ⟨row, hrow⟩
    exact ⟨_, hrow, rfl⟩

theorem transaction_audit_trace (env : Env) (ui : UiState) (s : Store)
    (id user : Id) (q : SearchParams) :
    (issuedTransactionInsert (handlePaymentSuccess env ui s id user q) = true ↔
      issuedPaymentInsert (handlePaymentSuccess env ui s id user q) = true ∧
        env.paymentInsertError = none ∧ ∃ i, q.payment_intent = some i ∧ i ≠ "") ∧
    (∀ row, RemoteCall.insertTransaction row ∈ (handlePaymentSuccess env ui s id user q).calls →
      ∃ bd room i, (fetchBooking env s id user).data = some bd ∧ bd.rooms = some room ∧
        q.payment_intent = some i ∧ row.status = "succeeded" ∧ row.currency = "PHP" ∧
        row.amount = room.price_monthly ∧ row.stripe_payment_intent_id = i ∧
        row.booking_id = bd.row.id) ∧
    (q.payment_intent = none →
      issuedTransactionInsert (handlePaymentSuccess env ui s id user q) = false) ∧
    (∀ e, env.transactionInsertError = some e →
      issuedTransactionInsert (handlePaymentSuccess env ui s id user q) = true →
      (handlePaymentSuccess env ui s id user q).store.payment_transactions =
        s.payment_transactions ∧
      (handlePaymentSuccess env ui s id user q).ui.error = none ∧
      ∃ bd room pre row, (fetchBooking env s id user).data = some bd ∧ bd.rooms = some room ∧
        (handlePaymentSuccess env ui s id user q).calls =
          pre ++ [RemoteCall.insertTransaction row, RemoteCall.updateBooking id,
            RemoteCall.updateRoom bd.row.room_id,
            RemoteCall.insertNotification (notificationRow env user room)]) := by
  refine ⟨⟨?_, ?_⟩, ?_, ?_, ?_⟩
  · intro h
    obtain ⟨row, hrow⟩ := issuedTransactionInsert_iff_mem.mp h
    obtain ⟨hi, he, bd, room, i, _, _, hq, hne, _⟩ := transaction_call_inv hrow
    exact ⟨hi, he, i, hq, hne⟩
  · rintro ⟨hi, he, i, hq, hne⟩
    obtain ⟨bd, room, tid, sT, pre, _, _, _, _, hrun⟩ := run_payment_accepted hi he
    have htr : truthy q.payment_intent = some i := truthy_eq_some.mpr ⟨hq, hne⟩
    rw [issuedTransactionInsert_iff_mem]
    refine ⟨transactionData env bd.row room i, ?_⟩
    rw [hrun, bestEffortSteps_calls]
    simp [auditCalls, htr]
  · intro row hrow
    obtain ⟨_, _, bd, room, i, hf, hroom, hq, _, hrowEq⟩ := transaction_call_inv hrow
    subst hrowEq
    exact ⟨bd, room, i, hf, hroom, hq, rfl, rfl, rfl, rfl, rfl⟩
  · intro hq
    cases h : issuedTransactionInsert (handlePaymentSuccess env ui s id user q) with
    | false => rfl
    | true =>
      obtain ⟨row, hrow⟩ := issuedTransactionInsert_iff_mem.mp h
      obtain ⟨_, _, _, _, i, _, _, hq2, _, _⟩ := transaction_call_inv hrow
      rw [hq] at hq2
      cases hq2
  · intro e hte h
    obtain ⟨row, hrow⟩ := issuedTransactionInsert_iff_mem.mp h
    obtain ⟨hi, he, _, _, i, _, _, hq, hne, _⟩ := transaction_call_inv hrow
    obtain ⟨bd, room, tid, sT, pre, hf, hroom, _, ht, hrun⟩ := run_payment_accepted hi he
    have htr : truthy q.payment_intent = some i := truthy_eq_some.mpr ⟨hq, hne⟩
    have htx := (TenantResolution_frame ht).2.2.2.1
    refine ⟨?_, ?_, bd, room,
      pre ++ [RemoteCall.insertPayment (paymentData env tid user bd.row room q.payment_intent)],
      transactionData env bd.row room i, hf, hroom, ?_⟩
    · rw [hrun, bestEffortSteps_transactions, htr, hte]
      exact htx
    · rw [hrun, bestEffortSteps_ui]
      rfl
    · rw [hrun, bestEffortSteps_calls]
      simp [auditCalls, htr]

theorem setRoomOccupied_status (env : Env) (s : Store) (roomId : Id) :
    ∀ r ∈ (setRoomOccupied env s roomId).rooms, r.id = roomId → r.status = "Occupied" := by
  intro r hr hid
  unfold setRoomOccupied at hr
  simp only [List.mem_map] at hr
  obtain ⟨r0, _, hr0⟩ := hr
  by_cases hc : r0.id = roomId
  · simp [hc] at hr0
    rw [← hr0]
  · simp [hc] at hr0
    rw [← hr0] at hid
    exact absurd hid hc

theorem setRoomOccupied_mem (env : Env) (s : Store) (roomId : Id) (r0 : Room)
    (hmem : r0 ∈ s.rooms) (hid : r0.id = roomId) :
    ∃ r ∈ (setRoomOccupied env s roomId).rooms, r.id = roomId := by
  refine ⟨{ r0 with status := "Occupied", updated_at := some env.roomUpdatedAt }, ?_, hid⟩
  unfold setRoomOccupied
  simp only [List.mem_map]
  exact ⟨r0, hmem, by simp [hid]⟩

/-- C6. End-to-end postcondition when every remote call succeeds: for a
booking `b` with the given key owned by the caller, whose room has monthly
price `p`, with no tenant row for the caller and that room and no payment row
for the intent id `i`, the run adds exactly one tenant row (status `Active`,
room of the booking, profile of the caller), exactly one payment row (amount
`p`, status `Paid`, reference `i`, referring to the new tenant), leaves every
booking row with that key `Approved` and every room row with the key of the
room `Occupied`, adds exactly one notification addressed to the caller, and
reports no error. The prior status of the booking (`Pending` in the scenario)
plays no part. -/
theorem end_to_end_postcondition (env : Env) (ui : UiState) (s : Store) (id user : Id)
    (q : SearchParams) (b : BookingRequest) (room : Room) (p : Nat) (i : String)
    (henv : env.allSucceed)
    (hb : s.booking_requests.filter (fun x => x.id == id && x.requestor == user) = [b])
    (hroom : s.rooms.find? (fun r => r.id == b.room_id) = some room)
    (hprice : room.price_monthly = p)
    (hnt : ∀ t ∈ s.tenants, ¬ (t.profile_id = user ∧ t.room_id = b.room_id))
    (hnp : ∀ x ∈ s.payments, x.stripe_payment_intent_id ≠ some i)
    (hq : q.payment_intent = some i) (hi : i ≠ "") :
    ∃ t pay n,
      (handlePaymentSuccess env ui s id user q).store.tenants = s.tenants ++ [t] ∧
      t.status = "Active" ∧ t.room_id = b.room_id ∧ t.profile_id = user ∧
      (handlePaymentSuccess env ui s id user q).store.payments = s.payments ++ [pay] ∧
      pay.amount = p ∧ pay.payment_status = "Paid" ∧ pay.reference_no = i ∧
      pay.tenant_id = t.id ∧
      (∀ x ∈ (handlePaymentSuccess env ui s id user q).store.booking_requests,
        x.id = id → x.status = "Approved") ∧
      (∃ x ∈ (handlePaymentSuccess env ui s id user q).store.booking_requests,
        x.id = id ∧ x.requestor = user) ∧
      (∀ r ∈ (handlePaymentSuccess env ui s id user q).store.rooms,
        r.id = b.room_id → r.status = "Occupied") ∧
      (∃ r ∈ (handlePaymentSuccess env ui s id user q).store.rooms, r.id = b.room_id) ∧
      (handlePaymentSuccess env ui s id user q).store.notifications =
        s.notifications ++ [n] ∧
      n.user_id = user ∧
      (handlePaymentSuccess env ui s id user q).ui.error = none ∧
      (handlePaymentSuccess env ui s id user q).ui.loading = false := by
  obtain ⟨e1, e2, e3, e4, e5, e6, e7, e8, e9⟩ := henv
  have hbmem : b ∈ s.booking_requests.filter (fun x => x.id == id && x.requestor == user) := by
    rw [hb]; simp
  have hbm := List.mem_filter.mp hbmem
  have hbcond : b.id = id ∧ b.requestor = user := by simpa using hbm.2
  have hf : (fetchBooking env s id user).data = some { row := b, rooms := some room } := by
    simp [fetchBooking, hb, e1, single, hroom]
  have hpnil : s.payments.filter
      (fun x => x.stripe_payment_intent_id == some (eqFilterText q.payment_intent)) = [] := by
    rw [List.filter_eq_nil_iff]
    intro x hx
    simpa [hq, eqFilterText] using hnp x hx
  have hp : (lookupPayment env s q.payment_intent).data = none := by
    unfold lookupPayment
    rw [hpnil]
    exact maybeSingle_nil _
  have htnil : s.tenants.filter
      (fun t => t.profile_id == user && t.room_id == b.room_id) = [] := by
    rw [List.filter_eq_nil_iff]
    intro t ht
    simpa using hnt t ht
  have htd : (lookupTenant env s user b.room_id).data = none := by
    unfold lookupTenant
    rw [htnil]
    exact maybeSingle_nil _
  have hres : TenantResolution env s id user q.payment_intent b.room_id env.newTenantId
      { s with tenants := s.tenants ++ [newTenantRow env user b.room_id] }
      [RemoteCall.selectBooking id user, RemoteCall.selectPayment q.payment_intent,
        RemoteCall.selectTenant user b.room_id,
        RemoteCall.insertTenant (newTenantRow env user b.room_id)] :=
    Or.inr ⟨existingTenantId_of_data_none htd, e4, rfl, rfl, rfl⟩
  have hrun := run_forward ui hf rfl hp hres e5
  have htr : truthy q.payment_intent = some i := truthy_eq_some.mpr ⟨hq, hi⟩
  have hrmem : room ∈ s.rooms := List.mem_of_find?_eq_some hroom
  have hrid : room.id = b.room_id := by
    have := List.find?_some hroom
    simpa using this
  refine ⟨newTenantRow env user b.room_id,
    paymentData env env.newTenantId user b room q.payment_intent,
    notificationRow env user room, ?_, rfl, rfl, rfl, ?_, hprice, rfl, ?_, rfl, ?_, ?_, ?_, ?_,
    ?_, rfl, ?_, ?_⟩
  · rw [hrun, bestEffortSteps_tenants]
  · rw [hrun, bestEffortSteps_payments]
  · simp [paymentData, htr]
  · rw [hrun, bestEffortSteps_bookings, e7]
    exact setBookingApproved_status env _ id
  · rw [hrun, bestEffortSteps_bookings, e7]
    obtain ⟨x, hxm, hxid, hxreq, _⟩ := setBookingApproved_mem env
      { booking_requests := s.booking_requests, rooms := s.rooms,
        tenants := s.tenants ++ [newTenantRow env user b.room_id],
        payments := s.payments ++
          [paymentData env env.newTenantId user b room q.payment_intent],
        payment_transactions := s.payment_transactions,
        notifications := s.notifications } id b hbm.1 hbcond.1
    exact ⟨x, hxm, hxid, by rw [hxreq]; exact hbcond.2⟩
  · rw [hrun, bestEffortSteps_rooms, e8]
    exact setRoomOccupied_status env _ b.room_id
  · rw [hrun, bestEffortSteps_rooms, e8]
    exact setRoomOccupied_mem env
      { booking_requests := s.booking_requests, rooms := s.rooms,
        tenants := s.tenants ++ [newTenantRow env user b.room_id],
        payments := s.payments ++
          [paymentData env env.newTenantId user b room q.payment_intent],
        payment_transactions := s.payment_transactions,
        notifications := s.notifications } b.room_id room hrmem hrid
  · rw [hrun, bestEffortSteps_notifications, e9]
  · rw [hrun, bestEffortSteps_ui]
    rfl
  · rw [hrun, bestEffortSteps_ui]

/-- Witness of C6: booking B1, monthly price 5000, intent `pi_123`. -/
theorem end_to_end_postcondition_witness :
    envOk.allSucceed ∧
    ∃ t pay n,
      (handlePaymentSuccess envOk initialUi storeB1 1 7 queryPi123).store.tenants =
        storeB1.tenants ++ [t] ∧
      t.status = "Active" ∧ t.room_id = 10 ∧ t.profile_id = 7 ∧
      (handlePaymentSuccess envOk initialUi storeB1 1 7 queryPi123).store.payments =
        storeB1.payments ++ [pay] ∧
      pay.amount = 5000 ∧ pay.payment_status = "Paid" ∧ pay.reference_no = "pi_123" ∧
      pay.tenant_id = t.id ∧
      (∀ x ∈ (handlePaymentSuccess envOk initialUi storeB1 1 7 queryPi123).store.booking_requests,
        x.id = 1 → x.status = "Approved") ∧
      (∃ x ∈ (handlePaymentSuccess envOk initialUi storeB1 1 7 queryPi123).store.booking_requests,
        x.id = 1 ∧ x.requestor = 7) ∧
      (∀ r ∈ (handlePaymentSuccess envOk initialUi storeB1 1 7 queryPi123).store.rooms,
        r.id = 10 → r.status = "Occupied") ∧
      (∃ r ∈ (handlePaymentSuccess envOk initialUi storeB1 1 7 queryPi123).store.rooms,
        r.id = 10) ∧
      (handlePaymentSuccess envOk initialUi storeB1 1 7 queryPi123).store.notifications =
        storeB1.notifications ++ [n] ∧
      n.user_id = 7 ∧
      (handlePaymentSuccess envOk initialUi storeB1 1 7 queryPi123).ui.error = none ∧
      (handlePaymentSuccess envOk initialUi storeB1 1 7 queryPi123).ui.loading = false :=
  ⟨by decide,
   end_to_end_postcondition envOk initialUi storeB1 1 7 queryPi123
     { id := 1, room_id := 10, requestor := 7, status := "Pending" }
     { id := 10, room_number := "101", price_monthly := 5000, status := "Available" }
     5000 "pi_123" (by decide) (by decide) (by decide) rfl (by decide) (by decide) rfl
     (by decide)⟩

theorem fetchBooking_of_filter {env : Env} {s : Store} {id user : Id} {b : BookingRequest}
    (henv : env.bookingFetchError = none)
    (hb : s.booking_requests.filter (fun x => x.id == id && x.requestor == user) = [b]) :
    (fetchBooking env s id user).data =
      some { row := b, rooms := s.rooms.find? (fun r => r.id == b.room_id) } := by
  simp [fetchBooking, hb, henv, single]

theorem setBookingApproved_filter (env : Env) (s : Store) (id key user : Id) :
    (setBookingApproved env s id).booking_requests.filter
        (fun x => x.id == key && x.requestor == user) =
      (s.booking_requests.filter (fun x => x.id == key && x.requestor == user)).map
        (fun b => if b.id == id then
          { b with status := "Approved", updated_at := some env.bookingUpdatedAt }
          else b) := by
  unfold setBookingApproved
  simp only [List.filter_map]
  congr 1
  apply List.filter_congr
  intro x _
  simp only [Function.comp]
  split <;> rfl

theorem lookupPayment_after_insert {env : Env} {s : Store} {i : String} (row : Payment)
    (henv : env.paymentLookupError = none)
    (hfresh : ∀ p ∈ s.payments, p.stripe_payment_intent_id ≠ some i)
    (hrow : row.stripe_payment_intent_id = some i) (s1 : Store)
    (hs1 : s1.payments = s.payments ++ [row]) :
    (lookupPayment env s1 (some i)).data = some row ∧
    s1.payments.filter (fun p => p.stripe_payment_intent_id == some i) = [row] := by
  have hnil : s.payments.filter (fun p => p.stripe_payment_intent_id == some i) = [] := by
    rw [List.filter_eq_nil_iff]
    intro p hp
    simpa using hfresh p hp
  have hfil : s1.payments.filter (fun p => p.stripe_payment_intent_id == some i) = [row] := by
    rw [hs1, List.filter_append, hnil]
    simp [hrow]
  refine ⟨?_, hfil⟩
  unfold lookupPayment
  simp only [eqFilterText, henv]
  rw [hfil]
  rfl

/-- C1 (amended). Idempotency of the reconciliation sequence: when the ledger
holds no payment row for the intent id before a first run in which steps 1 to
4 succeed, a second run for the same booking, user and intent id whose booking
query and payment lookup are answered by the store leaves the whole store as
the first run left it (no row added to any table, no status changed), issues
only those two queries, reports no error and clears the loading flag; exactly
one payment row carries the intent id. -/
theorem reconciliation_idempotent (env1 env2 : Env) (ui1 ui2 : UiState) (s : Store)
    (id user : Id) (q : SearchParams) (i : String)
    (hq : q.payment_intent = some i)
    (hfresh : ∀ p ∈ s.payments, p.stripe_payment_intent_id ≠ some i)
    (hok : fatalStepsSucceeded (handlePaymentSuccess env1 ui1 s id user q))
    (hfetch : env2.bookingFetchError = none) (hlook : env2.paymentLookupError = none) :
    (handlePaymentSuccess env2 ui2 (handlePaymentSuccess env1 ui1 s id user q).store
      id user q).store = (handlePaymentSuccess env1 ui1 s id user q).store ∧
    (handlePaymentSuccess env2 ui2 (handlePaymentSuccess env1 ui1 s id user q).store
      id user q).calls =
        [RemoteCall.selectBooking id user, RemoteCall.selectPayment q.payment_intent] ∧
    (handlePaymentSuccess env2 ui2 (handlePaymentSuccess env1 ui1 s id user q).store
      id user q).ui.error = none ∧
    (handlePaymentSuccess env2 ui2 (handlePaymentSuccess env1 ui1 s id user q).store
      id user q).ui.loading = false ∧
    ((handlePaymentSuccess env1 ui1 s id user q).store.payments.filter
      (fun p => p.stripe_payment_intent_id == some i)).length = 1 := by
  obtain ⟨hi, he⟩ := fatalStepsSucceeded_iff.mp hok
  obtain ⟨bd, room, tid, sT, pre, hf, hroom, _, ht, hrun⟩ := run_payment_accepted hi he
  obtain ⟨hbk, _, hpay, _, _, _, _, _⟩ := TenantResolution_frame ht
  obtain ⟨_, _, hfil, _, _, _, _⟩ := fetchBooking_data_some hf
  have hpay1 : (handlePaymentSuccess env1 ui1 s id user q).store.payments =
      s.payments ++ [paymentData env1 tid user bd.row room q.payment_intent] := by
    rw [hrun, bestEffortSteps_payments, hpay]
  obtain ⟨hfound, hone⟩ := lookupPayment_after_insert
      (paymentData env1 tid user bd.row room q.payment_intent) hlook hfresh hq _ hpay1
  have hfil1 : ∃ b1, (handlePaymentSuccess env1 ui1 s id user q).store.booking_requests.filter
      (fun x => x.id == id && x.requestor == user) = [b1] := by
    rw [hrun, bestEffortSteps_bookings]
    cases env1.bookingUpdateError with
    | some e => exact ⟨bd.row, by show sT.booking_requests.filter _ = _; rw [hbk, hfil]⟩
    | none =>
      refine ⟨if bd.row.id == id then
          { bd.row with status := "Approved", updated_at := some env1.bookingUpdatedAt }
        else bd.row, ?_⟩
      show (setBookingApproved env1 _ id).booking_requests.filter _ = _
      rw [setBookingApproved_filter]
      show (sT.booking_requests.filter _).map _ = _
      rw [hbk, hfil]
      rfl
  obtain ⟨b1, hb1⟩ := hfil1
  have hf2 := fetchBooking_of_filter hfetch hb1
  have hp2 : (lookupPayment env2 (handlePaymentSuccess env1 ui1 s id user q).store
      q.payment_intent).data =
        some (paymentData env1 tid user bd.row room q.payment_intent) := by
    rw [← hq] at hfound; exact hfound
  rw [run_already_processed hf2 hp2]
  exact ⟨rfl, rfl, rfl, rfl, by rw [hone]; rfl⟩

/-- Witness of C1 (amended): booking B1 reconciled twice for `pi_123`. -/
theorem reconciliation_idempotent_witness :
    fatalStepsSucceeded (handlePaymentSuccess envOk initialUi storeB1 1 7 queryPi123) ∧
    (handlePaymentSuccess envOk initialUi
      (handlePaymentSuccess envOk initialUi storeB1 1 7 queryPi123).store 1 7
      queryPi123).store = (handlePaymentSuccess envOk initialUi storeB1 1 7 queryPi123).store ∧
    (handlePaymentSuccess envOk initialUi
      (handlePaymentSuccess envOk initialUi storeB1 1 7 queryPi123).store 1 7
      queryPi123).ui.error = none :=
  have h := reconciliation_idempotent envOk envOk initialUi initialUi storeB1 1 7 queryPi123
    "pi_123" rfl (by decide) (by decide) rfl rfl
  ⟨by decide, h.1, h.2.2.1⟩

/-- C1 as stated fails. First, on a ledger that already holds two rows for
`pi_123` the lookup of step 2 returns an error, which the sequence reads as
no payment: the first run completes steps 1 to 4 and inserts a third row, and
the second run with the same input inserts a fourth. Second, starting from the
clean store of booking B1, a second run whose payment lookup fails in
transport inserts a second payment row, a second notification and a second
audit row. -/
theorem reconciliation_idempotent_counterexample :
    (fatalStepsSucceeded (handlePaymentSuccess envOk initialUi storeTwoPayments 1 7 queryPi123) ∧
     (handlePaymentSuccess envOk initialUi storeTwoPayments 1 7
        queryPi123).store.payments.length = 3 ∧
     (handlePaymentSuccess envOk initialUi
        (handlePaymentSuccess envOk initialUi storeTwoPayments 1 7 queryPi123).store 1 7
        queryPi123).store.payments.length = 4 ∧
     (handlePaymentSuccess envOk initialUi
        (handlePaymentSuccess envOk initialUi storeTwoPayments 1 7 queryPi123).store 1 7
        queryPi123).store.notifications.length = 2) ∧
    (fatalStepsSucceeded (handlePaymentSuccess envOk initialUi storeB1 1 7 queryPi123) ∧
     (handlePaymentSuccess envOk initialUi storeB1 1 7 queryPi123).store.payments.length = 1 ∧
     (handlePaymentSuccess { envOk with paymentLookupError := some lostConnection } initialUi
        (handlePaymentSuccess envOk initialUi storeB1 1 7 queryPi123).store 1 7
        queryPi123).store.payments.length = 2 ∧
     (handlePaymentSuccess { envOk with paymentLookupError := some lostConnection } initialUi
        (handlePaymentSuccess envOk initialUi storeB1 1 7 queryPi123).store 1 7
        queryPi123).store.notifications.length = 2 ∧
     (handlePaymentSuccess { envOk with paymentLookupError := some lostConnection } initialUi
        (handlePaymentSuccess envOk initialUi storeB1 1 7 queryPi123).store 1 7
        queryPi123).store.payment_transactions.length = 2) := by
  decide

/-- C2 (amended). Tenant reuse: when exactly one tenant row exists for the
caller and the room of the loaded booking, its key is truthy (not zero), and
the tenant lookup is answered by the store, a run in which steps 1 to 4
succeed issues no tenant insertion, leaves the tenant table as it was, and the
one payment row it inserts refers to the key of that tenant. -/
theorem tenant_reuse (env : Env) (ui : UiState) (s : Store) (id user : Id)
    (q : SearchParams) (bd : BookingData) (t : Tenant)
    (hf : (fetchBooking env s id user).data = some bd)
    (hone : s.tenants.filter
      (fun x => x.profile_id == user && x.room_id == bd.row.room_id) = [t])
    (hkey : t.id ≠ 0)
    (hlook : env.tenantLookupError = none)
    (hok : fatalStepsSucceeded (handlePaymentSuccess env ui s id user q)) :
    (∀ row, RemoteCall.insertTenant row ∉ (handlePaymentSuccess env ui s id user q).calls) ∧
    (handlePaymentSuccess env ui s id user q).store.tenants = s.tenants ∧
    ∃ row, (handlePaymentSuccess env ui s id user q).store.payments = s.payments ++ [row] ∧
      row.tenant_id = t.id := by
  obtain ⟨hi, he⟩ := fatalStepsSucceeded_iff.mp hok
  obtain ⟨bd2, room, tid, sT, pre, hf2, hroom, _, ht, hrun⟩ := run_payment_accepted hi he
  rw [hf] at hf2
  cases hf2
  have htd : (lookupTenant env s user bd.row.room_id).data = some t := by
    unfold lookupTenant
    rw [hone, hlook]
    rfl
  rcases ht with ⟨t2, ht2, _, rfl, rfl, rfl⟩ | ⟨hnone, _⟩
  · rw [htd] at ht2
    cases ht2
    refine ⟨?_, ?_, paymentData env t.id user bd.row room q.payment_intent, ?_, rfl⟩
    · intro row hrow
      rw [hrun, bestEffortSteps_calls] at hrow
      unfold auditCalls at hrow
      cases htr : truthy q.payment_intent <;> rw [htr] at hrow <;> simp at hrow
    · rw [hrun, bestEffortSteps_tenants]
    · rw [hrun, bestEffortSteps_payments]
  · rw [existingTenantId_of_data_some htd hkey] at hnone
    cases hnone

/-- Witness of C2 (amended): booking B1 with tenant T9 (key 9) present. -/
theorem tenant_reuse_witness :
    fatalStepsSucceeded (handlePaymentSuccess envOk initialUi storeT9 1 7 queryPi123) ∧
    (handlePaymentSuccess envOk initialUi storeT9 1 7 queryPi123).store.tenants =
      storeT9.tenants ∧
    ∃ row, (handlePaymentSuccess envOk initialUi storeT9 1 7 queryPi123).store.payments =
        storeT9.payments ++ [row] ∧ row.tenant_id = 9 :=
  ⟨by decide,
   (tenant_reuse envOk initialUi storeT9 1 7 queryPi123
     { row := { id := 1, room_id := 10, requestor := 7, status := "Pending" }
       rooms := some { id := 10, room_number := "101", price_monthly := 5000,
                       status := "Available" } }
     { id := 9, profile_id := 7, room_id := 10, status := "Active" }
     (by decide) (by decide) (by decide) rfl (by decide)).2⟩

/-- C2 as stated fails. First, with two tenant rows for the caller and the
room the lookup of step 3 returns an error, which the sequence reads as no
tenant: the run succeeds, adds a third tenant row (key 21) and the payment row
refers to it. Second, with the single tenant T9 present, a tenant lookup that
fails in transport has the same effect: a second tenant row is created and
the payment row refers to key 21, not 9. Third, a single tenant row whose key
is the number zero fails the truthiness test of source line 89: a second
tenant row is created and the payment row refers to key 21. -/
theorem tenant_reuse_counterexample :
    ((∃ t ∈ storeTwoTenants.tenants, t.profile_id = 7 ∧ t.room_id = 10) ∧
     fatalStepsSucceeded (handlePaymentSuccess envOk initialUi storeTwoTenants 1 7
        queryPi123) ∧
     (handlePaymentSuccess envOk initialUi storeTwoTenants 1 7
        queryPi123).store.tenants.length = 3 ∧
     (handlePaymentSuccess envOk initialUi storeTwoTenants 1 7
        queryPi123).store.payments.map (fun p => p.tenant_id) = [21]) ∧
    ((∃ t ∈ storeT9.tenants, t.profile_id = 7 ∧ t.room_id = 10) ∧
     fatalStepsSucceeded (handlePaymentSuccess
        { envOk with tenantLookupError := some lostConnection } initialUi storeT9 1 7
        queryPi123) ∧
     (handlePaymentSuccess { envOk with tenantLookupError := some lostConnection } initialUi
        storeT9 1 7 queryPi123).store.tenants.length = 2 ∧
     (handlePaymentSuccess { envOk with tenantLookupError := some lostConnection } initialUi
        storeT9 1 7 queryPi123).store.payments.map (fun p => p.tenant_id) = [21]) ∧
    ((∃ t ∈ storeT0.tenants, t.profile_id = 7 ∧ t.room_id = 10) ∧
     fatalStepsSucceeded (handlePaymentSuccess envOk initialUi storeT0 1 7 queryPi123) ∧
     (handlePaymentSuccess envOk initialUi storeT0 1 7 queryPi123).store.tenants.map
        (fun t => t.id) = [0, 21] ∧
     (handlePaymentSuccess envOk initialUi storeT0 1 7 queryPi123).store.payments.map
        (fun p => p.tenant_id) = [21]) := by
  decide


/-! ## Claims on the admin decision and the tenant removal -/

theorem approve_store_approved {env : OpEnv} {w0 : OpWorld} {r : RequestView}
    {form : DecisionForm} (adminId : Option Id)
    (hsel : w0.selectedRequest = some r) (henv : env.allSucceed)
    (hap : form.approval = some "Approve") :
    (handleApproveBooking env w0 form adminId).store =
      { booking_requests :=
          (setBookingDecision w0.store r.id "Approved" form.message adminId
            env.decidedAt).booking_requests
        rooms := (setRoomStatus w0.store r.room_id "Occupied").rooms
        tenants := w0.store.tenants ++ [approvedTenantRow env r form]
        payments := w0.store.payments
        payment_transactions := w0.store.payment_transactions
        notifications := w0.store.notifications ++ [decisionNotification r form true] } := by
  obtain ⟨e1, _, e3, e4, e5⟩ := henv
  simp [handleApproveBooking, hsel, approveTryBlock, opCatchFinally, OpWorld.call,
    insertNotificationQuietly, hap, e1, e3, e4, e5, setBookingDecision, setRoomStatus]

theorem approve_store_declined {env : OpEnv} {w0 : OpWorld} {r : RequestView}
    {form : DecisionForm} (adminId : Option Id)
    (hsel : w0.selectedRequest = some r) (henv : env.allSucceed)
    (hap : form.approval ≠ some "Approve") :
    (handleApproveBooking env w0 form adminId).store =
      { booking_requests :=
          (setBookingDecision w0.store r.id "Declined" form.message adminId
            env.decidedAt).booking_requests
        rooms := w0.store.rooms
        tenants := w0.store.tenants
        payments := w0.store.payments
        payment_transactions := w0.store.payment_transactions
        notifications := w0.store.notifications ++ [decisionNotification r form false] } := by
  obtain ⟨_, _, _, e4, e5⟩ := henv
  simp [handleApproveBooking, hsel, approveTryBlock, opCatchFinally, OpWorld.call,
    insertNotificationQuietly, hap, e4, e5, setBookingDecision]

theorem setBookingDecision_row (s : Store) (id : Id) (status : String)
    (message : Option String) (decider : Option Id) (decidedAt : String) :
    ∀ b ∈ (setBookingDecision s id status message decider decidedAt).booking_requests,
      b.id = id →
      b.status = status ∧ b.message = message ∧
      (∀ a, decider = some a → b.decided_by = some a) ∧
      b.decided_at = some decidedAt := by
  intro b hb hid
  unfold setBookingDecision at hb
  simp only [List.mem_map] at hb
  obtain ⟨b0, _, hb0⟩ := hb
  by_cases hc : b0.id = id
  · simp [hc] at hb0
    rw [← hb0]
    refine ⟨rfl, rfl, ?_, rfl⟩
    intro a ha
    subst ha
    rfl
  · simp [hc] at hb0
    rw [← hb0] at hid
    exact absurd hid hc

theorem setRoomStatus_row (s : Store) (roomId : Id) (status : String) :
    ∀ r ∈ (setRoomStatus s roomId status).rooms, r.id = roomId → r.status = status := by
  intro r hr hid
  unfold setRoomStatus at hr
  simp only [List.mem_map] at hr
  obtain ⟨r0, _, hr0⟩ := hr
  by_cases hc : r0.id = roomId
  · simp [hc] at hr0
    rw [← hr0]
  · simp [hc] at hr0
    rw [← hr0] at hid
    exact absurd hid hc

theorem setTenantStatus_row (s : Store) (tenantId : Id) (status : String) :
    ∀ t ∈ (setTenantStatus s tenantId status).tenants, t.id = tenantId →
      t.status = status := by
  intro t ht hid
  unfold setTenantStatus at ht
  simp only [List.mem_map] at ht
  obtain ⟨t0, _, ht0⟩ := ht
  by_cases hc : t0.id = tenantId
  · simp [hc] at ht0
    rw [← ht0]
  · simp [hc] at ht0
    rw [← ht0] at hid
    exact absurd hid hc

/-- C17. Admin booking decision when every remote call succeeds, for a selected
request `r`. With the decision `Approve` the tenant table gains exactly one
row, `Active`, for the requestor and the room of the request; every room row
with the key of that room is `Occupied` and the other room rows are as before;
the notification table gains exactly one row, the approval message addressed
to the requestor. With any other decision the tenant and room tables are
unchanged and the notification table gains exactly one row, the decline
message addressed to the requestor. In both cases every booking row with the
key of the request carries the new status (`Approved` or `Declined`), the
decision message of the form, the id of the signed-in admin as decider and the
clock reading as decision time, the other booking rows are as before, and the
payment ledger is unchanged. (Were no user signed in, the decider column alone
would keep its value, as the equation on the booking table records.) -/
theorem admin_decision_postcondition (env : OpEnv) (w0 : OpWorld) (r : RequestView)
    (form : DecisionForm) (adminId : Option Id)
    (hsel : w0.selectedRequest = some r) (henv : env.allSucceed) :
    (form.approval = some "Approve" →
      (∃ t, (handleApproveBooking env w0 form adminId).store.tenants =
          w0.store.tenants ++ [t] ∧
        t.status = "Active" ∧ t.profile_id = r.requestor ∧ t.room_id = r.room_id) ∧
      (∀ x ∈ (handleApproveBooking env w0 form adminId).store.rooms,
        x.id = r.room_id → x.status = "Occupied") ∧
      (handleApproveBooking env w0 form adminId).store.rooms =
        w0.store.rooms.map (fun x =>
          if x.id == r.room_id then { x with status := "Occupied" } else x) ∧
      (∃ n, (handleApproveBooking env w0 form adminId).store.notifications =
          w0.store.notifications ++ [n] ∧
        n = decisionNotification r form true ∧ n.user_id = r.requestor) ∧
      (∀ b ∈ (handleApproveBooking env w0 form adminId).store.booking_requests,
        b.id = r.id → b.status = "Approved")) ∧
    (form.approval ≠ some "Approve" →
      (handleApproveBooking env w0 form adminId).store.tenants = w0.store.tenants ∧
      (handleApproveBooking env w0 form adminId).store.rooms = w0.store.rooms ∧
      (∃ n, (handleApproveBooking env w0 form adminId).store.notifications =
          w0.store.notifications ++ [n] ∧
        n = decisionNotification r form false ∧ n.user_id = r.requestor) ∧
      (∀ b ∈ (handleApproveBooking env w0 form adminId).store.booking_requests,
        b.id = r.id → b.status = "Declined")) ∧
    (∀ b ∈ (handleApproveBooking env w0 form adminId).store.booking_requests,
      b.id = r.id →
      b.message = form.message ∧ (∀ a, adminId = some a → b.decided_by = some a) ∧
      b.decided_at = some env.decidedAt) ∧
    (handleApproveBooking env w0 form adminId).store.booking_requests =
      w0.store.booking_requests.map (fun b =>
        if b.id == r.id then
          { b with status := if form.approval = some "Approve" then "Approved" else "Declined",
                   message := form.message, decided_by := decidedBy adminId b,
                   decided_at := some env.decidedAt }
        else b) ∧
    (handleApproveBooking env w0 form adminId).store.payments = w0.store.payments := by
  by_cases hap : form.approval = some "Approve"
  · have hs := approve_store_approved adminId hsel henv hap
    refine ⟨fun _ => ⟨⟨approvedTenantRow env r form, by rw [hs], rfl, rfl, rfl⟩, ?_, ?_,
      ⟨_, by rw [hs], rfl, rfl⟩, ?_⟩, fun h => absurd hap h, ?_, ?_, by rw [hs]⟩
    · rw [hs]
      exact setRoomStatus_row _ _ _
    · rw [hs]
      rfl
    · rw [hs]
      intro b hb hid
      exact (setBookingDecision_row _ _ _ _ _ _ b hb hid).1
    · rw [hs]
      intro b hb hid
      exact (setBookingDecision_row _ _ _ _ _ _ b hb hid).2
    · rw [hs]
      simp [setBookingDecision, hap]
  · have hs := approve_store_declined adminId hsel henv hap
    refine ⟨fun h => absurd h hap, fun _ => ⟨by rw [hs], by rw [hs],
      ⟨_, by rw [hs], rfl, rfl⟩, ?_⟩, ?_, ?_, by rw [hs]⟩
    · rw [hs]
      intro b hb hid
      exact (setBookingDecision_row _ _ _ _ _ _ b hb hid).1
    · rw [hs]
      intro b hb hid
      exact (setBookingDecision_row _ _ _ _ _ _ b hb hid).2
    · rw [hs]
      simp [setBookingDecision, hap]

/-- Witness of C17: the pending request of booking B1 is approved by admin 2,
who is recorded as the decider; an approval issued without a signed-in user
leaves the decider recorded before in place. -/
theorem admin_decision_postcondition_witness :
    opOk.allSucceed ∧
    (handleApproveBooking opOk (pageOver storeB1 (some requestB1)) approveForm
      (some 2)).store.tenants =
        [{ id := 31, profile_id := 7, room_id := 10, status := "Active",
           tenant_name := some "Ana Cruz", rent_start := some "2025-02-01",
           rent_due := some "2025-07-31" }] ∧
    (handleApproveBooking opOk (pageOver storeB1 (some requestB1)) approveForm
      (some 2)).store.payments = storeB1.payments ∧
    (handleApproveBooking opOk (pageOver storeB1 (some requestB1)) declineForm
      (some 2)).store.tenants = storeB1.tenants ∧
    (handleApproveBooking opOk (pageOver storeB1 (some requestB1)) approveForm
      (some 2)).store.booking_requests.map (fun b => (b.status, b.decided_by)) =
        [("Approved", some 2)] ∧
    (handleApproveBooking opOk (pageOver storeDeclinedB1 (some requestB1)) approveForm
      none).store.booking_requests.map (fun b => (b.status, b.decided_by)) =
        [("Approved", some 2)] :=
  have ha := admin_decision_postcondition opOk (pageOver storeB1 (some requestB1)) requestB1
    approveForm (some 2) rfl (by decide)
  have hd := admin_decision_postcondition opOk (pageOver storeB1 (some requestB1)) requestB1
    declineForm (some 2) rfl (by decide)
  ⟨by decide, by decide, ha.2.2.2.2, (hd.2.1 (by decide)).1, by decide, by decide⟩

/-- C19. Admin tenant removal, once confirmed and with every remote call
succeeding: every tenant row with the given key has status `Inactive` and the
tenant table is otherwise as before; every room row with the given key has
status `Available` and the room table is otherwise as before; the notification
table gains exactly one row, addressed to the given profile; the payment
ledger, the transaction audit table and the booking table are unchanged. -/
theorem tenant_removal_frame (env : OpEnv) (w0 : OpWorld) (tenantId roomId profileId : Id)
    (hc : env.confirmed = true) (henv : env.allSucceed) :
    (∀ t ∈ (handleRemoveTenant env w0 tenantId roomId profileId).store.tenants,
      t.id = tenantId → t.status = "Inactive") ∧
    (handleRemoveTenant env w0 tenantId roomId profileId).store.tenants =
      w0.store.tenants.map (fun t =>
        if t.id == tenantId then { t with status := "Inactive" } else t) ∧
    (∀ r ∈ (handleRemoveTenant env w0 tenantId roomId profileId).store.rooms,
      r.id = roomId → r.status = "Available") ∧
    (handleRemoveTenant env w0 tenantId roomId profileId).store.rooms =
      w0.store.rooms.map (fun r =>
        if r.id == roomId then { r with status := "Available" } else r) ∧
    (∃ n, (handleRemoveTenant env w0 tenantId roomId profileId).store.notifications =
        w0.store.notifications ++ [n] ∧ n.user_id = profileId) ∧
    (handleRemoveTenant env w0 tenantId roomId profileId).store.payments =
      w0.store.payments ∧
    (handleRemoveTenant env w0 tenantId roomId profileId).store.payment_transactions =
      w0.store.payment_transactions ∧
    (handleRemoveTenant env w0 tenantId roomId profileId).store.booking_requests =
      w0.store.booking_requests := by
  obtain ⟨_, e2, e3, e4, _⟩ := henv
  have hs : (handleRemoveTenant env w0 tenantId roomId profileId).store =
      { booking_requests := w0.store.booking_requests
        rooms := (setRoomStatus w0.store roomId "Available").rooms
        tenants := (setTenantStatus w0.store tenantId "Inactive").tenants
        payments := w0.store.payments
        payment_transactions := w0.store.payment_transactions
        notifications := w0.store.notifications ++ [removalNotification profileId] } := by
    simp [handleRemoveTenant, hc, removeTryBlock, opCatchFinally, OpWorld.call,
      insertNotificationQuietly, e2, e3, e4, setRoomStatus, setTenantStatus]
  rw [hs]
  exact ⟨setTenantStatus_row _ _ _, rfl, setRoomStatus_row _ _ _, rfl,
    ⟨_, rfl, rfl⟩, rfl, rfl, rfl⟩

/-- Witness of C19: tenant T9 of room 10 is removed from the store of B1. -/
theorem tenant_removal_frame_witness :
    opOk.confirmed = true ∧ opOk.allSucceed ∧
    (handleRemoveTenant opOk (pageOver storeT9 none) 9 10 7).store.tenants =
      [{ id := 9, profile_id := 7, room_id := 10, status := "Inactive" }] ∧
    (handleRemoveTenant opOk (pageOver storeT9 none) 9 10 7).store.booking_requests =
      storeT9.booking_requests :=
  have h := tenant_removal_frame opOk (pageOver storeT9 none) 9 10 7 rfl (by decide)
  ⟨rfl, by decide, by decide, h.2.2.2.2.2.2.2⟩


/-! ## Claims on the booking status transitions -/

theorem statusChanges_self (l : List BookingRequest) : statusChanges l l = [] := by
  unfold statusChanges
  induction l with
  | nil => rfl
  | cons b l ih =>
    simp only [List.zip_cons_cons, List.filter_cons]
    simpa using ih

theorem mem_statusChanges_map {l : List BookingRequest} {f : BookingRequest → BookingRequest}
    {c : String × String} (h : c ∈ statusChanges l (l.map f)) :
    ∃ b ∈ l, c = (b.status, (f b).status) ∧ b.status ≠ (f b).status := by
  induction l with
  | nil => simp [statusChanges] at h
  | cons b l ih =>
    unfold statusChanges at h ih
    simp only [List.map_cons, List.zip_cons_cons, List.filter_cons] at h
    by_cases hb : b.status = (f b).status
    · simp only [hb, bne_self_eq_false, Bool.false_eq_true, if_false] at h
      obtain ⟨x, hx, hc⟩ := ih h
      exact ⟨x, List.mem_cons_of_mem _ hx, hc⟩
    · have hne : (b.status != (f b).status) = true := by simpa using hb
      simp only [hne, if_true, List.map_cons, List.mem_cons] at h
      rcases h with h | h
      · exact ⟨b, List.mem_cons_self _ _, h, hb⟩
      · obtain ⟨x, hx, hc⟩ := ih h
        exact ⟨x, List.mem_cons_of_mem _ hx, hc⟩

theorem run_bookings (env : Env) (ui : UiState) (s : Store) (id user : Id)
    (q : SearchParams) :
    (handlePaymentSuccess env ui s id user q).store.booking_requests = s.booking_requests ∨
    (handlePaymentSuccess env ui s id user q).store.booking_requests =
      s.booking_requests.map (fun b =>
        if b.id == id then
          { b with status := "Approved", updated_at := some env.bookingUpdatedAt }
        else b) := by
  cases hi : issuedPaymentInsert (handlePaymentSuccess env ui s id user q) with
  | false => exact Or.inl (run_without_payment_insert hi).2.1
  | true =>
    cases he : env.paymentInsertError with
    | some e =>
      obtain ⟨bd, room, tid, sT, pre, _, _, _, ht, hrun⟩ := run_payment_rejected hi he
      left
      rw [hrun]
      exact (TenantResolution_frame ht).1
    | none =>
      obtain ⟨bd, room, tid, sT, pre, _, _, _, ht, hrun⟩ := run_payment_accepted hi he
      have hbk := (TenantResolution_frame ht).1
      rw [hrun, bestEffortSteps_bookings]
      cases env.bookingUpdateError with
      | some e => left; exact hbk
      | none =>
        right
        show (sT.booking_requests.map _) = _
        rw [hbk]

theorem approve_bookings (env : OpEnv) (w0 : OpWorld) (form : DecisionForm)
    (adminId : Option Id) :
    (handleApproveBooking env w0 form adminId).store.booking_requests =
      w0.store.booking_requests ∨
    ∃ r : RequestView, (handleApproveBooking env w0 form adminId).store.booking_requests =
      w0.store.booking_requests.map (fun b =>
        if b.id == r.id then
          { b with status := if form.approval = some "Approve" then "Approved" else "Declined",
                   message := form.message, decided_by := decidedBy adminId b,
                   decided_at := some env.decidedAt }
        else b) := by
  unfold handleApproveBooking
  cases hsel : w0.selectedRequest with
  | none => exact Or.inl rfl
  | some r =>
    by_cases hap : form.approval = some "Approve" <;>
      cases h1 : env.tenantInsertError <;> cases h2 : env.roomUpdateError <;>
      cases h3 : env.notificationInsertError <;> cases h4 : env.bookingUpdateError <;>
      first
        | (left
           simp [approveTryBlock, opCatchFinally, OpWorld.call, insertNotificationQuietly,
             hap, h1, h2, h3, h4, setRoomStatus]
           done)
        | (right
           refine ⟨r, ?_⟩
           simp [approveTryBlock, opCatchFinally, OpWorld.call, insertNotificationQuietly,
             hap, h1, h2, h3, h4, setRoomStatus, setBookingDecision])

theorem cancel_bookings (env : OpEnv) (w0 : OpWorld) (bookingId : Id) :
    (handleCancelBooking env w0 bookingId).store.booking_requests =
      w0.store.booking_requests ∨
    (handleCancelBooking env w0 bookingId).store.booking_requests =
      w0.store.booking_requests.map (fun b =>
        if b.id == bookingId then
          { b with status := "Cancelled", decided_at := some env.decidedAt }
        else b) := by
  unfold handleCancelBooking
  cases env.confirmed with
  | false => exact Or.inl rfl
  | true =>
    cases env.bookingUpdateError with
    | some e => exact Or.inl rfl
    | none => exact Or.inr rfl

/-- C12 (amended). Booking status writes. Every status change the
reconciliation sequence performs on a booking row ends in `Approved`, every
change the admin decision performs ends in `Approved` or `Declined`, and
every change the user cancellation performs ends in `Cancelled`; none of the
three reads the prior status. Hence every change of a `Pending` booking is one
of Pending to Approved, Pending to Declined, Pending to Cancelled, and the
cancellation of an `Approved` booking is Approved to Cancelled. -/
theorem booking_status_writes (env : Env) (ui : UiState) (s : Store) (id user : Id)
    (q : SearchParams) (oenv : OpEnv) (w0 : OpWorld) (form : DecisionForm)
    (adminId : Option Id) (bookingId : Id) :
    (∀ c ∈ statusChanges s.booking_requests
        (handlePaymentSuccess env ui s id user q).store.booking_requests,
      c.2 = "Approved" ∧ (c.1 = "Pending" → allowedTransition c = true)) ∧
    (∀ c ∈ statusChanges w0.store.booking_requests
        (handleApproveBooking oenv w0 form adminId).store.booking_requests,
      (c.2 = "Approved" ∨ c.2 = "Declined") ∧
      (c.1 = "Pending" → allowedTransition c = true)) ∧
    (∀ c ∈ statusChanges w0.store.booking_requests
        (handleCancelBooking oenv w0 bookingId).store.booking_requests,
      c.2 = "Cancelled" ∧
      (c.1 = "Pending" ∨ c.1 = "Approved" → allowedTransition c = true)) := by
  refine ⟨?_, ?_, ?_⟩
  · intro c hc
    rcases run_bookings env ui s id user q with h | h
    · rw [h, statusChanges_self] at hc
      simp at hc
    · rw [h] at hc
      obtain ⟨b, _, hcb, hne⟩ := mem_statusChanges_map hc
      have h2 : c.2 = "Approved" := by
        rw [hcb]
        by_cases hid : b.id = id
        · simp [hid]
        · exfalso
          apply hne
          simp [hid]
      obtain ⟨c1, c2⟩ := c
      simp only at h2
      subst h2
      refine ⟨rfl, ?_⟩
      intro h1
      simp only at h1
      subst h1
      decide
  · intro c hc
    rcases approve_bookings oenv w0 form adminId with h | ⟨r, h⟩
    · rw [h, statusChanges_self] at hc
      simp at hc
    · rw [h] at hc
      obtain ⟨b, _, hcb, hne⟩ := mem_statusChanges_map hc
      have h2 : c.2 = "Approved" ∨ c.2 = "Declined" := by
        rw [hcb]
        by_cases hid : b.id = r.id
        · by_cases hap : form.approval = some "Approve"
          · left; simp [hid, hap]
          · right; simp [hid, hap]
        · exfalso
          apply hne
          simp [hid]
      obtain ⟨c1, c2⟩ := c
      simp only at h2
      refine ⟨h2, ?_⟩
      intro h1
      simp only at h1
      subst h1
      rcases h2 with h2 | h2 <;> subst h2 <;> decide
  · intro c hc
    rcases cancel_bookings oenv w0 bookingId with h | h
    · rw [h, statusChanges_self] at hc
      simp at hc
    · rw [h] at hc
      obtain ⟨b, _, hcb, hne⟩ := mem_statusChanges_map hc
      have h2 : c.2 = "Cancelled" := by
        rw [hcb]
        by_cases hid : b.id = bookingId
        · simp [hid]
        · exfalso
          apply hne
          simp [hid]
      obtain ⟨c1, c2⟩ := c
      simp only at h2
      subst h2
      refine ⟨rfl, ?_⟩
      intro h1
      simp only at h1
      rcases h1 with h1 | h1 <;> subst h1 <;> decide

/-- C12 as stated fails: the reconciliation sequence writes `Approved` without
reading the prior status. Run for booking B1 after the user cancelled it, it
moves the booking from `Cancelled` to `Approved`; run after the admin declined
it, it moves the booking from `Declined` to `Approved`. Neither change is a
transition of the state machine. -/
theorem booking_status_writes_counterexample :
    statusChanges storeCancelledB1.booking_requests
      (handlePaymentSuccess envOk initialUi storeCancelledB1 1 7
        queryPi123).store.booking_requests = [("Cancelled", "Approved")] ∧
    allowedTransition ("Cancelled", "Approved") = false ∧
    statusChanges storeDeclinedB1.booking_requests
      (handlePaymentSuccess envOk initialUi storeDeclinedB1 1 7
        queryPi123).store.booking_requests = [("Declined", "Approved")] ∧
    allowedTransition ("Declined", "Approved") = false := by
  decide


/-! ## Claims on the discoverability of the recorded payment -/

theorem fetchBooking_after_run {env1 env2 : Env} {ui1 : UiState} {s : Store} {id user : Id}
    {q : SearchParams}
    (hok : fatalStepsSucceeded (handlePaymentSuccess env1 ui1 s id user q))
    (hfetch : env2.bookingFetchError = none) :
    ∃ bd2, (fetchBooking env2 (handlePaymentSuccess env1 ui1 s id user q).store id user).data =
      some bd2 := by
  obtain ⟨hi, he⟩ := fatalStepsSucceeded_iff.mp hok
  obtain ⟨bd, room, tid, sT, pre, hf, _, _, ht, hrun⟩ := run_payment_accepted hi he
  have hbk := (TenantResolution_frame ht).1
  obtain ⟨_, _, hfil, _, _, _, _⟩ := fetchBooking_data_some hf
  have hfil1 : ∃ b1, (handlePaymentSuccess env1 ui1 s id user q).store.booking_requests.filter
      (fun x => x.id == id && x.requestor == user) = [b1] := by
    rw [hrun, bestEffortSteps_bookings]
    cases env1.bookingUpdateError with
    | some e => exact ⟨bd.row, by show sT.booking_requests.filter _ = _; rw [hbk, hfil]⟩
    | none =>
      refine ⟨if bd.row.id == id then
          { bd.row with status := "Approved", updated_at := some env1.bookingUpdatedAt }
        else bd.row, ?_⟩
      show (setBookingApproved env1 _ id).booking_requests.filter _ = _
      rw [setBookingApproved_filter]
      show (sT.booking_requests.filter _).map _ = _
      rw [hbk, hfil]
      rfl
  obtain ⟨b1, hb1⟩ := hfil1
  exact ⟨_, fetchBooking_of_filter hfetch hb1⟩

/-- C11 (amended). Discoverability: when the intent id is present, the ledger
holds no payment row for it before the run, and steps 1 to 4 succeed, the
store afterwards holds a payment row carrying the intent id which the step-2
lookup of a later run with the same input returns, provided that lookup is
answered by the store; the later run then issues no payment insertion and
leaves the store as it found it, and when its booking query is answered too
it ends at step 2 after these two queries, without an error. -/
theorem payment_discoverable (env1 env2 : Env) (ui1 ui2 : UiState) (s : Store)
    (id user : Id) (q : SearchParams) (i : String)
    (hq : q.payment_intent = some i)
    (hfresh : ∀ p ∈ s.payments, p.stripe_payment_intent_id ≠ some i)
    (hok : fatalStepsSucceeded (handlePaymentSuccess env1 ui1 s id user q))
    (hlook : env2.paymentLookupError = none) :
    (∃ row, row ∈ (handlePaymentSuccess env1 ui1 s id user q).store.payments ∧
      row.stripe_payment_intent_id = some i ∧
      (lookupPayment env2 (handlePaymentSuccess env1 ui1 s id user q).store
        q.payment_intent).data = some row) ∧
    issuedPaymentInsert (handlePaymentSuccess env2 ui2
      (handlePaymentSuccess env1 ui1 s id user q).store id user q) = false ∧
    (handlePaymentSuccess env2 ui2 (handlePaymentSuccess env1 ui1 s id user q).store
      id user q).store = (handlePaymentSuccess env1 ui1 s id user q).store ∧
    (env2.bookingFetchError = none →
      (handlePaymentSuccess env2 ui2 (handlePaymentSuccess env1 ui1 s id user q).store
        id user q).calls =
          [RemoteCall.selectBooking id user, RemoteCall.selectPayment q.payment_intent] ∧
      (handlePaymentSuccess env2 ui2 (handlePaymentSuccess env1 ui1 s id user q).store
        id user q).ui.error = none) := by
  obtain ⟨hi, he⟩ := fatalStepsSucceeded_iff.mp hok
  obtain ⟨bd, room, tid, sT, pre, _, _, _, ht, hrun⟩ := run_payment_accepted hi he
  have hpay := (TenantResolution_frame ht).2.2.1
  have hpay1 : (handlePaymentSuccess env1 ui1 s id user q).store.payments =
      s.payments ++ [paymentData env1 tid user bd.row room q.payment_intent] := by
    rw [hrun, bestEffortSteps_payments, hpay]
  obtain ⟨hfound, _⟩ := lookupPayment_after_insert
    (paymentData env1 tid user bd.row room q.payment_intent) hlook hfresh hq _ hpay1
  rw [← hq] at hfound
  refine ⟨⟨paymentData env1 tid user bd.row room q.payment_intent, ?_, hq, hfound⟩, ?_⟩
  · rw [hpay1]
    simp
  cases hfd : (fetchBooking env2 (handlePaymentSuccess env1 ui1 s id user q).store
      id user).data with
  | none =>
    obtain ⟨m, _, hrun2⟩ := run_fetch_failed ui2 q hfd
    refine ⟨?_, ?_, ?_⟩
    · rw [hrun2]
      simp [issuedPaymentInsert, RemoteCall.isPaymentInsert]
    · rw [hrun2]
    · intro hfetch
      obtain ⟨bd2, hbd2⟩ := fetchBooking_after_run hok hfetch
      rw [hfd] at hbd2
      cases hbd2
  | some bd2 =>
    have hrun2 := @run_already_processed env2 ui2 _ _ _ _ _ _ hfd hfound
    refine ⟨?_, ?_, ?_⟩
    · rw [hrun2]
      simp [issuedPaymentInsert, RemoteCall.isPaymentInsert]
    · rw [hrun2]
    · intro _
      rw [hrun2]
      exact ⟨rfl, rfl⟩

/-- Witness of C11 (amended): booking B1 reconciled for `pi_123`, then again. -/
theorem payment_discoverable_witness :
    fatalStepsSucceeded (handlePaymentSuccess envOk initialUi storeB1 1 7 queryPi123) ∧
    (∃ row, row ∈ (handlePaymentSuccess envOk initialUi storeB1 1 7 queryPi123).store.payments ∧
      row.stripe_payment_intent_id = some "pi_123" ∧
      (lookupPayment envOk (handlePaymentSuccess envOk initialUi storeB1 1 7 queryPi123).store
        queryPi123.payment_intent).data = some row) ∧
    issuedPaymentInsert (handlePaymentSuccess envOk initialUi
      (handlePaymentSuccess envOk initialUi storeB1 1 7 queryPi123).store 1 7
      queryPi123) = false :=
  have h := payment_discoverable envOk envOk initialUi initialUi storeB1 1 7 queryPi123
    "pi_123" rfl (by decide) (by decide) rfl
  ⟨by decide, h.1, h.2.1⟩

/-- C11 as stated fails. Without an intent id the inserted payment row has a
null intent column, which the equality filter of the step-2 lookup never
matches: after a run in which steps 1 to 4 succeed the later lookup returns
nothing and the later run inserts a second payment row. With the intent id
`pi_123` on a ledger that already holds two rows for it, the later lookup
returns an error and no row, and the later run inserts again. With a later
lookup that fails in transport the recorded row is not found either. -/
theorem payment_discoverable_counterexample :
    (fatalStepsSucceeded (handlePaymentSuccess envOk initialUi storeB1 1 7 queryNoIntent) ∧
     (lookupPayment envOk (handlePaymentSuccess envOk initialUi storeB1 1 7
        queryNoIntent).store queryNoIntent.payment_intent).data = none ∧
     (handlePaymentSuccess envOk initialUi storeB1 1 7 queryNoIntent).store.payments.length
        = 1 ∧
     (handlePaymentSuccess envOk initialUi
        (handlePaymentSuccess envOk initialUi storeB1 1 7 queryNoIntent).store 1 7
        queryNoIntent).store.payments.length = 2) ∧
    (fatalStepsSucceeded (handlePaymentSuccess envOk initialUi storeTwoPayments 1 7
        queryPi123) ∧
     (lookupPayment envOk (handlePaymentSuccess envOk initialUi storeTwoPayments 1 7
        queryPi123).store queryPi123.payment_intent).data = none) ∧
    (fatalStepsSucceeded (handlePaymentSuccess envOk initialUi storeB1 1 7 queryPi123) ∧
     (lookupPayment { envOk with paymentLookupError := some lostConnection }
        (handlePaymentSuccess envOk initialUi storeB1 1 7 queryPi123).store
        queryPi123.payment_intent).data = none) := by
  decide


/-! ## Claims on the convergence of the two approval paths -/

theorem converged_of_run {env : Env} (ui : UiState) {s : Store} {q : SearchParams}
    {b : BookingRequest} {room : Room} {i : String}
    (henv : env.allSucceed)
    (hb : s.booking_requests.filter (fun x => x.id == b.id && x.requestor == b.requestor) = [b])
    (hroom : s.rooms.find? (fun r => r.id == b.room_id) = some room)
    (hnp : ∀ x ∈ s.payments, x.stripe_payment_intent_id ≠ some i)
    (hq : q.payment_intent = some i)
    (ht : s.tenants.filter
        (fun x => x.profile_id == b.requestor && x.room_id == b.room_id) = [] ∨
      ∃ t, s.tenants.filter
        (fun x => x.profile_id == b.requestor && x.room_id == b.room_id) = [t] ∧
        t.status = "Active" ∧ t.id ≠ 0) :
    ConvergedState (handlePaymentSuccess env ui s b.id b.requestor q).store
      b.id b.requestor b.room_id i := by
  obtain ⟨e1, e2, e3, e4, e5, _, e7, e8, _⟩ := henv
  have hbmem : b ∈ s.booking_requests.filter
      (fun x => x.id == b.id && x.requestor == b.requestor) := by
    rw [hb]; simp
  have hbm := (List.mem_filter.mp hbmem).1
  have hf : (fetchBooking env s b.id b.requestor).data =
      some { row := b, rooms := some room } := by
    rw [fetchBooking_of_filter e1 hb, hroom]
  have hpnil : s.payments.filter
      (fun x => x.stripe_payment_intent_id == some (eqFilterText q.payment_intent)) = [] := by
    rw [List.filter_eq_nil_iff]
    intro x hx
    simpa [hq, eqFilterText] using hnp x hx
  have hp : (lookupPayment env s q.payment_intent).data = none := by
    unfold lookupPayment
    rw [hpnil]
    exact maybeSingle_nil _
  have hrmem : room ∈ s.rooms := List.mem_of_find?_eq_some hroom
  have hrid : room.id = b.room_id := by
    have := List.find?_some hroom
    simpa using this
  have key : ∀ (tid : Id) (sT : Store) (pre : List RemoteCall),
      TenantResolution env s b.id b.requestor q.payment_intent b.room_id tid sT pre →
      (∃ t, sT.tenants.filter
        (fun x => x.profile_id == b.requestor && x.room_id == b.room_id) = [t] ∧
        t.status = "Active" ∧ t.id = tid) →
      ConvergedState (handlePaymentSuccess env ui s b.id b.requestor q).store
        b.id b.requestor b.room_id i := by
    intro tid sT pre hres htn
    have hrun := run_forward ui hf rfl hp hres e5
    obtain ⟨hbk, hrm, hpay, _, _, _, _, _⟩ := TenantResolution_frame hres
    obtain ⟨t, htf, hta, htid⟩ := htn
    have hpay1 : (handlePaymentSuccess env ui s b.id b.requestor q).store.payments =
        s.payments ++ [paymentData env tid b.requestor b room q.payment_intent] := by
      rw [hrun, bestEffortSteps_payments, hpay]
    obtain ⟨_, hone⟩ := lookupPayment_after_insert
      (paymentData env tid b.requestor b room q.payment_intent) e2 hnp hq _ hpay1
    refine ⟨⟨t, paymentData env tid b.requestor b room q.payment_intent, ?_, hta, hone,
      htid.symm⟩, ?_, ?_, ?_, ?_⟩
    · rw [hrun, bestEffortSteps_tenants]
      exact htf
    · rw [hrun, bestEffortSteps_bookings, e7]
      exact setBookingApproved_status env _ b.id
    · rw [hrun, bestEffortSteps_bookings, e7]
      have hmem2 : b ∈ ({ sT with payments := sT.payments ++
          [paymentData env tid b.requestor b room q.payment_intent] } :
            Store).booking_requests := by
        show b ∈ sT.booking_requests
        rw [hbk]; exact hbm
      obtain ⟨x, hxm, hxid, hxreq, _⟩ := setBookingApproved_mem env _ b.id b hmem2 rfl
      exact ⟨x, hxm, hxid, hxreq⟩
    · rw [hrun, bestEffortSteps_rooms, e8]
      exact setRoomOccupied_status env _ b.room_id
    · rw [hrun, bestEffortSteps_rooms, e8]
      have hmem3 : room ∈ ({ sT with payments := sT.payments ++
          [paymentData env tid b.requestor b room q.payment_intent] } : Store).rooms := by
        show room ∈ sT.rooms
        rw [hrm]; exact hrmem
      exact setRoomOccupied_mem env _ b.room_id room hmem3 hrid
  rcases ht with hnil | ⟨t, hone, hact, hkey⟩
  · have htd : (lookupTenant env s b.requestor b.room_id).data = none := by
      unfold lookupTenant
      rw [hnil]
      exact maybeSingle_nil _
    refine key env.newTenantId
      { s with tenants := s.tenants ++ [newTenantRow env b.requestor b.room_id] } _
      (Or.inr ⟨existingTenantId_of_data_none htd, e4, rfl, rfl, rfl⟩)
      ⟨newTenantRow env b.requestor b.room_id, ?_, rfl, rfl⟩
    show (s.tenants ++ [newTenantRow env b.requestor b.room_id]).filter _ = _
    rw [List.filter_append, hnil]
    simp [newTenantRow]
  · have htd : (lookupTenant env s b.requestor b.room_id).data = some t := by
      unfold lookupTenant
      rw [hone, e3]
      rfl
    exact key t.id s _ (Or.inl ⟨t, htd, hkey, rfl, rfl, rfl⟩) ⟨t, hone, hact, rfl⟩

theorem setBookingDecision_filter (s : Store) (id key user : Id) (status : String)
    (message : Option String) (decider : Option Id) (decidedAt : String) :
    (setBookingDecision s id status message decider decidedAt).booking_requests.filter
        (fun x => x.id == key && x.requestor == user) =
      (s.booking_requests.filter (fun x => x.id == key && x.requestor == user)).map
        (fun b => if b.id == id then
          { b with status := status, message := message, decided_by := decidedBy decider b,
                   decided_at := some decidedAt }
          else b) := by
  unfold setBookingDecision
  simp only [List.filter_map]
  congr 1
  apply List.filter_congr
  intro x _
  simp only [Function.comp]
  split <;> rfl

theorem setRoomStatus_find (s : Store) (roomId key : Id) (status : String) :
    (setRoomStatus s roomId status).rooms.find? (fun r => r.id == key) =
      (s.rooms.find? (fun r => r.id == key)).map
        (fun r => if r.id == roomId then { r with status := status } else r) := by
  unfold setRoomStatus
  simp only [List.find?_map]
  have hfun : ((fun r : Room => r.id == key) ∘
      (fun r : Room => if r.id == roomId then { r with status := status } else r)) =
      (fun r : Room => r.id == key) := by
    funext x
    simp only [Function.comp]
    split <;> rfl
  rw [hfun]

theorem lookupPayment_none_of_fresh {env : Env} {s : Store} {q : SearchParams} {i : String}
    (hnp : ∀ x ∈ s.payments, x.stripe_payment_intent_id ≠ some i)
    (hq : q.payment_intent = some i) :
    (lookupPayment env s q.payment_intent).data = none := by
  have hpnil : s.payments.filter
      (fun x => x.stripe_payment_intent_id == some (eqFilterText q.payment_intent)) = [] := by
    rw [List.filter_eq_nil_iff]
    intro x hx
    simpa [hq, eqFilterText] using hnp x hx
  unfold lookupPayment
  rw [hpnil]
  exact maybeSingle_nil _

theorem run_reuse {env : Env} (ui : UiState) {s : Store} {id user : Id} {q : SearchParams}
    {b : BookingRequest} {room : Room} {t : Tenant}
    (e1 : env.bookingFetchError = none) (e3 : env.tenantLookupError = none)
    (e5 : env.paymentInsertError = none)
    (hb : s.booking_requests.filter (fun x => x.id == id && x.requestor == user) = [b])
    (hroom : s.rooms.find? (fun r => r.id == b.room_id) = some room)
    (hp : (lookupPayment env s q.payment_intent).data = none)
    (ht : s.tenants.filter (fun x => x.profile_id == user && x.room_id == b.room_id) = [t])
    (hkey : t.id ≠ 0) :
    handlePaymentSuccess env ui s id user q =
      bestEffortSteps env
        { store := { s with payments := s.payments ++
            [paymentData env t.id user b room q.payment_intent] }
          ui := loadedUi { row := b, rooms := some room }
          calls := [RemoteCall.selectBooking id user, RemoteCall.selectPayment q.payment_intent,
            RemoteCall.selectTenant user b.room_id] ++ [RemoteCall.insertPayment
              (paymentData env t.id user b room q.payment_intent)] }
        id user b room q.payment_intent := by
  have hf : (fetchBooking env s id user).data = some { row := b, rooms := some room } := by
    rw [fetchBooking_of_filter e1 hb, hroom]
  have htd : (lookupTenant env s user b.room_id).data = some t := by
    unfold lookupTenant
    rw [ht, e3]
    rfl
  exact run_forward ui hf rfl hp (Or.inl ⟨t, htd, hkey, rfl, rfl, rfl⟩) e5

theorem run_create {env : Env} (ui : UiState) {s : Store} {id user : Id} {q : SearchParams}
    {b : BookingRequest} {room : Room}
    (e1 : env.bookingFetchError = none) (e4 : env.tenantInsertError = none)
    (e5 : env.paymentInsertError = none)
    (hb : s.booking_requests.filter (fun x => x.id == id && x.requestor == user) = [b])
    (hroom : s.rooms.find? (fun r => r.id == b.room_id) = some room)
    (hp : (lookupPayment env s q.payment_intent).data = none)
    (ht : s.tenants.filter (fun x => x.profile_id == user && x.room_id == b.room_id) = []) :
    handlePaymentSuccess env ui s id user q =
      bestEffortSteps env
        { store := { s with
            tenants := s.tenants ++ [newTenantRow env user b.room_id]
            payments := s.payments ++
              [paymentData env env.newTenantId user b room q.payment_intent] }
          ui := loadedUi { row := b, rooms := some room }
          calls := [RemoteCall.selectBooking id user, RemoteCall.selectPayment q.payment_intent,
            RemoteCall.selectTenant user b.room_id,
            RemoteCall.insertTenant (newTenantRow env user b.room_id)] ++
            [RemoteCall.insertPayment
              (paymentData env env.newTenantId user b room q.payment_intent)] }
        id user b room q.payment_intent := by
  have hf : (fetchBooking env s id user).data = some { row := b, rooms := some room } := by
    rw [fetchBooking_of_filter e1 hb, hroom]
  have htd : (lookupTenant env s user b.room_id).data = none := by
    unfold lookupTenant
    rw [ht]
    exact maybeSingle_nil _
  exact run_forward ui hf rfl hp
    (Or.inr ⟨existingTenantId_of_data_none htd, e4, rfl, rfl, rfl⟩) e5

/-- C18 (amended). The two approval paths converge when the store issues a
truthy (non-zero) key for the tenant row of the approval. From a store with a
booking `b` of its requestor (the only row with that key and requestor), whose
room exists, with no tenant row for the requestor and the room and no payment
row for the intent id, and with every remote call succeeding. Approve first:
the admin approval appends its tenant row to the tenant table; the
reconciliation sequence that follows issues no tenant insertion, keeps the
tenant table as the approval left it, and appends one payment row for the
intent id that refers to the key of the tenant the approval inserted. Pay
first: the reconciliation sequence alone appends its own tenant row and one
payment row for the intent id that refers to it. Both end in a store with
exactly one tenant row for the requestor and the room, `Active`, exactly one
payment row for the intent id, referring to that tenant, the booking
`Approved` and the room `Occupied`. The prior status of the booking plays no
part. -/
theorem approval_paths_converge (env1 env2 : Env) (oenv : OpEnv) (ui1 ui2 : UiState)
    (w0 : OpWorld) (r : RequestView) (form : DecisionForm) (adminId : Option Id)
    (q : SearchParams) (b : BookingRequest) (room : Room) (i : String)
    (h1 : env1.allSucceed) (h2 : env2.allSucceed) (ho : oenv.allSucceed)
    (hkey : oenv.newTenantId ≠ 0)
    (hsel : w0.selectedRequest = some r)
    (hrid : r.id = b.id) (hrroom : r.room_id = b.room_id) (hrreq : r.requestor = b.requestor)
    (hap : form.approval = some "Approve")
    (hb : w0.store.booking_requests.filter
      (fun x => x.id == b.id && x.requestor == b.requestor) = [b])
    (hroom : w0.store.rooms.find? (fun x => x.id == b.room_id) = some room)
    (hnt : ∀ t ∈ w0.store.tenants, ¬ (t.profile_id = b.requestor ∧ t.room_id = b.room_id))
    (hnp : ∀ x ∈ w0.store.payments, x.stripe_payment_intent_id ≠ some i)
    (hq : q.payment_intent = some i) :
    ((handleApproveBooking oenv w0 form adminId).store.tenants =
        w0.store.tenants ++ [approvedTenantRow oenv r form] ∧
     (handlePaymentSuccess env1 ui1 (handleApproveBooking oenv w0 form adminId).store
        b.id b.requestor q).store.tenants =
          w0.store.tenants ++ [approvedTenantRow oenv r form] ∧
     (∀ row, RemoteCall.insertTenant row ∉
        (handlePaymentSuccess env1 ui1 (handleApproveBooking oenv w0 form adminId).store
          b.id b.requestor q).calls) ∧
     (∃ p, (handlePaymentSuccess env1 ui1 (handleApproveBooking oenv w0 form adminId).store
          b.id b.requestor q).store.payments = w0.store.payments ++ [p] ∧
        p.tenant_id = oenv.newTenantId ∧ p.stripe_payment_intent_id = some i) ∧
     ConvergedState
      (handlePaymentSuccess env1 ui1 (handleApproveBooking oenv w0 form adminId).store
        b.id b.requestor q).store b.id b.requestor b.room_id i) ∧
    ((handlePaymentSuccess env2 ui2 w0.store b.id b.requestor q).store.tenants =
        w0.store.tenants ++ [newTenantRow env2 b.requestor b.room_id] ∧
     (∃ p, (handlePaymentSuccess env2 ui2 w0.store b.id b.requestor q).store.payments =
          w0.store.payments ++ [p] ∧
        p.tenant_id = env2.newTenantId ∧ p.stripe_payment_intent_id = some i) ∧
     ConvergedState (handlePaymentSuccess env2 ui2 w0.store b.id b.requestor q).store
       b.id b.requestor b.room_id i) := by
  have htnil : w0.store.tenants.filter
      (fun x => x.profile_id == b.requestor && x.room_id == b.room_id) = [] := by
    rw [List.filter_eq_nil_iff]
    intro t ht
    simpa using hnt t ht
  have hs := approve_store_approved adminId hsel ho hap
  have hbA : (handleApproveBooking oenv w0 form adminId).store.booking_requests.filter
      (fun x => x.id == b.id && x.requestor == b.requestor) =
      [{ b with status := "Approved", message := form.message,
                decided_by := decidedBy adminId b,
                decided_at := some oenv.decidedAt }] := by
    rw [hs]
    show (setBookingDecision w0.store r.id "Approved" form.message adminId
      oenv.decidedAt).booking_requests.filter _ = _
    rw [setBookingDecision_filter]
    show (w0.store.booking_requests.filter _).map _ = _
    rw [hb, hrid]
    simp
  have hroomA : (handleApproveBooking oenv w0 form adminId).store.rooms.find?
      (fun x => x.id == b.room_id) = some { room with status := "Occupied" } := by
    rw [hs]
    show (setRoomStatus w0.store r.room_id "Occupied").rooms.find? _ = _
    rw [setRoomStatus_find]
    show (w0.store.rooms.find? _).map _ = _
    rw [hroom, hrroom]
    have hrid2 : room.id = b.room_id := by
      have := List.find?_some hroom
      simpa using this
    simp [hrid2]
  have htenA : (handleApproveBooking oenv w0 form adminId).store.tenants =
      w0.store.tenants ++ [approvedTenantRow oenv r form] := by
    rw [hs]
  have hpayA : (handleApproveBooking oenv w0 form adminId).store.payments =
      w0.store.payments := by
    rw [hs]
  have htA : (handleApproveBooking oenv w0 form adminId).store.tenants.filter
      (fun x => x.profile_id == b.requestor && x.room_id == b.room_id) =
      [approvedTenantRow oenv r form] := by
    rw [htenA, List.filter_append, htnil]
    simp [approvedTenantRow, hrroom, hrreq]
  have hnpA : ∀ x ∈ (handleApproveBooking oenv w0 form adminId).store.payments,
      x.stripe_payment_intent_id ≠ some i := by
    rw [hpayA]
    exact hnp
  have hrunA := @run_reuse env1 ui1 (handleApproveBooking oenv w0 form adminId).store b.id
    b.requestor q
    { b with status := "Approved", message := form.message,
             decided_by := decidedBy adminId b, decided_at := some oenv.decidedAt }
    { room with status := "Occupied" } (approvedTenantRow oenv r form)
    h1.1 h1.2.2.1 h1.2.2.2.2.1 hbA hroomA (lookupPayment_none_of_fresh hnpA hq) htA hkey
  have hrunP := @run_create env2 ui2 w0.store b.id b.requestor q b room
    h2.1 h2.2.2.2.1 h2.2.2.2.2.1 hb hroom (lookupPayment_none_of_fresh hnp hq) htnil
  refine ⟨⟨htenA, ?_, ?_, ?_, ?_⟩, ⟨?_, ?_, ?_⟩⟩
  · rw [hrunA, bestEffortSteps_tenants]
    exact htenA
  · intro row hrow
    rw [hrunA, bestEffortSteps_calls] at hrow
    unfold auditCalls at hrow
    cases htr : truthy q.payment_intent <;> rw [htr] at hrow <;> simp at hrow
  · refine ⟨paymentData env1 oenv.newTenantId b.requestor
      { b with status := "Approved", message := form.message,
               decided_by := decidedBy adminId b, decided_at := some oenv.decidedAt }
      { room with status := "Occupied" } q.payment_intent, ?_, rfl, hq⟩
    rw [hrunA, bestEffortSteps_payments]
    show (handleApproveBooking oenv w0 form adminId).store.payments ++ _ = _
    rw [hpayA]
    rfl
  · exact @converged_of_run env1 ui1 (handleApproveBooking oenv w0 form adminId).store q
      { b with status := "Approved", message := form.message,
               decided_by := decidedBy adminId b, decided_at := some oenv.decidedAt }
      { room with status := "Occupied" } i h1 hbA hroomA hnpA hq
      (Or.inr ⟨approvedTenantRow oenv r form, htA, rfl, hkey⟩)
  · rw [hrunP, bestEffortSteps_tenants]
  · refine ⟨paymentData env2 env2.newTenantId b.requestor b room q.payment_intent, ?_, rfl,
      hq⟩
    rw [hrunP, bestEffortSteps_payments]
  · exact converged_of_run ui2 h2 hb hroom hnp hq (Or.inl htnil)

/-- Witness of C18 (amended): booking B1, approved by admin 2 (the store
issues key 31 for the tenant) and then paid, or paid first (key 21). -/
theorem approval_paths_converge_witness :
    envOk.allSucceed ∧ opOk.allSucceed ∧ opOk.newTenantId ≠ 0 ∧
    (handlePaymentSuccess envOk initialUi
        (handleApproveBooking opOk (pageOver storeB1 (some requestB1)) approveForm
          (some 2)).store 1 7 queryPi123).store.tenants.map (fun t => (t.id, t.status)) =
      [(31, "Active")] ∧
    (handlePaymentSuccess envOk initialUi
        (handleApproveBooking opOk (pageOver storeB1 (some requestB1)) approveForm
          (some 2)).store 1 7 queryPi123).store.payments.map (fun p => p.tenant_id) = [31] ∧
    (handlePaymentSuccess envOk initialUi storeB1 1 7 queryPi123).store.tenants.map
      (fun t => (t.id, t.status)) = [(21, "Active")] ∧
    ConvergedState
      (handlePaymentSuccess envOk initialUi
        (handleApproveBooking opOk (pageOver storeB1 (some requestB1)) approveForm
          (some 2)).store 1 7 queryPi123).store 1 7 10 "pi_123" ∧
    ConvergedState (handlePaymentSuccess envOk initialUi storeB1 1 7 queryPi123).store
      1 7 10 "pi_123" :=
  have h := approval_paths_converge envOk envOk opOk initialUi initialUi
     (pageOver storeB1 (some requestB1)) requestB1 approveForm (some 2) queryPi123
     { id := 1, room_id := 10, requestor := 7, status := "Pending" }
     { id := 10, room_number := "101", price_monthly := 5000, status := "Available" }
     "pi_123" (by decide) (by decide) (by decide) (by decide) rfl rfl rfl rfl rfl (by decide)
     (by decide) (by decide) (by decide) rfl
  ⟨by decide, by decide, by decide, by decide, by decide, by decide, h.1.2.2.2.2, h.2.2.2⟩

/-- C18 as stated fails. When the store issues the key zero for the tenant row
of the approval, the reconciliation sequence that follows finds that row, but
its key fails the truthiness test of PaymentSuccessPage.jsx line 89: a second
tenant row is created for the requestor and the room (keys 0 and 21) and the
payment row refers to the second one. The approve-first path then ends with
two tenant rows for the requestor and the room, not one. -/
theorem approval_paths_converge_counterexample :
    envOk.allSucceed ∧ opKeyZero.allSucceed ∧
    (∀ t ∈ storeB1.tenants, ¬ (t.profile_id = 7 ∧ t.room_id = 10)) ∧
    (handleApproveBooking opKeyZero (pageOver storeB1 (some requestB1)) approveForm
      (some 2)).store.tenants.map (fun t => (t.id, t.profile_id, t.room_id)) = [(0, 7, 10)] ∧
    ((handlePaymentSuccess envOk initialUi
        (handleApproveBooking opKeyZero (pageOver storeB1 (some requestB1)) approveForm
          (some 2)).store 1 7 queryPi123).store.tenants.filter
        (fun x => x.profile_id == 7 && x.room_id == 10)).map (fun t => (t.id, t.status)) =
      [(0, "Active"), (21, "Active")] ∧
    (handlePaymentSuccess envOk initialUi
        (handleApproveBooking opKeyZero (pageOver storeB1 (some requestB1)) approveForm
          (some 2)).store 1 7 queryPi123).store.payments.map (fun p => p.tenant_id) = [21] := by
  decide


/-! ## Claims on the payment intent issuance -/

theorem Double.toRat_pos_iff (d : Double) : 0 < d.toRat ↔ d.m ≠ 0 ∧ d.neg = false := by
  unfold Double.toRat
  have hpow : (0 : ℚ) < (2 : ℚ) ^ d.e := zpow_pos (by norm_num) _
  cases hneg : d.neg with
  | false =>
    simp only [Bool.false_eq_true, if_false, one_mul, and_true]
    constructor
    · intro h hm
      rw [hm] at h
      simp at h
    · intro hm
      have hmpos : (0 : ℚ) < (d.m : ℚ) := by
        exact_mod_cast Nat.pos_of_ne_zero hm
      exact mul_pos hmpos hpow
  | true =>
    simp only [if_true, Bool.true_eq_false, and_false, iff_false, not_lt]
    have hm : (0 : ℚ) ≤ (d.m : ℚ) := by exact_mod_cast Nat.zero_le _
    have : (0 : ℚ) ≤ (d.m : ℚ) * (2 : ℚ) ^ d.e := mul_nonneg hm hpow.le
    linarith

theorem amountRejected_of_not_pos (d : Double) (h : d.m = 0 ∨ d.neg = true) :
    amountRejected (JsAmount.number (JsNumber.finite d)) = true := by
  unfold amountRejected
  rcases h with h | h <;> simp [h]

/-- C13 (amended). Input rejection: a POST request with a body whose amount
is absent (or null), zero (of either sign) or negative (a finite number with
the sign set, such as -5, or the negative infinity) is answered with status
400 and the body `error: Invalid amount`; a POST request without a body is
answered with status 500 and the message of the TypeError raised by the
destructuring of source line 27 (the generic text when that message is
empty). In both cases no creation call is made to the processor. -/
theorem invalid_amount_rejected (processor : IntentParams → ProcessorAnswer)
    (req : IntentRequest) (hpost : req.method = "POST") :
    (∀ a k, req.body = IntentBody.fields a k →
      (a = JsAmount.undefined ∨ a = JsAmount.null ∨
        a = JsAmount.number (JsNumber.infinite true) ∨
        ∃ d, a = JsAmount.number (JsNumber.finite d) ∧ (d.m = 0 ∨ d.neg = true)) →
      (createPaymentIntent processor req).status = 400 ∧
      (createPaymentIntent processor req).body = ResponseBody.error "Invalid amount" ∧
      (createPaymentIntent processor req).createCalls = []) ∧
    (∀ m, req.body = IntentBody.absent m →
      (createPaymentIntent processor req).status = 500 ∧
      (createPaymentIntent processor req).body =
        ResponseBody.error (if m ≠ "" then m else "Payment intent creation failed") ∧
      (createPaymentIntent processor req).createCalls = []) := by
  constructor
  · intro a k hbody hamt
    have hrej : amountRejected a = true := by
      rcases hamt with h | h | h | ⟨d, h, hd⟩
      · rw [h]; rfl
      · rw [h]; rfl
      · rw [h]; rfl
      · rw [h]; exact amountRejected_of_not_pos d hd
    simp [createPaymentIntent, hpost, hbody, hrej]
  · intro m hbody
    by_cases hm : m = ""
    · subst hm
      simp [createPaymentIntent, hpost, hbody, truthy]
    · simp [createPaymentIntent, hpost, hbody, truthy, hm]

/-- Witness of C13 (amended): the amount -5 is rejected with status 400, the
request without a body with status 500. -/
theorem invalid_amount_rejected_witness :
    ((createPaymentIntent acceptingProcessor
      (postAmount (JsAmount.number (JsNumber.finite amountMinus5)))).status = 400 ∧
     (createPaymentIntent acceptingProcessor
      (postAmount (JsAmount.number (JsNumber.finite amountMinus5)))).body =
        ResponseBody.error "Invalid amount" ∧
     (createPaymentIntent acceptingProcessor
      (postAmount (JsAmount.number (JsNumber.finite amountMinus5)))).createCalls = []) ∧
    ((createPaymentIntent acceptingProcessor postWithoutBody).status = 500 ∧
     (createPaymentIntent acceptingProcessor postWithoutBody).createCalls = []) :=
  ⟨(invalid_amount_rejected acceptingProcessor
      (postAmount (JsAmount.number (JsNumber.finite amountMinus5))) rfl).1
      (JsAmount.number (JsNumber.finite amountMinus5)) (JsKey.number 1) rfl
      (Or.inr (Or.inr (Or.inr ⟨amountMinus5, rfl, Or.inr rfl⟩))),
   by decide⟩

/-- C13 as stated fails. A POST request sent without a body has no amount,
yet it is not answered with status 400 and `Invalid amount`: the
destructuring of the body at source line 27 raises a TypeError inside the
`try` block, and the `catch` clause answers with status 500 and the message of
that error. No creation call is made. -/
theorem invalid_amount_rejected_counterexample :
    postWithoutBody.method = "POST" ∧
    postWithoutBody.amount = JsAmount.undefined ∧
    (createPaymentIntent acceptingProcessor postWithoutBody).status = 500 ∧
    (createPaymentIntent acceptingProcessor postWithoutBody).body =
      ResponseBody.error
        "Cannot destructure property amount of req.body as it is undefined." ∧
    (createPaymentIntent acceptingProcessor postWithoutBody).body ≠
      ResponseBody.error "Invalid amount" ∧
    (createPaymentIntent acceptingProcessor postWithoutBody).createCalls = [] := by
  decide

/-- C15. Verb handling: for the verb OPTIONS the handler answers with the
success status 200 and an empty body; for a verb that is neither OPTIONS nor
POST it answers with status 405 and the body `error: Method not allowed`; in
both cases no creation call is made, whatever the fields of the body. -/
theorem verb_handling (processor : IntentParams → ProcessorAnswer) (req : IntentRequest) :
    (req.method = "OPTIONS" →
      (createPaymentIntent processor req).status = 200 ∧
      (createPaymentIntent processor req).body = ResponseBody.empty ∧
      (createPaymentIntent processor req).createCalls = []) ∧
    (req.method ≠ "OPTIONS" → req.method ≠ "POST" →
      (createPaymentIntent processor req).status = 405 ∧
      (createPaymentIntent processor req).body = ResponseBody.error "Method not allowed" ∧
      (createPaymentIntent processor req).createCalls = []) := by
  constructor
  · intro h
    simp [createPaymentIntent, h]
  · intro h1 h2
    simp [createPaymentIntent, h1, h2]

theorem createPaymentIntent_accepted (processor : IntentParams → ProcessorAnswer)
    (req : IntentRequest) (hpost : req.method = "POST")
    (hacc : amountRejected req.amount = false) :
    createPaymentIntent processor req =
      match processor (intentParamsOf req) with
      | ProcessorAnswer.created id secret =>
        { headers := corsHeaders, status := 200, body := ResponseBody.intent secret id,
          createCalls := [intentParamsOf req] }
      | ProcessorAnswer.failed message =>
        { headers := corsHeaders, status := 500
          body := ResponseBody.error
            (match truthy message with
             | some m => m
             | none => "Payment intent creation failed")
          createCalls := [intentParamsOf req] } := by
  cases hb : req.body with
  | absent m =>
    have hund : req.amount = JsAmount.undefined := by
      simp [IntentRequest.amount, hb]
    rw [hund] at hacc
    exact absurd hacc (by decide)
  | fields a k =>
    have ha : req.amount = a := by simp [IntentRequest.amount, hb]
    have hk : req.bookingId = k := by simp [IntentRequest.bookingId, hb]
    rw [ha] at hacc
    simp [createPaymentIntent, hpost, hb, hacc, intentParamsOf, ha, hk]

/-- C16. Result of intent issuance: for a POST request with a positive amount
(a finite number with a nonzero significand and the sign clear) the handler
makes exactly one creation call; when the processor creates the intent the
response is 200 with the secret and the id of that intent; when the processor
rejects, the response is 500 with the message of the processor as error, or
`Payment intent creation failed` when the message is absent or empty. -/
theorem intent_issuance_result (processor : IntentParams → ProcessorAnswer)
    (req : IntentRequest) (d : Double) (hpost : req.method = "POST")
    (hamt : req.amount = JsAmount.number (JsNumber.finite d))
    (hm : d.m ≠ 0) (hneg : d.neg = false) :
    ∃ params, (createPaymentIntent processor req).createCalls = [params] ∧
      (∀ id secret, processor params = ProcessorAnswer.created id secret →
        (createPaymentIntent processor req).status = 200 ∧
        (createPaymentIntent processor req).body = ResponseBody.intent secret id) ∧
      (∀ m, processor params = ProcessorAnswer.failed (some m) → m ≠ "" →
        (createPaymentIntent processor req).status = 500 ∧
        (createPaymentIntent processor req).body = ResponseBody.error m) ∧
      (∀ m, processor params = ProcessorAnswer.failed m → m = none ∨ m = some "" →
        (createPaymentIntent processor req).status = 500 ∧
        (createPaymentIntent processor req).body =
          ResponseBody.error "Payment intent creation failed") := by
  have hacc : amountRejected req.amount = false := by
    rw [hamt]
    simp [amountRejected, hm, hneg]
  have hrun := createPaymentIntent_accepted processor req hpost hacc
  refine ⟨intentParamsOf req, ?_, ?_, ?_, ?_⟩
  · rw [hrun]
    cases processor (intentParamsOf req) <;> rfl
  · intro id secret hp
    rw [hrun, hp]
    exact ⟨rfl, rfl⟩
  · intro m hp hne
    have htr : truthy (some m) = some m := truthy_eq_some.mpr ⟨rfl, hne⟩
    rw [hrun, hp]
    simp [htr]
  · intro m hp hm0
    have htr : truthy m = none := truthy_eq_none.mpr hm0
    rw [hrun, hp]
    simp [htr]

/-- Witness of C16: the amount 1500.5 with a processor that rejects without a
message. -/
theorem intent_issuance_result_witness :
    ∃ params, (createPaymentIntent silentProcessor
        (postAmount (JsAmount.number (JsNumber.finite amount1500_5)))).createCalls =
          [params] ∧
      (∀ id secret, silentProcessor params = ProcessorAnswer.created id secret →
        (createPaymentIntent silentProcessor
          (postAmount (JsAmount.number (JsNumber.finite amount1500_5)))).status = 200 ∧
        (createPaymentIntent silentProcessor
          (postAmount (JsAmount.number (JsNumber.finite amount1500_5)))).body =
            ResponseBody.intent secret id) ∧
      (∀ m, silentProcessor params = ProcessorAnswer.failed (some m) → m ≠ "" →
        (createPaymentIntent silentProcessor
          (postAmount (JsAmount.number (JsNumber.finite amount1500_5)))).status = 500 ∧
        (createPaymentIntent silentProcessor
          (postAmount (JsAmount.number (JsNumber.finite amount1500_5)))).body =
            ResponseBody.error m) ∧
      (∀ m, silentProcessor params = ProcessorAnswer.failed m → m = none ∨ m = some "" →
        (createPaymentIntent silentProcessor
          (postAmount (JsAmount.number (JsNumber.finite amount1500_5)))).status = 500 ∧
        (createPaymentIntent silentProcessor
          (postAmount (JsAmount.number (JsNumber.finite amount1500_5)))).body =
            ResponseBody.error "Payment intent creation failed") :=
  intent_issuance_result silentProcessor
    (postAmount (JsAmount.number (JsNumber.finite amount1500_5))) amount1500_5 rfl rfl
    (by decide) rfl


theorem excessBits_of_lt (bound n : Nat) (h : n < 2 ^ 53) : excessBits bound n = 0 := by
  cases bound with
  | zero => rfl
  | succ b =>
    unfold excessBits
    rw [if_pos h]

theorem roundToSignificand_of_lt (n : Nat) (h : n < 2 ^ 53) :
    roundToSignificand n = (n, 0) := by
  unfold roundToSignificand
  simp only [excessBits_of_lt n n h, if_true]

theorem Double.round_exact (neg : Bool) (n : Nat) (e : Int) (h : n < 2 ^ 53)
    (he : e ≤ 971) :
    Double.round neg n e = JsNumber.finite { neg := neg, m := n, e := e } := by
  unfold Double.round
  rw [roundToSignificand_of_lt n h]
  simp only [Nat.cast_zero, add_zero]
  have hno : ¬ (0 ≤ e ∧ 2 ^ 1024 ≤ n * 2 ^ e.toNat) := by
    rintro ⟨_, hbig⟩
    have hle : e.toNat ≤ 971 := by omega
    have hlt : n * 2 ^ e.toNat < 2 ^ 53 * 2 ^ e.toNat :=
      Nat.mul_lt_mul_of_pos_right h (Nat.two_pow_pos _)
    rw [← pow_add] at hlt
    have hpow : 2 ^ (53 + e.toNat) ≤ 2 ^ 1024 :=
      Nat.pow_le_pow_right Nat.zero_lt_two (by omega)
    exact absurd hbig (not_le.mpr (lt_of_lt_of_le hlt hpow))
  have hne : n ≠ 2 ^ 53 := Nat.ne_of_lt h
  rw [if_neg hno, if_neg hne]

theorem Double.round_neg (neg : Bool) (n : Nat) (e : Int) (x : Double)
    (h : Double.round neg n e = JsNumber.finite x) : x.neg = neg := by
  unfold Double.round at h
  simp only at h
  split at h
  · cases h
  · split at h
    · injection h with h
      rw [← h]
    · injection h with h
      rw [← h]

theorem floor_half_up (m k : ℕ) (hk : 0 < k) :
    ⌊(m : ℚ) / (k : ℚ) + 1 / 2⌋ =
      (((if k ≤ 2 * (m % k) then m / k + 1 else m / k) : ℕ) : ℤ) := by
  have hkq : (0 : ℚ) < (k : ℚ) := by exact_mod_cast hk
  have hdm : (m : ℚ) = (k : ℚ) * ((m / k : ℕ) : ℚ) + ((m % k : ℕ) : ℚ) := by
    exact_mod_cast (Nat.div_add_mod m k).symm
  have hr : ((m % k : ℕ) : ℚ) < (k : ℚ) := by
    exact_mod_cast Nat.mod_lt _ hk
  have hsplit : (m : ℚ) / (k : ℚ) = ((m / k : ℕ) : ℚ) + ((m % k : ℕ) : ℚ) / (k : ℚ) := by
    have hk0 : (k : ℚ) ≠ 0 := ne_of_gt hkq
    field_simp
    linarith
  have ht1 : ((m % k : ℕ) : ℚ) / (k : ℚ) < 1 := (div_lt_one hkq).mpr hr
  have ht0 : (0 : ℚ) ≤ ((m % k : ℕ) : ℚ) / (k : ℚ) := by positivity
  rw [Int.floor_eq_iff, hsplit]
  by_cases hup : k ≤ 2 * (m % k)
  · have hupq : (k : ℚ) ≤ 2 * ((m % k : ℕ) : ℚ) := by exact_mod_cast hup
    have hth : (1 : ℚ) / 2 ≤ ((m % k : ℕ) : ℚ) / (k : ℚ) := by
      rw [le_div_iff₀ hkq]
      linarith
    rw [if_pos hup]
    simp only [Nat.cast_add, Nat.cast_one, Int.cast_add, Int.cast_one, Int.cast_natCast]
    constructor <;> linarith
  · have hupq : 2 * ((m % k : ℕ) : ℚ) < (k : ℚ) := by exact_mod_cast not_le.mp hup
    have hth : ((m % k : ℕ) : ℚ) / (k : ℚ) < 1 / 2 := by
      rw [div_lt_iff₀ hkq]
      linarith
    rw [if_neg hup]
    simp only [Int.cast_natCast]
    constructor <;> linarith

theorem mathRound_toRat (d : Double) (hneg : d.neg = false) :
    ∃ r, mathRound (JsNumber.finite d) = JsNumber.finite r ∧
      r.toRat = ((⌊d.toRat + 1 / 2⌋ : ℤ) : ℚ) := by
  obtain ⟨neg, m, e⟩ := d
  simp only at hneg
  subst hneg
  by_cases he : 0 ≤ e
  · obtain ⟨k, rfl⟩ := Int.eq_ofNat_of_zero_le he
    refine ⟨{ neg := false, m := m, e := (k : ℤ) }, by simp [mathRound], ?_⟩
    have hval : Double.toRat { neg := false, m := m, e := (k : ℤ) } =
        ((m * 2 ^ k : ℕ) : ℚ) := by
      simp [Double.toRat, zpow_natCast]
    have hfloor : ⌊Double.toRat { neg := false, m := m, e := (k : ℤ) } + 1 / 2⌋ =
        ((m * 2 ^ k : ℕ) : ℤ) := by
      rw [Int.floor_eq_iff, hval]
      push_cast
      constructor <;> linarith
    rw [hfloor, hval]
    push_cast
    rfl
  · obtain ⟨k, rfl⟩ := Int.exists_eq_neg_ofNat (le_of_lt (not_le.mp he))
    have hk : 0 < 2 ^ k := Nat.two_pow_pos k
    have hval : Double.toRat { neg := false, m := m, e := -(k : ℤ) } =
        (m : ℚ) / ((2 ^ k : ℕ) : ℚ) := by
      simp [Double.toRat, zpow_neg, zpow_natCast, div_eq_mul_inv]
    refine ⟨{ neg := false, m := if 2 ^ k ≤ 2 * (m % 2 ^ k) then m / 2 ^ k + 1 else m / 2 ^ k,
              e := 0 }, ?_, ?_⟩
    · simp [mathRound, he]
    · rw [hval, floor_half_up m (2 ^ k) hk]
      unfold Double.toRat
      simp only [Bool.false_eq_true, if_false, one_mul, zpow_zero, mul_one, Int.cast_natCast]


/-- C14 (amended). Amount conversion: for a POST request with a positive
amount `a` (a finite binary64 number) the handler makes one creation call
whose currency is `php` and whose amount is `Math.round` of the binary64
product `a * 100`. When that product is finite, the amount sent is the floor
of the product plus one half, the product being the rounded one. When the
hundredfold of the significand fits 53 bits, the product is exact and the
amount sent is the floor of 100 a + 1/2; this covers 1500.5, which yields
150050. -/
theorem amount_conversion (processor : IntentParams → ProcessorAnswer)
    (req : IntentRequest) (d : Double) (hpost : req.method = "POST")
    (hamt : req.amount = JsAmount.number (JsNumber.finite d))
    (hm : d.m ≠ 0) (hneg : d.neg = false) :
    ∃ params, (createPaymentIntent processor req).createCalls = [params] ∧
      params.currency = "php" ∧
      params.amount = mathRound (mulHundred (JsNumber.finite d)) ∧
      (∀ x, mulHundred (JsNumber.finite d) = JsNumber.finite x →
        ∃ r, params.amount = JsNumber.finite r ∧
          r.toRat = ((⌊x.toRat + 1 / 2⌋ : ℤ) : ℚ)) ∧
      (100 * d.m < 2 ^ 53 → d.e ≤ 971 →
        ∃ r, params.amount = JsNumber.finite r ∧
          r.toRat = ((⌊100 * d.toRat + 1 / 2⌋ : ℤ) : ℚ)) := by
  have hacc : amountRejected req.amount = false := by
    rw [hamt]
    simp [amountRejected, hm, hneg]
  have hrun := createPaymentIntent_accepted processor req hpost hacc
  have hamount : (intentParamsOf req).amount = mathRound (mulHundred (JsNumber.finite d)) := by
    simp [intentParamsOf, hamt, JsAmount.toNumber]
  refine ⟨intentParamsOf req, ?_, rfl, hamount, ?_, ?_⟩
  · rw [hrun]
    cases processor (intentParamsOf req) <;> rfl
  · intro x hx
    have hxneg : x.neg = false := by
      have := Double.round_neg d.neg (100 * d.m) d.e x hx
      rw [this, hneg]
    obtain ⟨r, hr, hval⟩ := mathRound_toRat x hxneg
    exact ⟨r, by rw [hamount, hx, hr], hval⟩
  · intro hfit he
    have hx : mulHundred (JsNumber.finite d) =
        JsNumber.finite { neg := d.neg, m := 100 * d.m, e := d.e } :=
      Double.round_exact d.neg (100 * d.m) d.e hfit he
    obtain ⟨r, hr, hval⟩ := mathRound_toRat { neg := d.neg, m := 100 * d.m, e := d.e } hneg
    refine ⟨r, by rw [hamount, hx, hr], ?_⟩
    rw [hval]
    have hprod : Double.toRat { neg := d.neg, m := 100 * d.m, e := d.e } = 100 * d.toRat := by
      unfold Double.toRat
      push_cast
      ring
    rw [hprod]

/-- Witness of C14 (amended): the amount 1500.5 is sent as 150050. -/
theorem amount_conversion_witness :
    (createPaymentIntent acceptingProcessor
      (postAmount (JsAmount.number (JsNumber.finite amount1500_5)))).createCalls =
      [{ amount := JsNumber.finite { neg := false, m := 150050, e := 0 }, currency := "php",
         automaticPaymentMethods := true, metadataBookingId := JsKey.number 1 }] ∧
    ∃ params, (createPaymentIntent acceptingProcessor
        (postAmount (JsAmount.number (JsNumber.finite amount1500_5)))).createCalls =
          [params] ∧
      params.currency = "php" ∧
      params.amount = mathRound (mulHundred (JsNumber.finite amount1500_5)) ∧
      (∀ x, mulHundred (JsNumber.finite amount1500_5) = JsNumber.finite x →
        ∃ r, params.amount = JsNumber.finite r ∧
          r.toRat = ((⌊x.toRat + 1 / 2⌋ : ℤ) : ℚ)) ∧
      (100 * amount1500_5.m < 2 ^ 53 → amount1500_5.e ≤ 971 →
        ∃ r, params.amount = JsNumber.finite r ∧
          r.toRat = ((⌊100 * amount1500_5.toRat + 1 / 2⌋ : ℤ) : ℚ)) :=
  ⟨by decide,
   amount_conversion acceptingProcessor
     (postAmount (JsAmount.number (JsNumber.finite amount1500_5))) amount1500_5 rfl rfl
     (by decide) rfl⟩

/-- C14 as stated fails. The binary64 number nearest to 0.015 is a little below
0.015, so the floor of 100 a + 1/2 is 1; its binary64 product with 100 is
exactly 1.5, and the handler sends 2. With the amount read as the decimal
text of the request the mismatch is the other way: for the binary64 number
nearest to 1.005 the product is below 100.5 and the handler sends 100, while
the floor of 100 * 1.005 + 1/2 is 101. -/
theorem amount_conversion_counterexample :
    (amount0_015.wellFormed ∧ amount0_015.m ≠ 0 ∧ amount0_015.neg = false ∧
     (createPaymentIntent acceptingProcessor
        (postAmount (JsAmount.number (JsNumber.finite amount0_015)))).createCalls.map
          (fun p => p.amount) = [JsNumber.finite { neg := false, m := 2, e := 0 }] ∧
     ⌊100 * amount0_015.toRat + 1 / 2⌋ = 1) ∧
    (amount1_005.wellFormed ∧
     |amount1_005.toRat - 1005 / 1000| ≤ 1 / 2 ^ 53 ∧
     (createPaymentIntent acceptingProcessor
        (postAmount (JsAmount.number (JsNumber.finite amount1_005)))).createCalls.map
          (fun p => p.amount) = [JsNumber.finite { neg := false, m := 100, e := 0 }] ∧
     ⌊100 * (1005 / 1000 : ℚ) + 1 / 2⌋ = 101) := by
  refine ⟨⟨by decide, by decide, rfl, by decide, ?_⟩, ⟨by decide, ?_, by decide, ?_⟩⟩
  · rw [Int.floor_eq_iff]
    norm_num [Double.toRat, amount0_015]
  · rw [abs_le]
    norm_num [Double.toRat, amount1_005]
  · rw [Int.floor_eq_iff]
    norm_num


/-! ## Claims on the form validation -/

/-- C20 as stated fails. With the identifier empty or absent the result
carries no error under the email key nor under the login key: form data with
an empty login field, form data without any field, and signup data with an
empty email field all pass the identifier validation. The outer test of
source line 8 sees the invalid identifier, but the inner tests of lines 9 and
11 record an error only for a non-empty field. An invalid non-empty
identifier is reported, and a matching identifier sets neither key. -/
theorem validation_accepts_empty_identifier :
    identifierInvalid (emptyLoginForm.email.orNullish emptyLoginForm.login) = true ∧
    getValidationErrors emptyLoginForm false = {} ∧
    getValidationErrors {} false = {} ∧
    (getValidationErrors emptyEmailSignupForm true).email = none ∧
    (getValidationErrors emptyEmailSignupForm true).login = none ∧
    getValidationErrors { login := JsField.text "not-an-address" } false =
      { login := some "Please enter a valid email address." } ∧
    getValidationErrors { login := JsField.text "ana@example.com" } false = {} := by
  decide


/-! ## Claims on the password validation -/

/-- The password and confirmation keys of the result in signup mode, and their
absence in login mode, whatever the identifier part recorded. -/
theorem getValidationErrors_identifier_keys (formData : FormData) (isSignup : Bool) :
    (getValidationErrors formData isSignup).email =
      (if identifierInvalid (formData.email.orNullish formData.login) = true ∧
          formData.email.isTruthy = true
        then some "Please enter a valid email address." else none) ∧
    (getValidationErrors formData isSignup).login =
      (if identifierInvalid (formData.email.orNullish formData.login) = true ∧
          formData.email.isTruthy = false ∧ formData.login.isTruthy = true
        then some "Please enter a valid email address." else none) := by
  unfold getValidationErrors
  cases isSignup <;>
    cases hinv : identifierInvalid (formData.email.orNullish formData.login) <;>
    cases hem : formData.email.isTruthy <;>
    cases hlg : formData.login.isTruthy <;>
    simp only [hinv, hem, hlg, if_true, if_false, Bool.false_eq_true, and_self, and_true,
      and_false, true_and, false_and] <;>
    (constructor <;> split_ifs <;> first | rfl | (exfalso; assumption))

theorem emailRegexTest_ne_empty {t : String} (h : emailRegexTest t = true) : t ≠ "" := by
  intro ht
  subst ht
  exact absurd h (by decide)

/-- C20 (amended). Identifier validation of `getValidationErrors`, with the
identifier the email field when present and the login field otherwise. The
result has the email key exactly when the identifier is invalid and the email
field is a non-empty text, and the login key exactly when the identifier is
invalid, the email field is not a non-empty text and the login field is one;
the message is `Please enter a valid email address.`. Hence a non-empty
identifier that does not match the pattern is reported under the email or the
login key, a matching identifier sets neither key, and for a missing or empty
identifier the result has no email key, and a login key only when the email
field is the empty text and the login field is non-empty. -/
theorem identifier_validation (formData : FormData) (isSignup : Bool) :
    ((getValidationErrors formData isSignup).email ≠ none ↔
      identifierInvalid (formData.email.orNullish formData.login) = true ∧
        formData.email.isTruthy = true) ∧
    ((getValidationErrors formData isSignup).login ≠ none ↔
      identifierInvalid (formData.email.orNullish formData.login) = true ∧
        formData.email.isTruthy = false ∧ formData.login.isTruthy = true) ∧
    ((getValidationErrors formData isSignup).email ≠ none →
      (getValidationErrors formData isSignup).email =
        some "Please enter a valid email address.") ∧
    ((getValidationErrors formData isSignup).login ≠ none →
      (getValidationErrors formData isSignup).login =
        some "Please enter a valid email address.") ∧
    (∀ t, formData.email.orNullish formData.login = JsField.text t → t ≠ "" →
      emailRegexTest t = false →
      (getValidationErrors formData isSignup).email ≠ none ∨
        (getValidationErrors formData isSignup).login ≠ none) ∧
    (∀ t, formData.email.orNullish formData.login = JsField.text t →
      emailRegexTest t = true →
      (getValidationErrors formData isSignup).email = none ∧
        (getValidationErrors formData isSignup).login = none) ∧
    (formData.email.orNullish formData.login = JsField.undefined ∨
        formData.email.orNullish formData.login = JsField.null ∨
        formData.email.orNullish formData.login = JsField.text "" →
      (getValidationErrors formData isSignup).email = none ∧
      ((getValidationErrors formData isSignup).login ≠ none ↔
        formData.email = JsField.text "" ∧ formData.login.isTruthy = true)) := by
  obtain ⟨he, hl⟩ := getValidationErrors_identifier_keys formData isSignup
  rw [he, hl]
  refine ⟨?_, ?_, ?_, ?_, ?_, ?_, ?_⟩
  · split_ifs with h
    · simp [h]
    · simp [h]
  · split_ifs with h
    · simp [h]
    · simp [h]
  · split_ifs
    · intro _; rfl
    · intro h; exact absurd rfl h
  · split_ifs
    · intro _; rfl
    · intro h; exact absurd rfl h
  · intro t hid hne htest
    have hinv : identifierInvalid (formData.email.orNullish formData.login) = true := by
      rw [hid]
      simp [identifierInvalid, htest]
    have hcase : (formData.email.isTruthy = true) ∨
        (formData.email.isTruthy = false ∧ formData.login.isTruthy = true) := by
      rcases hfe : formData.email with _ | _ | e
      · right
        rw [hfe] at hid
        have hlg : formData.login = JsField.text t := hid
        rw [hlg]
        exact ⟨rfl, by simp [JsField.isTruthy, hne]⟩
      · right
        rw [hfe] at hid
        have hlg : formData.login = JsField.text t := hid
        rw [hlg]
        exact ⟨rfl, by simp [JsField.isTruthy, hne]⟩
      · left
        rw [hfe] at hid
        have het : JsField.text e = JsField.text t := hid
        injection het with het
        subst het
        simp [JsField.isTruthy, hne]
    rcases hcase with hE | ⟨hE, hL⟩
    · left
      simp [hinv, hE]
    · right
      simp [hinv, hE, hL]
  · intro t hid htest
    have hne := emailRegexTest_ne_empty htest
    have hinv : identifierInvalid (formData.email.orNullish formData.login) = false := by
      rw [hid]
      simp [identifierInvalid, htest, hne]
    simp [hinv]
  · intro hid
    have hinv : identifierInvalid (formData.email.orNullish formData.login) = true := by
      rcases hid with h | h | h <;> rw [h] <;> rfl
    have hE : formData.email.isTruthy = false := by
      rcases hfe : formData.email with _ | _ | e
      · rfl
      · rfl
      · rw [hfe] at hid
        have he0 : e = "" := by
          rcases hid with h | h | h
          · cases h
          · cases h
          · have h2 : JsField.text e = JsField.text "" := h
            injection h2
        subst he0
        rfl
    have hiff : formData.login.isTruthy = true →
        (formData.email = JsField.text "" ↔ True) := by
      intro hL
      rcases hfe : formData.email with _ | _ | e
      · exfalso
        rw [hfe] at hid
        have hid2 : formData.login = JsField.undefined ∨ formData.login = JsField.null ∨
            formData.login = JsField.text "" := hid
        rcases hid2 with h | h | h <;> rw [h] at hL <;> exact absurd hL (by decide)
      · exfalso
        rw [hfe] at hid
        have hid2 : formData.login = JsField.undefined ∨ formData.login = JsField.null ∨
            formData.login = JsField.text "" := hid
        rcases hid2 with h | h | h <;> rw [h] at hL <;> exact absurd hL (by decide)
      · rw [hfe] at hid
        have he0 : e = "" := by
          rcases hid with h | h | h
          · cases h
          · cases h
          · have h2 : JsField.text e = JsField.text "" := h
            injection h2
        subst he0
        simp
    refine ⟨by simp [hinv, hE], ?_⟩
    by_cases hL : formData.login.isTruthy = true
    · have := hiff hL
      simp [hinv, hE, hL, this]
    · have hLf : formData.login.isTruthy = false := by simpa using hL
      simp [hinv, hE, hLf]

/-- Instances of C20 (amended): an invalid non-empty login is reported under
the login key, an invalid non-empty email under the email key, and a matching
identifier sets neither key. -/
theorem identifier_validation_witness :
    (getValidationErrors { login := JsField.text "not-an-address" } false).login ≠ none ∧
    (getValidationErrors { email := JsField.text "a b@c.d", password := JsField.text "x" }
      true).email = some "Please enter a valid email address." ∧
    ((getValidationErrors { login := JsField.text "ana@example.com" } false).email = none ∧
     (getValidationErrors { login := JsField.text "ana@example.com" } false).login = none) :=
  ⟨((identifier_validation { login := JsField.text "not-an-address" } false).2.2.2.2.1
      "not-an-address" rfl (by decide) (by decide)).resolve_left (by decide),
   by decide,
   (identifier_validation { login := JsField.text "ana@example.com" } false).2.2.2.2.2.1
      "ana@example.com" rfl (by decide)⟩

theorem getValidationErrors_password_keys (formData : FormData) :
    (getValidationErrors formData true).password =
      (if !formData.password.isTruthy ||
          (match formData.password with
           | JsField.text s => decide (utf16Length s < 8)
           | _ => false) then some "Password must be at least 8 characters." else none) ∧
    (getValidationErrors formData true).confirmPassword =
      (if formData.password != formData.confirmPassword then
        some "Passwords do not match." else none) ∧
    (getValidationErrors formData false).password = none ∧
    (getValidationErrors formData false).confirmPassword = none := by
  unfold getValidationErrors
  refine ⟨?_, ?_, ?_, ?_⟩ <;> simp only [if_true, if_false, Bool.false_eq_true] <;>
    split_ifs <;> rfl

/-- C21. Password validation of `getValidationErrors` (source lines 16-25).
In signup mode the result has a password error exactly when the password is
missing (absent, null or the empty text) or a text shorter than 8 characters,
the characters being counted as the `length` property counts them, in UTF-16
code units; it has a confirmation error exactly when the password and the
confirmation differ under strict inequality. In login mode the result has
neither a password key nor a confirmation key. -/
theorem password_validation (formData : FormData) :
    ((getValidationErrors formData true).password ≠ none ↔
      (formData.password = JsField.undefined ∨ formData.password = JsField.null ∨
        formData.password = JsField.text "" ∨
        ∃ s, formData.password = JsField.text s ∧ utf16Length s < 8)) ∧
    ((getValidationErrors formData true).password ≠ none →
      (getValidationErrors formData true).password =
        some "Password must be at least 8 characters.") ∧
    ((getValidationErrors formData true).confirmPassword ≠ none ↔
      formData.password ≠ formData.confirmPassword) ∧
    ((getValidationErrors formData true).confirmPassword ≠ none →
      (getValidationErrors formData true).confirmPassword = some "Passwords do not match.") ∧
    (getValidationErrors formData false).password = none ∧
    (getValidationErrors formData false).confirmPassword = none := by
  obtain ⟨hp, hc, hp0, hc0⟩ := getValidationErrors_password_keys formData
  refine ⟨?_, ?_, ?_, ?_, hp0, hc0⟩
  · rw [hp]
    cases hpw : formData.password with
    | undefined => simp [JsField.isTruthy]
    | null => simp [JsField.isTruthy]
    | text s =>
      by_cases hs : s = ""
      · subst hs
        simp [JsField.isTruthy]
      · by_cases hl : utf16Length s < 8
        · simp [JsField.isTruthy, hs, hl]
        · simp [JsField.isTruthy, hs, hl]
  · rw [hp]
    split_ifs
    · intro _; rfl
    · intro h; exact absurd rfl h
  · rw [hc]
    by_cases h : formData.password = formData.confirmPassword
    · simp [h]
    · simp [h]
  · rw [hc]
    split_ifs
    · intro _; rfl
    · intro h; exact absurd rfl h


/-! ## Claims on the user cancellation -/

theorem handleCancelBooking_store {env : OpEnv} (w : OpWorld) (bookingId : Id)
    (hc : env.confirmed = true) (hu : env.bookingUpdateError = none) :
    (handleCancelBooking env w bookingId).store =
      setBookingCancelled w.store bookingId env.decidedAt := by
  simp [handleCancelBooking, hc, hu, OpWorld.call]

/-- C24. User cancellation (profile.jsx lines 224-256), once the dialog is
confirmed and the update is applied. Every booking with the given key ends
with status `Cancelled` and the decision time, and such a row of the table
before is still present in that form; every booking with another key is
unchanged, none is added or removed. The rooms table, and with it the status
of the room of the booking, the tenants table, the payments table, the audit
rows and the notifications are unchanged. -/
theorem cancellation_frame (env : OpEnv) (w : OpWorld) (bookingId : Id)
    (hc : env.confirmed = true) (hu : env.bookingUpdateError = none) :
    (∀ b ∈ (handleCancelBooking env w bookingId).store.booking_requests,
      b.id = bookingId → b.status = "Cancelled" ∧ b.decided_at = some env.decidedAt) ∧
    (∀ b ∈ w.store.booking_requests, b.id = bookingId →
      { b with status := "Cancelled", decided_at := some env.decidedAt } ∈
        (handleCancelBooking env w bookingId).store.booking_requests) ∧
    (∀ b, b.id ≠ bookingId →
      (b ∈ (handleCancelBooking env w bookingId).store.booking_requests ↔
        b ∈ w.store.booking_requests)) ∧
    (handleCancelBooking env w bookingId).store.booking_requests.map (fun b => b.id) =
      w.store.booking_requests.map (fun b => b.id) ∧
    (handleCancelBooking env w bookingId).store.rooms = w.store.rooms ∧
    (handleCancelBooking env w bookingId).store.tenants = w.store.tenants ∧
    (handleCancelBooking env w bookingId).store.payments = w.store.payments ∧
    (handleCancelBooking env w bookingId).store.payment_transactions =
      w.store.payment_transactions ∧
    (handleCancelBooking env w bookingId).store.notifications = w.store.notifications ∧
    (handleCancelBooking env w bookingId).alerts =
      w.alerts ++ ["Booking cancelled successfully!"] := by
  rw [handleCancelBooking_store w bookingId hc hu]
  refine ⟨?_, ?_, ?_, ?_, rfl, rfl, rfl, rfl, rfl, ?_⟩
  · intro b hb hid
    simp only [setBookingCancelled, List.mem_map] at hb
    obtain ⟨x, _, hx⟩ := hb
    by_cases hxi : x.id = bookingId
    · simp only [hxi, beq_self_eq_true, if_true] at hx
      subst hx
      exact ⟨rfl, rfl⟩
    · have hne : (x.id == bookingId) = false := by simpa using hxi
      simp only [hne, Bool.false_eq_true, if_false] at hx
      subst hx
      exact absurd hid hxi
  · intro b hb hid
    simp only [setBookingCancelled, List.mem_map]
    exact ⟨b, hb, by simp [hid]⟩
  · intro b hne
    simp only [setBookingCancelled, List.mem_map]
    constructor
    · rintro ⟨x, hx, hxb⟩
      by_cases hxi : x.id = bookingId
      · simp only [hxi, beq_self_eq_true, if_true] at hxb
        subst hxb
        exact absurd rfl hne
      · have hf : (x.id == bookingId) = false := by simpa using hxi
        simp only [hf, Bool.false_eq_true, if_false] at hxb
        subst hxb
        exact hx
    · intro hb
      refine ⟨b, hb, ?_⟩
      have hf : (b.id == bookingId) = false := by simpa using hne
      simp [hf]
  · simp only [setBookingCancelled, List.map_map]
    apply List.map_congr_left
    intro b _
    simp only [Function.comp]
    split_ifs <;> rfl
  · simp [handleCancelBooking, hc, hu, OpWorld.call]

/-- Witness of C24: user 7 cancels booking B1 on the store that also holds
tenant T9; the booking ends `Cancelled`, room 10 stays `Available`. -/
theorem cancellation_frame_witness :
    opOk.confirmed = true ∧ opOk.bookingUpdateError = none ∧
    (handleCancelBooking opOk (pageOver storeT9 none) 1).store.booking_requests =
      [{ id := 1, room_id := 10, requestor := 7, status := "Cancelled",
         decided_at := some "2025-01-14T09:00:00.000Z" }] ∧
    (handleCancelBooking opOk (pageOver storeT9 none) 1).store.rooms = storeT9.rooms ∧
    (handleCancelBooking opOk (pageOver storeT9 none) 1).store.tenants = storeT9.tenants :=
  have h := cancellation_frame opOk (pageOver storeT9 none) 1 rfl rfl
  ⟨rfl, rfl, by decide, h.2.2.2.2.1, h.2.2.2.2.2.1⟩


/-! ## Claims on the reported payment outcome -/

theorem payment_call_inv {env : Env} {ui : UiState} {s : Store} {id user : Id}
    {q : SearchParams} {row : Payment}
    (h : RemoteCall.insertPayment row ∈ (handlePaymentSuccess env ui s id user q).calls) :
    ∃ bd room tid, (fetchBooking env s id user).data = some bd ∧ bd.rooms = some room ∧
      row = paymentData env tid user bd.row room q.payment_intent := by
  have hi : issuedPaymentInsert (handlePaymentSuccess env ui s id user q) = true := by
    unfold issuedPaymentInsert
    rw [List.any_eq_true]
    exact ⟨_, h, rfl⟩
  cases he : env.paymentInsertError with
  | some e =>
    obtain ⟨bd, room, tid, sT, pre, hf, hroom, _, ht, hrun⟩ := run_payment_rejected hi he
    have hpre := (TenantResolution_frame ht).2.2.2.2.2.2.1
    rw [List.any_eq_false] at hpre
    rw [hrun] at h
    rw [List.mem_append] at h
    rcases h with h | h
    · exact absurd rfl (hpre _ h)
    · simp only [List.mem_singleton] at h
      exact ⟨bd, room, tid, hf, hroom, by injection h⟩
  | none =>
    obtain ⟨bd, room, tid, sT, pre, hf, hroom, _, ht, hrun⟩ := run_payment_accepted hi he
    have hpre := (TenantResolution_frame ht).2.2.2.2.2.2.1
    rw [List.any_eq_false] at hpre
    rw [hrun, bestEffortSteps_calls] at h
    rw [List.mem_append, List.mem_append, List.mem_append] at h
    rcases h with ((h | h) | h) | h
    · exact absurd rfl (hpre _ h)
    · simp only [List.mem_singleton] at h
      exact ⟨bd, room, tid, hf, hroom, by injection h⟩
    · unfold auditCalls at h
      cases htr : truthy q.payment_intent with
      | none => rw [htr] at h; simp at h
      | some i => rw [htr] at h; simp at h
    · simp at h

/-- C27. The reconciliation sequence does not depend on the reported payment
outcome (source lines 31-38 read `redirect_status` and only log it). Two runs
on the same store, booking key, user and intent id that differ only in the
`redirect_status` parameter end in the same world: the same store, the same
component state and the same remote calls in the same order. Every payment
row a run sends carries status `Paid`, and the remote calls that precede the
payment insertion are the booking query, the payment lookup, the tenant
lookup and, when no tenant was found, the tenant insertion: store calls only,
none of them addressed to the payment processor. In particular the return address reporting `failed` for booking B1 records the
same `Paid` payment as the one reporting `succeeded`. -/
theorem outcome_independent_of_redirect_status (env : Env) (ui : UiState) (s : Store)
    (id user : Id) (intent r1 r2 : Option String) :
    handlePaymentSuccess env ui s id user
        { payment_intent := intent, redirect_status := r1 } =
      handlePaymentSuccess env ui s id user
        { payment_intent := intent, redirect_status := r2 } ∧
    (∀ row, RemoteCall.insertPayment row ∈
        (handlePaymentSuccess env ui s id user
          { payment_intent := intent, redirect_status := r1 }).calls →
      row.payment_status = "Paid") ∧
    (issuedPaymentInsert (handlePaymentSuccess env ui s id user
          { payment_intent := intent, redirect_status := r1 }) = true →
      ∃ bd room tid post,
        (fetchBooking env s id user).data = some bd ∧ bd.rooms = some room ∧
        ((handlePaymentSuccess env ui s id user
            { payment_intent := intent, redirect_status := r1 }).calls =
          [RemoteCall.selectBooking id user, RemoteCall.selectPayment intent,
            RemoteCall.selectTenant user bd.row.room_id,
            RemoteCall.insertPayment (paymentData env tid user bd.row room intent)] ++ post ∨
         (handlePaymentSuccess env ui s id user
            { payment_intent := intent, redirect_status := r1 }).calls =
          [RemoteCall.selectBooking id user, RemoteCall.selectPayment intent,
            RemoteCall.selectTenant user bd.row.room_id,
            RemoteCall.insertTenant (newTenantRow env user bd.row.room_id),
            RemoteCall.insertPayment (paymentData env tid user bd.row room intent)] ++ post)) ∧
    (handlePaymentSuccess envOk initialUi storeB1 1 7
        { payment_intent := some "pi_123", redirect_status := some "failed" }).store.payments.map
      (fun p => (p.payment_status, p.stripe_payment_intent_id)) =
        [("Paid", some "pi_123")] := by
  refine ⟨rfl, ?_, ?_, by decide⟩
  · intro row h
    obtain ⟨bd, room, tid, _, _, hrow⟩ := payment_call_inv h
    rw [hrow]
    rfl
  · intro hi
    cases he : env.paymentInsertError with
    | some e =>
      obtain ⟨bd, room, tid, sT, pre, hf, hroom, _, ht, hrun⟩ := run_payment_rejected hi he
      refine ⟨bd, room, tid, [], hf, hroom, ?_⟩
      rw [hrun]
      rcases ht with ⟨t, _, _, _, _, rfl⟩ | ⟨_, _, _, _, rfl⟩
      · left; rfl
      · right; rfl
    | none =>
      obtain ⟨bd, room, tid, sT, pre, hf, hroom, _, ht, hrun⟩ := run_payment_accepted hi he
      refine ⟨bd, room, tid, auditCalls env bd.row room intent ++
        [RemoteCall.updateBooking id, RemoteCall.updateRoom bd.row.room_id,
          RemoteCall.insertNotification (notificationRow env user room)], hf, hroom, ?_⟩
      rw [hrun, bestEffortSteps_calls]
      rcases ht with ⟨t, _, _, _, _, rfl⟩ | ⟨_, _, _, _, rfl⟩
      · left; simp
      · right; simp


/-! ## Claims on the tenant status in the tenant resolution -/

/-- C28 (amended). Tenant resolution ignores the tenant status (source lines
80-85 filter by profile and room only). On a store in which the only tenant
row for the caller and the room of the loaded booking has status `Inactive`
and a truthy (non-zero) key, a run in which steps 1 to 4 succeed, the tenant
lookup is answered by the store and the room update is accepted issues no
tenant insertion and leaves the tenant table as it was, so the tenant for the
caller and the room is still that row with status `Inactive`; the one payment
row it inserts has status `Paid` and refers to the key of that tenant; and
the room of the booking exists with status `Occupied`. -/
theorem inactive_tenant_reused (env : Env) (ui : UiState) (s : Store) (id user : Id)
    (q : SearchParams) (bd : BookingData) (t : Tenant)
    (hf : (fetchBooking env s id user).data = some bd)
    (hone : s.tenants.filter
      (fun x => x.profile_id == user && x.room_id == bd.row.room_id) = [t])
    (hst : t.status = "Inactive")
    (hkey : t.id ≠ 0)
    (hlook : env.tenantLookupError = none)
    (hroomUpd : env.roomUpdateError = none)
    (hok : fatalStepsSucceeded (handlePaymentSuccess env ui s id user q)) :
    (∀ row, RemoteCall.insertTenant row ∉ (handlePaymentSuccess env ui s id user q).calls) ∧
    (handlePaymentSuccess env ui s id user q).store.tenants = s.tenants ∧
    (handlePaymentSuccess env ui s id user q).store.tenants.filter
      (fun x => x.profile_id == user && x.room_id == bd.row.room_id) = [t] ∧
    (∀ x ∈ (handlePaymentSuccess env ui s id user q).store.tenants,
      x.profile_id = user → x.room_id = bd.row.room_id → x = t ∧ x.status = "Inactive") ∧
    (∃ row, (handlePaymentSuccess env ui s id user q).store.payments = s.payments ++ [row] ∧
      row.tenant_id = t.id ∧ row.payment_status = "Paid") ∧
    (∀ r ∈ (handlePaymentSuccess env ui s id user q).store.rooms,
      r.id = bd.row.room_id → r.status = "Occupied") ∧
    (∃ r ∈ (handlePaymentSuccess env ui s id user q).store.rooms, r.id = bd.row.room_id) := by
  obtain ⟨hi, he⟩ := fatalStepsSucceeded_iff.mp hok
  obtain ⟨bd2, room, tid, sT, pre, hf2, hroom, _, ht, hrun⟩ := run_payment_accepted hi he
  rw [hf] at hf2
  cases hf2
  have htd : (lookupTenant env s user bd.row.room_id).data = some t := by
    unfold lookupTenant
    rw [hone, hlook]
    rfl
  have hfind := (fetchBooking_data_some hf).2.2.2.2.2.2
  rw [hroom] at hfind
  have hrmem : room ∈ s.rooms := List.mem_of_find?_eq_some hfind.symm
  have hrid : room.id = bd.row.room_id := by
    have := List.find?_some hfind.symm
    simpa using this
  rcases ht with ⟨t2, ht2, _, rfl, rfl, rfl⟩ | ⟨hnone, _⟩
  · rw [htd] at ht2
    cases ht2
    have hten : (handlePaymentSuccess env ui sT id user q).store.tenants = sT.tenants := by
      rw [hrun, bestEffortSteps_tenants]
    refine ⟨?_, hten, ?_, ?_, ⟨paymentData env t.id user bd.row room q.payment_intent, ?_, rfl,
      rfl⟩, ?_, ?_⟩
    · intro row hrow
      rw [hrun, bestEffortSteps_calls] at hrow
      unfold auditCalls at hrow
      cases htr : truthy q.payment_intent <;> rw [htr] at hrow <;> simp at hrow
    · rw [hten, hone]
    · intro x hx hp hr
      rw [hten] at hx
      have hxm : x ∈ sT.tenants.filter
          (fun x => x.profile_id == user && x.room_id == bd.row.room_id) := by
        rw [List.mem_filter]
        exact ⟨hx, by simp [hp, hr]⟩
      rw [hone] at hxm
      have hxt : x = t := by simpa using hxm
      subst hxt
      exact ⟨rfl, hst⟩
    · rw [hrun, bestEffortSteps_payments]
    · rw [hrun, bestEffortSteps_rooms, hroomUpd]
      exact setRoomOccupied_status env _ bd.row.room_id
    · rw [hrun, bestEffortSteps_rooms, hroomUpd]
      exact setRoomOccupied_mem env
        { booking_requests := sT.booking_requests, rooms := sT.rooms,
          tenants := sT.tenants,
          payments := sT.payments ++ [paymentData env t.id user bd.row room q.payment_intent],
          payment_transactions := sT.payment_transactions,
          notifications := sT.notifications } bd.row.room_id room hrmem hrid
  · rw [existingTenantId_of_data_some htd hkey] at hnone
    cases hnone

/-- Witness of C28 (amended): booking B1 is paid by user 7 whose tenant row
for room 10 (key 9) is `Inactive`. -/
theorem inactive_tenant_reused_witness :
    fatalStepsSucceeded (handlePaymentSuccess envOk initialUi storeInactiveT9 1 7 queryPi123) ∧
    (handlePaymentSuccess envOk initialUi storeInactiveT9 1 7 queryPi123).store.tenants =
      [{ id := 9, profile_id := 7, room_id := 10, status := "Inactive" }] ∧
    (handlePaymentSuccess envOk initialUi storeInactiveT9 1 7 queryPi123).store.payments.map
      (fun p => p.tenant_id) = [9] ∧
    (handlePaymentSuccess envOk initialUi storeInactiveT9 1 7 queryPi123).store.rooms.map
      (fun r => (r.id, r.status)) = [(10, "Occupied")] ∧
    ∀ r ∈ (handlePaymentSuccess envOk initialUi storeInactiveT9 1 7 queryPi123).store.rooms,
      r.id = 10 → r.status = "Occupied" :=
  ⟨by decide, by decide, by decide, by decide,
   (inactive_tenant_reused envOk initialUi storeInactiveT9 1 7 queryPi123
     { row := { id := 1, room_id := 10, requestor := 7, status := "Pending" }
       rooms := some { id := 10, room_number := "101", price_monthly := 5000,
                       status := "Available" } }
     { id := 9, profile_id := 7, room_id := 10, status := "Inactive" }
     (by decide) (by decide) rfl (by decide) rfl rfl (by decide)).2.2.2.2.2.1⟩

/-- C28 as stated fails. On the store of booking B1 whose only tenant row for
user 7 and room 10 (key 9) is `Inactive`, a run in which steps 1 to 4 succeed
and no error is reported may still create a tenant or leave the room as it
was. First, when the tenant lookup fails in transport, the sequence reads the
answer as no tenant: a second tenant row (key 21, `Active`) is created and the
payment row refers to it. Second, when the store rejects the room update, the
room stays `Available`. Third, when the only tenant row has the key zero, that
key fails the truthiness test of source line 89: a second tenant row is
created and the payment row refers to it. -/
theorem inactive_tenant_reused_counterexample :
    (storeInactiveT9.tenants.filter (fun x => x.profile_id == 7 && x.room_id == 10) =
      [{ id := 9, profile_id := 7, room_id := 10, status := "Inactive" }]) ∧
    (fatalStepsSucceeded (handlePaymentSuccess
        { envOk with tenantLookupError := some lostConnection } initialUi storeInactiveT9 1 7
        queryPi123) ∧
     (handlePaymentSuccess { envOk with tenantLookupError := some lostConnection } initialUi
        storeInactiveT9 1 7 queryPi123).store.tenants.map (fun t => (t.id, t.status)) =
          [(9, "Inactive"), (21, "Active")] ∧
     (handlePaymentSuccess { envOk with tenantLookupError := some lostConnection } initialUi
        storeInactiveT9 1 7 queryPi123).store.payments.map (fun p => p.tenant_id) = [21]) ∧
    (fatalStepsSucceeded (handlePaymentSuccess
        { envOk with roomUpdateError := some lostConnection } initialUi storeInactiveT9 1 7
        queryPi123) ∧
     (handlePaymentSuccess { envOk with roomUpdateError := some lostConnection } initialUi
        storeInactiveT9 1 7 queryPi123).ui.error = none ∧
     (handlePaymentSuccess { envOk with roomUpdateError := some lostConnection } initialUi
        storeInactiveT9 1 7 queryPi123).store.rooms.map (fun r => (r.id, r.status)) =
          [(10, "Available")]) ∧
    (storeInactiveT0.tenants.filter (fun x => x.profile_id == 7 && x.room_id == 10) =
      [{ id := 0, profile_id := 7, room_id := 10, status := "Inactive" }] ∧
     fatalStepsSucceeded (handlePaymentSuccess envOk initialUi storeInactiveT0 1 7
        queryPi123) ∧
     (handlePaymentSuccess envOk initialUi storeInactiveT0 1 7
        queryPi123).store.tenants.map (fun t => (t.id, t.status)) =
          [(0, "Inactive"), (21, "Active")] ∧
     (handlePaymentSuccess envOk initialUi storeInactiveT0 1 7
        queryPi123).store.payments.map (fun p => p.tenant_id) = [21]) := by
  decide


/-! ## Claims on failed lookups -/

theorem maybeSingle_error_some {α : Type} {fail : Option PgError} {rows : List α}
    {e : PgError} (h : (maybeSingle fail rows).error = some e) :
    (maybeSingle fail rows).data = none := by
  unfold maybeSingle at *
  cases fail with
  | some e => rfl
  | none =>
    match rows, h with
    | [], h => simp at h
    | [x], h => simp at h
    | _ :: _ :: _, _ => rfl

theorem recordPayment_ledger_irrelevant (env : Env) (st : Store) (ui : UiState)
    (calls : List RemoteCall) (tid id user : Id) (bd : BookingData)
    (paymentIntent : Option String) (ledger : List Payment) :
    AgreeUpToLedger
      (catchClause (recordPayment env ⟨st, ui, calls⟩ tid id user bd paymentIntent))
      (catchClause (recordPayment env ⟨{ st with payments := ledger }, ui, calls⟩ tid id user
        bd paymentIntent))
      st.payments ledger := by
  unfold AgreeUpToLedger recordPayment
  cases hroom : bd.rooms with
  | none => exact ⟨rfl, rfl, rfl, rfl, rfl, rfl, rfl, [], by simp [catchClause],
      by simp [catchClause]⟩
  | some room =>
    cases he : env.paymentInsertError with
    | some e => exact ⟨rfl, rfl, rfl, rfl, rfl, rfl, rfl, [], by simp [catchClause, World.call],
        by simp [catchClause, World.call]⟩
    | none =>
      simp only [catchClause, World.call]
      refine ⟨?_, ?_, ?_, ?_, ?_, ?_, ?_, [paymentData env tid user bd.row room paymentIntent],
        ?_, ?_⟩
      · rw [bestEffortSteps_ui, bestEffortSteps_ui]
      · rw [bestEffortSteps_calls, bestEffortSteps_calls]
      · rw [bestEffortSteps_bookings, bestEffortSteps_bookings]
        cases env.bookingUpdateError <;> rfl
      · rw [bestEffortSteps_rooms, bestEffortSteps_rooms]
        cases env.roomUpdateError <;> rfl
      · rw [bestEffortSteps_tenants, bestEffortSteps_tenants]
      · rw [bestEffortSteps_transactions, bestEffortSteps_transactions]
      · rw [bestEffortSteps_notifications, bestEffortSteps_notifications]
      · rw [bestEffortSteps_payments]
      · rw [bestEffortSteps_payments]

theorem resolveTenant_ledger_irrelevant (env : Env) (s : Store) (ui : UiState)
    (calls : List RemoteCall) (id user : Id) (bd : BookingData)
    (paymentIntent : Option String) (ledger : List Payment) :
    AgreeUpToLedger
      (catchClause (resolveTenant env ⟨s, ui, calls⟩ id user bd paymentIntent))
      (catchClause (resolveTenant env ⟨{ s with payments := ledger }, ui, calls⟩ id user
        bd paymentIntent))
      s.payments ledger := by
  unfold resolveTenant
  simp only [World.call]
  have hl : lookupTenant env { s with payments := ledger } user bd.row.room_id =
      lookupTenant env s user bd.row.room_id := rfl
  rw [hl]
  cases htd : existingTenantId (lookupTenant env s user bd.row.room_id) with
  | some tid =>
    exact recordPayment_ledger_irrelevant env s ui _ tid id user bd paymentIntent ledger
  | none =>
    cases hti : env.tenantInsertError with
    | some e =>
      exact ⟨rfl, rfl, rfl, rfl, rfl, rfl, rfl, [], by simp [catchClause],
        by simp [catchClause]⟩
    | none =>
      exact recordPayment_ledger_irrelevant env
        { s with tenants := s.tenants ++ [newTenantRow env user bd.row.room_id] } ui _
        (newTenantRow env user bd.row.room_id).id id user bd paymentIntent ledger

theorem resolveTenant_answered (env : Env) (w : World) (id user : Id) (bd : BookingData)
    (paymentIntent : Option String) :
    resolveTenant (answeredPaymentLookup env) w id user bd paymentIntent =
      resolveTenant env w id user bd paymentIntent := rfl

theorem run_of_lookup_none {env : Env} (ui : UiState) {s : Store} {id user : Id}
    {q : SearchParams} {bd : BookingData}
    (hf : (fetchBooking env s id user).data = some bd)
    (hp : (lookupPayment env s q.payment_intent).data = none) :
    handlePaymentSuccess env ui s id user q =
      catchClause (resolveTenant env
        { store := s, ui := loadedUi bd,
          calls := [RemoteCall.selectBooking id user,
            RemoteCall.selectPayment q.payment_intent] }
        id user bd q.payment_intent) := by
  have hfe := (fetchBooking_data_some hf).2.1
  simp [handlePaymentSuccess, tryBlock, World.call, hf, hfe, hp, loadedUi]

theorem lookupPayment_withoutIntent (env : Env) (s : Store) (intent : Option String) :
    (lookupPayment (answeredPaymentLookup env) (withoutIntent s intent) intent).data = none ∧
    (lookupPayment (answeredPaymentLookup env) (withoutIntent s intent) intent).error = none := by
  have hnil : (withoutIntent s intent).payments.filter
      (fun p => p.stripe_payment_intent_id == some (eqFilterText intent)) = [] := by
    rw [List.filter_eq_nil_iff]
    intro p hp
    unfold withoutIntent at hp
    have := (List.mem_filter.mp hp).2
    simpa using this
  unfold lookupPayment
  rw [hnil]
  exact ⟨rfl, rfl⟩

theorem run_ledger_irrelevant (env : Env) (ui : UiState) (s : Store) (id user : Id)
    (q : SearchParams) (hp : (lookupPayment env s q.payment_intent).data = none) :
    AgreeUpToLedger (handlePaymentSuccess env ui s id user q)
      (handlePaymentSuccess (answeredPaymentLookup env) ui (withoutIntent s q.payment_intent)
        id user q)
      s.payments (withoutIntent s q.payment_intent).payments := by
  have hfb : fetchBooking (answeredPaymentLookup env) (withoutIntent s q.payment_intent) id user =
      fetchBooking env s id user := rfl
  have hp0 := (lookupPayment_withoutIntent env s q.payment_intent).1
  cases hfd : (fetchBooking env s id user).data with
  | none =>
    unfold AgreeUpToLedger
    simp only [handlePaymentSuccess, tryBlock, World.call, hfb, hfd]
    cases hfe : (fetchBooking env s id user).error with
    | some e => exact ⟨rfl, rfl, rfl, rfl, rfl, rfl, rfl, [], by simp [catchClause],
        by simp [catchClause]⟩
    | none => exact ⟨rfl, rfl, rfl, rfl, rfl, rfl, rfl, [], by simp [catchClause],
        by simp [catchClause]⟩
  | some bd =>
    have hfd0 : (fetchBooking (answeredPaymentLookup env) (withoutIntent s q.payment_intent)
        id user).data = some bd := by rw [hfb]; exact hfd
    rw [run_of_lookup_none ui hfd hp, run_of_lookup_none ui hfd0 hp0, resolveTenant_answered]
    exact resolveTenant_ledger_irrelevant env s (loadedUi bd) _ id user bd q.payment_intent
      (withoutIntent s q.payment_intent).payments

/-- C29. A failed lookup is treated as no row found (source lines 66-76 and
80-89 read only the data of the answer). First, when the payment lookup of
step 2 returns an error, it carries no data and the run continues as a run
on a ledger without any row for the intent id would: compared with the run on
the store with those rows removed and the lookup answered, it ends with the
same component state, the same remote calls, the same rows in every other
table and the same rows appended to the ledger. With the booking loaded, the
tenant lookup is issued, and when the tenant is resolved (a row is found with
a truthy key, or the store accepts the tenant insertion) and the room is
embedded, the payment insertion is issued; when the store accepts it, the run
reports no error and the ledger gains one row carrying the intent id.
Second, when the booking is loaded, the payment lookup returns no data and
the tenant lookup returns an error, the insertion of a new tenant row is
issued; when the store accepts it, the tenant table gains that row and every
payment row the run sends refers to its key. -/
theorem failed_lookup_is_not_found (env : Env) (ui : UiState) (s : Store) (id user : Id)
    (q : SearchParams) :
    (∀ e, (lookupPayment env s q.payment_intent).error = some e →
      (lookupPayment env s q.payment_intent).data = none ∧
      (lookupPayment (answeredPaymentLookup env) (withoutIntent s q.payment_intent)
        q.payment_intent).data = none ∧
      (lookupPayment (answeredPaymentLookup env) (withoutIntent s q.payment_intent)
        q.payment_intent).error = none ∧
      AgreeUpToLedger (handlePaymentSuccess env ui s id user q)
        (handlePaymentSuccess (answeredPaymentLookup env) ui
          (withoutIntent s q.payment_intent) id user q)
        s.payments (withoutIntent s q.payment_intent).payments ∧
      ∀ bd, (fetchBooking env s id user).data = some bd →
        RemoteCall.selectTenant user bd.row.room_id ∈
          (handlePaymentSuccess env ui s id user q).calls ∧
        ∀ room, bd.rooms = some room →
          ((∃ t, (lookupTenant env s user bd.row.room_id).data = some t ∧ t.id ≠ 0) ∨
            env.tenantInsertError = none) →
          issuedPaymentInsert (handlePaymentSuccess env ui s id user q) = true ∧
          (env.paymentInsertError = none →
            (handlePaymentSuccess env ui s id user q).ui.error = none ∧
            ∃ row, (handlePaymentSuccess env ui s id user q).store.payments =
                s.payments ++ [row] ∧
              row.stripe_payment_intent_id = q.payment_intent)) ∧
    (∀ e bd, (fetchBooking env s id user).data = some bd →
      (lookupPayment env s q.payment_intent).data = none →
      (lookupTenant env s user bd.row.room_id).error = some e →
      RemoteCall.insertTenant (newTenantRow env user bd.row.room_id) ∈
        (handlePaymentSuccess env ui s id user q).calls ∧
      (env.tenantInsertError = none →
        (handlePaymentSuccess env ui s id user q).store.tenants =
          s.tenants ++ [newTenantRow env user bd.row.room_id] ∧
        ∀ row, RemoteCall.insertPayment row ∈
            (handlePaymentSuccess env ui s id user q).calls →
          row.tenant_id = env.newTenantId)) := by
  constructor
  · intro e he
    have hp : (lookupPayment env s q.payment_intent).data = none := by
      unfold lookupPayment at he ⊢
      exact maybeSingle_error_some he
    refine ⟨hp, (lookupPayment_withoutIntent env s q.payment_intent).1,
      (lookupPayment_withoutIntent env s q.payment_intent).2,
      run_ledger_irrelevant env ui s id user q hp, ?_⟩
    intro bd hf
    constructor
    · rw [run_of_lookup_none ui hf hp]
      cases htd : existingTenantId (lookupTenant env s user bd.row.room_id) <;>
        cases hti : env.tenantInsertError <;> cases hroom : bd.rooms <;>
        cases hpe : env.paymentInsertError <;>
        simp [resolveTenant, recordPayment, htd, hti, hroom, hpe, catchClause, World.call,
          bestEffortSteps_calls]
    · intro room hroom hten
      have hres : ∃ tid sT pre,
          TenantResolution env s id user q.payment_intent bd.row.room_id tid sT pre := by
        cases hid : existingTenantId (lookupTenant env s user bd.row.room_id) with
        | some tid =>
          obtain ⟨t, htd, h0, rfl⟩ := existingTenantId_eq_some.mp hid
          exact ⟨t.id, s, _, Or.inl ⟨t, htd, h0, rfl, rfl, rfl⟩⟩
        | none =>
          rcases hten with ⟨t, htd, h0⟩ | h
          · rw [existingTenantId_of_data_some htd h0] at hid
            cases hid
          · exact ⟨env.newTenantId, _, _, Or.inr ⟨hid, h, rfl, rfl, rfl⟩⟩
      obtain ⟨tid, sT, pre, hres⟩ := hres
      have hfr := TenantResolution_frame hres
      constructor
      · rw [run_of_lookup_none ui hf hp]
        rcases hres with ⟨t, htd0, h0, _, _, _⟩ | ⟨htd, hti, _, _, _⟩
        · have htd := existingTenantId_of_data_some htd0 h0
          cases hpe : env.paymentInsertError <;>
            simp [resolveTenant, recordPayment, htd, hroom, hpe, catchClause, World.call,
              bestEffortSteps_calls, issuedPaymentInsert, RemoteCall.isPaymentInsert]
        · cases hpe : env.paymentInsertError <;>
            simp [resolveTenant, recordPayment, htd, hti, hroom, hpe, catchClause, World.call,
              bestEffortSteps_calls, issuedPaymentInsert, RemoteCall.isPaymentInsert]
      · intro hpe
        have hrun := run_forward ui hf hroom hp hres hpe
        refine ⟨?_, paymentData env tid user bd.row room q.payment_intent, ?_, rfl⟩
        · rw [hrun, bestEffortSteps_ui]
          rfl
        · rw [hrun, bestEffortSteps_payments]
          show sT.payments ++ _ = _
          rw [hfr.2.2.1]
  · intro e bd hf hp hte
    have htd : existingTenantId (lookupTenant env s user bd.row.room_id) = none := by
      apply existingTenantId_of_data_none
      unfold lookupTenant at hte ⊢
      exact maybeSingle_error_some hte
    rw [run_of_lookup_none ui hf hp]
    constructor
    · cases hti : env.tenantInsertError <;> cases hroom : bd.rooms <;>
        cases hpe : env.paymentInsertError <;>
        simp [resolveTenant, recordPayment, htd, hti, hroom, hpe, catchClause, World.call,
          bestEffortSteps_calls]
    · intro hti
      constructor
      · cases hroom : bd.rooms <;> cases hpe : env.paymentInsertError <;>
          simp [resolveTenant, recordPayment, htd, hti, hroom, hpe, catchClause, World.call,
            bestEffortSteps_tenants]
      · intro row hrow
        revert hrow
        cases hroom : bd.rooms <;> cases hpe : env.paymentInsertError <;>
          cases htr : truthy q.payment_intent <;>
          simp [resolveTenant, recordPayment, htd, hti, hroom, hpe, catchClause, World.call,
            bestEffortSteps_calls, auditCalls, htr]
        all_goals (intro h; rw [h]; rfl)

/-- Witness of C29. On the store of booking B1 whose ledger already holds the
row for `pi_123`, a payment lookup that fails in transport lets the run insert
a second payment row for the intent, as the run on the emptied ledger does.
On the store with tenant T9, a tenant lookup that fails in transport lets the
run insert a second tenant row (key 21), to which the payment row refers. -/
theorem failed_lookup_is_not_found_witness :
    ((lookupPayment { envOk with paymentLookupError := some lostConnection } storePaidT9
        queryPi123.payment_intent).error = some lostConnection ∧
     (handlePaymentSuccess { envOk with paymentLookupError := some lostConnection } initialUi
        storePaidT9 1 7 queryPi123).store.payments.map
          (fun p => p.stripe_payment_intent_id) = [some "pi_123", some "pi_123"] ∧
     AgreeUpToLedger
      (handlePaymentSuccess { envOk with paymentLookupError := some lostConnection } initialUi
        storePaidT9 1 7 queryPi123)
      (handlePaymentSuccess
        (answeredPaymentLookup { envOk with paymentLookupError := some lostConnection })
        initialUi (withoutIntent storePaidT9 queryPi123.payment_intent) 1 7 queryPi123)
      storePaidT9.payments (withoutIntent storePaidT9 queryPi123.payment_intent).payments) ∧
    ((lookupTenant { envOk with tenantLookupError := some lostConnection } storeT9 7
        10).error = some lostConnection ∧
     (handlePaymentSuccess { envOk with tenantLookupError := some lostConnection } initialUi
        storeT9 1 7 queryPi123).store.tenants.map (fun t => t.id) = [9, 21] ∧
     (handlePaymentSuccess { envOk with tenantLookupError := some lostConnection } initialUi
        storeT9 1 7 queryPi123).store.payments.map (fun p => p.tenant_id) = [21] ∧
     RemoteCall.insertTenant
        (newTenantRow { envOk with tenantLookupError := some lostConnection } 7 10) ∈
      (handlePaymentSuccess { envOk with tenantLookupError := some lostConnection } initialUi
        storeT9 1 7 queryPi123).calls) :=
  ⟨⟨by decide, by decide,
    ((failed_lookup_is_not_found { envOk with paymentLookupError := some lostConnection }
      initialUi storePaidT9 1 7 queryPi123).1 lostConnection (by decide)).2.2.2.1⟩,
   ⟨by decide, by decide, by decide,
    ((failed_lookup_is_not_found { envOk with tenantLookupError := some lostConnection }
      initialUi storeT9 1 7 queryPi123).2 lostConnection
      { row := { id := 1, room_id := 10, requestor := 7, status := "Pending" }
        rooms := some { id := 10, room_number := "101", price_monthly := 5000,
                        status := "Available" } }
      (by decide) (by decide) (by decide)).1⟩⟩


/-! ## Claims on the route protection -/

/-- C22. Route protection (App.jsx lines 49-65). For every authentication
state and either value of `requireAdmin`, the wrapped children are rendered
exactly when the session check has completed, a user is signed in, and
`requireAdmin` is false or the role is `admin`. Otherwise the result is the
loading screen when the check has not completed, else a redirect to `/login`
when no user is signed in, else a redirect to `/home` (a user without the
admin role on a route that requires it). On the admin route, which passes
`requireAdmin` true, the children are rendered only for the role `admin`. -/
theorem route_protection (auth : AuthState) (requireAdmin : Bool) :
    (ProtectedRoute auth requireAdmin = Rendered.children ↔
      auth.authChecked = true ∧ auth.user ≠ none ∧
        (requireAdmin = false ∨ auth.userRole = "admin")) ∧
    (auth.authChecked = false →
      ProtectedRoute auth requireAdmin = Rendered.loadingScreen) ∧
    (auth.authChecked = true → auth.user = none →
      ProtectedRoute auth requireAdmin = Rendered.navigate "/login") ∧
    (auth.authChecked = true → auth.user ≠ none → requireAdmin = true →
      auth.userRole ≠ "admin" →
      ProtectedRoute auth requireAdmin = Rendered.navigate "/home") ∧
    (ProtectedRoute auth true = Rendered.children ↔
      auth.authChecked = true ∧ auth.user ≠ none ∧ auth.userRole = "admin") ∧
    (ProtectedRoute auth requireAdmin = Rendered.children ∨
      ProtectedRoute auth requireAdmin = Rendered.loadingScreen ∨
      ProtectedRoute auth requireAdmin = Rendered.navigate "/login" ∨
      ProtectedRoute auth requireAdmin = Rendered.navigate "/home") := by
  obtain ⟨user, role, checked⟩ := auth
  unfold ProtectedRoute
  cases checked <;> cases user <;> cases requireAdmin <;>
    by_cases hr : role = "admin" <;> simp [hr]

/-- Instances of C22: a signed-in admin reaches the admin route, a signed-in
user without the role is sent to `/home`, a visitor is sent to `/login`, and
before the session check completes the loading screen is shown. -/
theorem route_protection_witness :
    ProtectedRoute { user := some 7, userRole := "admin", authChecked := true } true =
      Rendered.children ∧
    ProtectedRoute { user := some 7, userRole := "user", authChecked := true } true =
      Rendered.navigate "/home" ∧
    ProtectedRoute { user := some 7, userRole := "user", authChecked := true } false =
      Rendered.children ∧
    ProtectedRoute { user := none, userRole := "user", authChecked := true } true =
      Rendered.navigate "/login" ∧
    ProtectedRoute { user := some 1, userRole := "admin", authChecked := false } true =
      Rendered.loadingScreen :=
  ⟨((route_protection { user := some 7, userRole := "admin", authChecked := true } true).1).2
      ⟨rfl, by decide, Or.inr rfl⟩,
   by decide, by decide, by decide, by decide⟩

/-! ## Claims on the capacity filter -/

/-- C25. The capacity filter of `applyFilters` at the input where the claim
fails. The option labelled `One Person` of the capacity dropdown carries the
value `Single Person` (roomSelection.jsx line 247), which is not a key of
`capacityMap` (lines 61-66, where the key is `One Person`): with that value
selected and no other filter, the result is the whole room list, rooms of
capacity `Double` and `Family` included, instead of the rooms of capacity
`Single`. The three other options carry a value that is a key of the map, and
selecting them restricts the list to the mapped class; the key `One Person`
itself, which no option sets, would restrict the list to capacity `Single`. -/
theorem capacity_filter_one_person_unfiltered :
    chooseCapacity "One Person" = some "Single Person" ∧
    capacityMap "Single Person" = MapLookup.undefined ∧
    (∀ (parseInt : String → Option Int) (rooms : List RoomListing),
      (applyFilters parseInt rooms "" "Single Person" "").filteredRooms = rooms) ∧
    (applyFilters (fun _ => none) roomsOnOffer "" "Single Person" "").filteredRooms.map
      (fun r => r.capacity) = [some "Single", some "Double", some "Family"] ∧
    roomsOnOffer.filter (fun r => r.capacity == some "Single") =
      [{ id := 10, rental_term := some "One Month", capacity := some "Single",
         price_monthly := 5000 }] ∧
    (chooseCapacity "Two People" = some "Two People" ∧
     chooseCapacity "Three People" = some "Three People" ∧
     chooseCapacity "Four+ People" = some "Four+ People") ∧
    (∀ (parseInt : String → Option Int) (rooms : List RoomListing),
      (applyFilters parseInt rooms "" "Two People" "").filteredRooms =
        rooms.filter (fun r => r.capacity == some "Double") ∧
      (applyFilters parseInt rooms "" "Three People" "").filteredRooms =
        rooms.filter (fun r => r.capacity == some "Family") ∧
      (applyFilters parseInt rooms "" "Four+ People" "").filteredRooms =
        rooms.filter (fun r => r.capacity == some "Family") ∧
      (applyFilters parseInt rooms "" "One Person" "").filteredRooms =
        rooms.filter (fun r => r.capacity == some "Single")) := by
  refine ⟨by decide, by decide, ?_, by decide, by decide, by decide, ?_⟩
  · intro parseInt rooms
    have h : capacityMap "Single Person" = MapLookup.undefined := by decide
    simp [applyFilters, h]
  · intro parseInt rooms
    have h2 : capacityMap "Two People" = MapLookup.text "Double" := by decide
    have h3 : capacityMap "Three People" = MapLookup.text "Family" := by decide
    have h4 : capacityMap "Four+ People" = MapLookup.text "Family" := by decide
    have h1 : capacityMap "One Person" = MapLookup.text "Single" := by decide
    refine ⟨?_, ?_, ?_, ?_⟩
    · simp [applyFilters, h2]
    · simp [applyFilters, h3]
    · simp [applyFilters, h4]
    · simp [applyFilters, h1]

/-! ## Claims on the recent activity of the dashboard -/

theorem fetchRecentActivity_length (clock : Nat → Int)
    (recentPayments : Option (List RecentPayment))
    (recentTenants : Option (List RecentTenant)) :
    (fetchRecentActivity clock recentPayments recentTenants).length ≤ 4 := by
  unfold fetchRecentActivity
  simp only [List.length_take]
  exact Nat.min_le_left _ _

/-- C26. The recent activity of the dashboard at inputs where the claim
fails. The stored list never has more than 4 entries. It is sorted by the
display text of the elapsed time (dashboard.jsx line 145 compares `a.time`
with `localeCompare`), not by the elapsed time: with a payment recorded five
minutes ago and a tenant registered two hours ago, the tenant entry (`2 hours
ago`, 7200000 ms elapsed) is listed before the payment entry (`5 mins ago`,
300000 ms elapsed); with two payments, the one of ten minutes ago is listed
before the one of two minutes ago. -/
theorem recent_activity_sorted_by_text :
    (∀ (clock : Nat → Int) (recentPayments : Option (List RecentPayment))
        (recentTenants : Option (List RecentTenant)),
      (fetchRecentActivity clock recentPayments recentTenants).length ≤ 4) ∧
    fetchRecentActivity noon (some [paymentFiveMinutesAgo]) (some [tenantTwoHoursAgo]) =
      [{ id := "tenant-9", title := "New tenant registered - Ben", time := "2 hours ago",
         type := "tenant" },
       { id := "payment-1", title := "Ana paid for Room 101", time := "5 mins ago",
         type := "payment" }] ∧
    noon 1 - tenantTwoHoursAgo.created_at = 7200000 ∧
    noon 0 - paymentFiveMinutesAgo.created_at = 300000 ∧
    (fetchRecentActivity noon (some [paymentTwoMinutesAgo, paymentTenMinutesAgo])
        (some [])).map (fun a => (a.id, a.time)) =
      [("payment-2", "10 mins ago"), ("payment-3", "2 mins ago")] ∧
    noon 1 - paymentTenMinutesAgo.created_at = 600000 ∧
    noon 0 - paymentTwoMinutesAgo.created_at = 120000 := by
  refine ⟨fun clock ps ts => fetchRecentActivity_length clock ps ts, by decide, by decide,
    by decide, by decide, by decide, by decide⟩


/-! ## Claims on the payment tab -/

theorem mem_getPaidBookingIds {bookings : List UserBooking} {payments : List Payment}
    {i : Id} :
    i ∈ getPaidBookingIds bookings payments ↔
      i ≠ 0 ∧ ∃ p ∈ payments, p.payment_status = "Paid" ∧
        ∃ b, bookings.find?
          (fun b => b.row.room_id == p.room_id && b.row.status == "Approved") = some b ∧
          b.row.id = i := by
  unfold getPaidBookingIds
  simp only [List.mem_filter, List.mem_filterMap, List.mem_map, bne_iff_ne, ne_eq,
    beq_iff_eq, Option.map_eq_some']
  constructor
  · rintro ⟨⟨x, ⟨p, ⟨hp, hpaid⟩, hx⟩, hxi⟩, hne⟩
    subst hxi
    exact ⟨hne, p, hp, hpaid, Option.map_eq_some'.mp hx⟩
  · rintro ⟨hne, p, hp, hpaid, b, hb, hbi⟩
    refine ⟨⟨some i, ⟨p, ⟨hp, hpaid⟩, ?_⟩, rfl⟩, hne⟩
    rw [hb]
    simp [hbi]

/-- C23 (amended). The tab `Payment` of the profile page. For bookings of the
user with distinct non-zero keys among which no two bookings with status
`Approved` are for the same room, and for any payments, the tab lists exactly
the bookings with status `Approved` whose room has no payment with status
`Paid` among the payments, in the order of the booking list: every listed
entry is built from such a booking, and every such booking is listed. -/
theorem payment_tab_lists_unpaid (bookings : List UserBooking) (payments : List Payment)
    (hkeys : ∀ b ∈ bookings, b.row.id ≠ 0)
    (hdistinct : ∀ b1 ∈ bookings, ∀ b2 ∈ bookings, b1.row.id = b2.row.id → b1 = b2)
    (hroom : ∀ b1 ∈ bookings, ∀ b2 ∈ bookings, b1.row.status = "Approved" →
      b2.row.status = "Approved" → b1.row.room_id = b2.row.room_id → b1 = b2) :
    bookingData_Payment bookings payments =
      (approvedUnpaid bookings payments).map paymentTabItem ∧
    (∀ item ∈ bookingData_Payment bookings payments,
      ∃ b ∈ bookings, item = paymentTabItem b ∧ b.row.status = "Approved" ∧
        ∀ p ∈ payments, p.payment_status = "Paid" → p.room_id ≠ b.row.room_id) ∧
    (∀ b ∈ bookings, b.row.status = "Approved" →
      (∀ p ∈ payments, p.payment_status = "Paid" → p.room_id ≠ b.row.room_id) →
      paymentTabItem b ∈ bookingData_Payment bookings payments) := by
  have hiff : ∀ b ∈ bookings, b.row.status = "Approved" →
      (b.row.id ∈ getPaidBookingIds bookings payments ↔
        ∃ p ∈ payments, p.payment_status = "Paid" ∧ p.room_id = b.row.room_id) := by
    intro b hb hap
    rw [mem_getPaidBookingIds]
    constructor
    · rintro ⟨_, p, hp, hpaid, b2, hfind, hid⟩
      have hb2 : b2 ∈ bookings := List.mem_of_find?_eq_some hfind
      have hcond := List.find?_some hfind
      have hc : b2.row.room_id = p.room_id ∧ b2.row.status = "Approved" := by
        simpa using hcond
      have heq : b2 = b := hdistinct b2 hb2 b hb hid
      subst heq
      exact ⟨p, hp, hpaid, hc.1.symm⟩
    · rintro ⟨p, hp, hpaid, hr⟩
      refine ⟨hkeys b hb, p, hp, hpaid, ?_⟩
      cases hfind : bookings.find?
          (fun b => b.row.room_id == p.room_id && b.row.status == "Approved") with
      | none =>
        rw [List.find?_eq_none] at hfind
        have := hfind b hb
        simp [hr, hap] at this
      | some b2 =>
        have hb2 : b2 ∈ bookings := List.mem_of_find?_eq_some hfind
        have hcond := List.find?_some hfind
        have hc : b2.row.room_id = p.room_id ∧ b2.row.status = "Approved" := by
          simpa using hcond
        have heq : b2 = b := hroom b2 hb2 b hb hc.2 hap (by rw [hc.1, hr])
        exact ⟨b2, rfl, by rw [heq]⟩
  have hfilter : bookings.filter (fun b =>
        b.row.status == "Approved" &&
          !(getPaidBookingIds bookings payments).contains b.row.id) =
      approvedUnpaid bookings payments := by
    unfold approvedUnpaid
    apply List.filter_congr
    intro b hb
    by_cases hap : b.row.status = "Approved"
    · have h := hiff b hb hap
      by_cases hin : b.row.id ∈ getPaidBookingIds bookings payments
      · obtain ⟨p, hp, hpaid, hr⟩ := h.mp hin
        have hany : payments.any
            (fun p => p.payment_status == "Paid" && p.room_id == b.row.room_id) = true := by
          rw [List.any_eq_true]
          exact ⟨p, hp, by simp [hpaid, hr]⟩
        simp [hap, hin, hany]
      · have hany : payments.any
            (fun p => p.payment_status == "Paid" && p.room_id == b.row.room_id) = false := by
          rw [List.any_eq_false]
          intro p hp hc
          have hc2 : p.payment_status = "Paid" ∧ p.room_id = b.row.room_id := by
            simpa using hc
          exact hin (h.mpr ⟨p, hp, hc2.1, hc2.2⟩)
        simp [hap, hin, hany]
    · have hf : (b.row.status == "Approved") = false := by simpa using hap
      simp [hf]
  have hmain : bookingData_Payment bookings payments =
      (approvedUnpaid bookings payments).map paymentTabItem := by
    unfold bookingData_Payment
    simp only [hfilter]
  have hmem : ∀ b, b ∈ approvedUnpaid bookings payments ↔
      b ∈ bookings ∧ b.row.status = "Approved" ∧
        ∀ p ∈ payments, p.payment_status = "Paid" → p.room_id ≠ b.row.room_id := by
    intro b
    unfold approvedUnpaid
    rw [List.mem_filter]
    constructor
    · rintro ⟨hb, hc⟩
      simp only [Bool.and_eq_true, beq_iff_eq, Bool.not_eq_true', List.any_eq_false,
        not_and] at hc
      exact ⟨hb, hc.1, fun p hp hpaid hr => hc.2 p hp hpaid hr⟩
    · rintro ⟨hb, hap, hno⟩
      refine ⟨hb, ?_⟩
      simp only [Bool.and_eq_true, beq_iff_eq, Bool.not_eq_true', List.any_eq_false,
        not_and]
      exact ⟨hap, fun p hp hpaid hr => hno p hp hpaid hr⟩
  refine ⟨hmain, ?_, ?_⟩
  · intro item hitem
    rw [hmain, List.mem_map] at hitem
    obtain ⟨b, hb, rfl⟩ := hitem
    obtain ⟨hbm, hap, hno⟩ := (hmem b).mp hb
    exact ⟨b, hbm, rfl, hap, hno⟩
  · intro b hb hap hno
    rw [hmain, List.mem_map]
    exact ⟨b, (hmem b).mpr ⟨hb, hap, hno⟩, rfl⟩

/-- Witness of C23 (amended): user 7 holds approved bookings for rooms 10 and
11 and a pending one for room 12, and has paid for room 10; the tab lists the
booking for room 11 only. -/
theorem payment_tab_lists_unpaid_witness :
    (∀ b ∈ bookingsOfUser7, b.row.id ≠ 0) ∧
    bookingData_Payment bookingsOfUser7 [paidRoom10] =
      [{ id := 3, name := "Room 102", status := "AWAITING PAYMENT", price := some 6000 }] ∧
    bookingData_Payment bookingsOfUser7 [paidRoom10] =
      (approvedUnpaid bookingsOfUser7 [paidRoom10]).map paymentTabItem :=
  ⟨by decide, by decide,
   (payment_tab_lists_unpaid bookingsOfUser7 [paidRoom10] (by decide) (by decide)
     (by decide)).1⟩

/-- C23 as stated fails. With two bookings of status `Approved` for the same
room 10 and one payment of status `Paid` for that room, only the first booking
counts as paid: the tab lists the second booking (key 2), an approved booking
whose room has a paid payment among the payments of the user. -/
theorem payment_tab_lists_unpaid_counterexample :
    (bookingData_Payment twoApprovedSameRoom [paidRoom10]).map (fun item => item.id) = [2] ∧
    getPaidBookingIds twoApprovedSameRoom [paidRoom10] = [1] ∧
    (∃ b ∈ twoApprovedSameRoom, b.row.id = 2 ∧ b.row.status = "Approved" ∧
      ∃ p ∈ [paidRoom10], p.payment_status = "Paid" ∧ p.room_id = b.row.room_id) ∧
    approvedUnpaid twoApprovedSameRoom [paidRoom10] = [] := by
  decide


/-! ## Claims on the transaction audit insertion -/

theorem run_steps_1_to_4 {env : Env} (ui : UiState) {s : Store} {id user : Id}
    {q : SearchParams} {bd : BookingData} {room : Room}
    (hf : (fetchBooking env s id user).data = some bd) (hroom : bd.rooms = some room)
    (hp : (lookupPayment env s q.payment_intent).data = none)
    (hten : (∃ t, (lookupTenant env s user bd.row.room_id).data = some t ∧ t.id ≠ 0) ∨
      env.tenantInsertError = none)
    (hpay : env.paymentInsertError = none) :
    ∃ tid sT pre,
      TenantResolution env s id user q.payment_intent bd.row.room_id tid sT pre ∧
      handlePaymentSuccess env ui s id user q =
        bestEffortSteps env
          { store := { sT with payments := sT.payments ++
              [paymentData env tid user bd.row room q.payment_intent] }
            ui := loadedUi bd
            calls := pre ++ [RemoteCall.insertPayment
              (paymentData env tid user bd.row room q.payment_intent)] }
          id user bd.row room q.payment_intent := by
  have hres : ∃ tid sT pre,
      TenantResolution env s id user q.payment_intent bd.row.room_id tid sT pre := by
    cases hid : existingTenantId (lookupTenant env s user bd.row.room_id) with
    | some tid =>
      obtain ⟨t, htd, h0, rfl⟩ := existingTenantId_eq_some.mp hid
      exact ⟨t.id, s, _, Or.inl ⟨t, htd, h0, rfl, rfl, rfl⟩⟩
    | none =>
      rcases hten with ⟨t, htd, h0⟩ | h
      · rw [existingTenantId_of_data_some htd h0] at hid
        cases hid
      · exact ⟨env.newTenantId, _, _, Or.inr ⟨hid, h, rfl, rfl, rfl⟩⟩
  obtain ⟨tid, sT, pre, hres⟩ := hres
  exact ⟨tid, sT, pre, hres, run_forward ui hf hroom hp hres hpay⟩

/-- C10. The transaction audit insertion is conditional and not fatal. Over
all runs: the audit insertion is issued exactly when the payment insertion
was issued and accepted (steps 1 to 4 succeeded) and the intent id is present
(a non-empty text); every audit row sent has status `succeeded`, currency
`PHP`, the monthly price of the room as amount and the intent id recorded;
without an intent id no audit insertion is issued; a rejected audit insertion
leaves the audit table unchanged and reports no error. On every input that
lets steps 1 to 4 succeed (the booking is loaded with its room, the payment
lookup returns no data, the tenant is found with a truthy key or its
insertion is accepted, and the payment insertion is accepted), steps 1 to 4
do succeed and: with an intent id present the run issues the audit insertion
of that row, followed by the booking update, the room update and the
notification insertion, and the audit table gains the row when the store
accepts it and is unchanged when the store rejects it; with the intent id
absent (null or empty) no audit insertion is issued and the payment insertion
is followed at once by the booking update, the room update and the
notification insertion; and in every case, whether or not the audit insertion
was issued or accepted, no error is reported, the booking ends `Approved`
when its update is accepted, the room ends `Occupied` when its update is
accepted, and the notification is appended when its insertion is accepted. -/
theorem transaction_audit_conditional (env : Env) (ui : UiState) (s : Store)
    (id user : Id) (q : SearchParams) :
    ((issuedTransactionInsert (handlePaymentSuccess env ui s id user q) = true ↔
      issuedPaymentInsert (handlePaymentSuccess env ui s id user q) = true ∧
        env.paymentInsertError = none ∧ ∃ i, q.payment_intent = some i ∧ i ≠ "") ∧
     (∀ row, RemoteCall.insertTransaction row ∈
          (handlePaymentSuccess env ui s id user q).calls →
        ∃ bd room i, (fetchBooking env s id user).data = some bd ∧ bd.rooms = some room ∧
          q.payment_intent = some i ∧ row.status = "succeeded" ∧ row.currency = "PHP" ∧
          row.amount = room.price_monthly ∧ row.stripe_payment_intent_id = i ∧
          row.booking_id = bd.row.id) ∧
     (q.payment_intent = none →
        issuedTransactionInsert (handlePaymentSuccess env ui s id user q) = false) ∧
     (∀ e, env.transactionInsertError = some e →
        (handlePaymentSuccess env ui s id user q).store.payment_transactions =
          s.payment_transactions)) ∧
    (∀ bd room, (fetchBooking env s id user).data = some bd → bd.rooms = some room →
      (lookupPayment env s q.payment_intent).data = none →
      ((∃ t, (lookupTenant env s user bd.row.room_id).data = some t ∧ t.id ≠ 0) ∨
        env.tenantInsertError = none) →
      env.paymentInsertError = none →
      fatalStepsSucceeded (handlePaymentSuccess env ui s id user q) ∧
      (∀ i, q.payment_intent = some i → i ≠ "" →
        issuedTransactionInsert (handlePaymentSuccess env ui s id user q) = true ∧
        (∃ pre, (handlePaymentSuccess env ui s id user q).calls =
          pre ++ [RemoteCall.insertTransaction (transactionData env bd.row room i),
            RemoteCall.updateBooking id, RemoteCall.updateRoom bd.row.room_id,
            RemoteCall.insertNotification (notificationRow env user room)]) ∧
        (env.transactionInsertError = none →
          (handlePaymentSuccess env ui s id user q).store.payment_transactions =
            s.payment_transactions ++ [transactionData env bd.row room i]) ∧
        (∀ e, env.transactionInsertError = some e →
          (handlePaymentSuccess env ui s id user q).store.payment_transactions =
            s.payment_transactions)) ∧
      (q.payment_intent = none ∨ q.payment_intent = some "" →
        issuedTransactionInsert (handlePaymentSuccess env ui s id user q) = false ∧
        (handlePaymentSuccess env ui s id user q).store.payment_transactions =
          s.payment_transactions ∧
        ∃ pre row, (handlePaymentSuccess env ui s id user q).calls =
          pre ++ [RemoteCall.insertPayment row, RemoteCall.updateBooking id,
            RemoteCall.updateRoom bd.row.room_id,
            RemoteCall.insertNotification (notificationRow env user room)]) ∧
      (handlePaymentSuccess env ui s id user q).ui.error = none ∧
      (env.bookingUpdateError = none →
        (∀ x ∈ (handlePaymentSuccess env ui s id user q).store.booking_requests,
          x.id = id → x.status = "Approved") ∧
        ∃ x ∈ (handlePaymentSuccess env ui s id user q).store.booking_requests, x.id = id) ∧
      (env.roomUpdateError = none →
        (∀ r ∈ (handlePaymentSuccess env ui s id user q).store.rooms,
          r.id = bd.row.room_id → r.status = "Occupied") ∧
        ∃ r ∈ (handlePaymentSuccess env ui s id user q).store.rooms,
          r.id = bd.row.room_id) ∧
      (env.notificationInsertError = none →
        (handlePaymentSuccess env ui s id user q).store.notifications =
          s.notifications ++ [notificationRow env user room])) := by
  obtain ⟨hA, hB, hC, _⟩ := transaction_audit_trace env ui s id user q
  refine ⟨⟨hA, hB, hC, ?_⟩, ?_⟩
  · intro e hte
    cases hi : issuedPaymentInsert (handlePaymentSuccess env ui s id user q) with
    | false => exact (run_without_payment_insert hi).2.2.2.2.1
    | true =>
      cases he : env.paymentInsertError with
      | some e2 =>
        obtain ⟨bd, room, tid, sT, pre, _, _, _, ht, hrun⟩ := run_payment_rejected hi he
        rw [hrun]
        exact (TenantResolution_frame ht).2.2.2.1
      | none =>
        obtain ⟨bd, room, tid, sT, pre, _, _, _, ht, hrun⟩ := run_payment_accepted hi he
        rw [hrun, bestEffortSteps_transactions, hte]
        cases truthy q.payment_intent <;> exact (TenantResolution_frame ht).2.2.2.1
  · intro bd room hf hroom hp hten hpay
    obtain ⟨tid, sT, pre, hres, hrun⟩ := @run_steps_1_to_4 env ui s id user q bd room hf hroom
      hp hten hpay
    obtain ⟨hbk, hrm, _, htx, hnt, _, _, hpreT⟩ := TenantResolution_frame hres
    have hfb := fetchBooking_data_some hf
    have hfind := hfb.2.2.2.2.2.2
    rw [hroom] at hfind
    have hrmem : room ∈ s.rooms := List.mem_of_find?_eq_some hfind.symm
    have hrid : room.id = bd.row.room_id := by
      have := List.find?_some hfind.symm
      simpa using this
    have hissued : issuedPaymentInsert (handlePaymentSuccess env ui s id user q) = true := by
      rw [hrun]
      unfold issuedPaymentInsert
      rw [bestEffortSteps_calls]
      simp [RemoteCall.isPaymentInsert]
    refine ⟨fatalStepsSucceeded_iff.mpr ⟨hissued, hpay⟩, ?_, ?_, ?_, ?_, ?_, ?_⟩
    · intro i hq hne
      have htr : truthy q.payment_intent = some i := truthy_eq_some.mpr ⟨hq, hne⟩
      refine ⟨hA.mpr ⟨hissued, hpay, i, hq, hne⟩, ?_, ?_, ?_⟩
      · refine ⟨pre ++ [RemoteCall.insertPayment
          (paymentData env tid user bd.row room q.payment_intent)], ?_⟩
        rw [hrun, bestEffortSteps_calls]
        simp [auditCalls, htr]
      · intro hte
        rw [hrun, bestEffortSteps_transactions, htr, hte]
        show sT.payment_transactions ++ _ = _
        rw [htx]
      · intro e hte
        rw [hrun, bestEffortSteps_transactions, htr, hte]
        exact htx
    · intro habs
      have htr : truthy q.payment_intent = none := truthy_eq_none.mpr habs
      refine ⟨?_, ?_, pre, paymentData env tid user bd.row room q.payment_intent, ?_⟩
      · cases h : issuedTransactionInsert (handlePaymentSuccess env ui s id user q) with
        | false => rfl
        | true =>
          obtain ⟨_, _, i, hq, hne⟩ := hA.mp h
          rw [truthy_eq_some.mpr ⟨hq, hne⟩] at htr
          cases htr
      · rw [hrun, bestEffortSteps_transactions, htr]
        exact htx
      · rw [hrun, bestEffortSteps_calls]
        simp [auditCalls, htr]
    · rw [hrun, bestEffortSteps_ui]
      rfl
    · intro hbu
      have hbm : bd.row ∈ sT.booking_requests := by
        rw [hbk]
        exact hfb.2.2.2.1
      constructor
      · rw [hrun, bestEffortSteps_bookings, hbu]
        exact setBookingApproved_status env _ id
      · rw [hrun, bestEffortSteps_bookings, hbu]
        obtain ⟨x, hxm, hxid, _, _⟩ := setBookingApproved_mem env
          { sT with payments := sT.payments ++
              [paymentData env tid user bd.row room q.payment_intent] } id bd.row hbm
          hfb.2.2.2.2.1
        exact ⟨x, hxm, hxid⟩
    · intro hru
      have hrm2 : room ∈ sT.rooms := by
        rw [hrm]
        exact hrmem
      constructor
      · rw [hrun, bestEffortSteps_rooms, hru]
        exact setRoomOccupied_status env _ bd.row.room_id
      · rw [hrun, bestEffortSteps_rooms, hru]
        exact setRoomOccupied_mem env
          { sT with payments := sT.payments ++
              [paymentData env tid user bd.row room q.payment_intent] } bd.row.room_id room
          hrm2 hrid
    · intro hne
      rw [hrun, bestEffortSteps_notifications, hne]
      show sT.notifications ++ _ = _
      rw [hnt]

/-- Witness of C10: booking B1 is paid with the intent `pi_123` while the
store rejects the audit insertion; the insertion is issued, the audit table
stays empty, no error is reported, the booking ends `Approved` and the room
`Occupied`. Without an intent id no audit insertion is issued. -/
theorem transaction_audit_conditional_witness :
    (issuedTransactionInsert (handlePaymentSuccess
        { envOk with transactionInsertError := some lostConnection } initialUi storeB1 1 7
        queryPi123) = true ∧
     (handlePaymentSuccess { envOk with transactionInsertError := some lostConnection }
        initialUi storeB1 1 7 queryPi123).store.payment_transactions = [] ∧
     (handlePaymentSuccess { envOk with transactionInsertError := some lostConnection }
        initialUi storeB1 1 7 queryPi123).ui.error = none ∧
     (handlePaymentSuccess { envOk with transactionInsertError := some lostConnection }
        initialUi storeB1 1 7 queryPi123).store.booking_requests.map
          (fun b => (b.id, b.status)) = [(1, "Approved")] ∧
     (handlePaymentSuccess { envOk with transactionInsertError := some lostConnection }
        initialUi storeB1 1 7 queryPi123).store.rooms.map
          (fun r => (r.id, r.status)) = [(10, "Occupied")]) ∧
    ((handlePaymentSuccess envOk initialUi storeB1 1 7
        queryPi123).store.payment_transactions.map
          (fun t => (t.status, t.currency, t.amount, t.stripe_payment_intent_id)) =
        [("succeeded", "PHP", 5000, "pi_123")]) ∧
    (issuedTransactionInsert (handlePaymentSuccess envOk initialUi storeB1 1 7
        queryNoIntent) = false ∧
     issuedPaymentInsert (handlePaymentSuccess envOk initialUi storeB1 1 7
        queryNoIntent) = true) :=
  have h := (transaction_audit_conditional
    { envOk with transactionInsertError := some lostConnection } initialUi storeB1 1 7
    queryPi123).2
    { row := { id := 1, room_id := 10, requestor := 7, status := "Pending" }
      rooms := some { id := 10, room_number := "101", price_monthly := 5000,
                      status := "Available" } }
    { id := 10, room_number := "101", price_monthly := 5000, status := "Available" }
    (by decide) rfl (by decide) (Or.inr rfl) rfl
  ⟨⟨(h.2.1 "pi_123" rfl (by decide)).1, by decide, h.2.2.2.1, by decide, by decide⟩,
   by decide, by decide, by decide⟩

end BoardEase
